import Mathlib

/-!
# DALI input operator: a shallow embedding

Sources: `dali/pipeline/operator/builtin/input_operator.h`, and, in their own
sections, `dali/kernels/dynamic_scratchpad.h`, `dali/core/cuda_event_pool_test.cc`,
`dali/benchmark/resnet50_nvjpeg_bench.cc` and `dali/util/cufile_helper.h`.

Stateful C++ is rendered as explicit state passing.  The operator object is the
structure `InputOperator`; the process-wide collaborators (memory, the CUDA event
pool, the sequence of library calls issued so far) are the structure `Env`.
A call that throws returns the state reached at the throw.  A call that sits in
`cv_.wait` with a false predicate has the outcome `blocked`.
-/

namespace dali

/-! ## Collaborator types that the header only includes -/

/-- Backend tag, the template parameter `Backend` of operators and tensor lists. -/
inductive Backend where
  | CPUBackend
  | MixedBackend
  | GPUBackend
  deriving DecidableEq, Repr

/-- Modelled from the spec: AccessOrder (its header is not among the sources).
"A tagged value - either host order (synchronous) or a device-stream handle bound
to a specific device id".  The default-constructed value `{}` has no value. -/
inductive AccessOrder where
  | unset
  | host
  | stream (handle : Nat) (device : Int)
  deriving DecidableEq, Repr

/-- The `has_value()` query: false only for the default-constructed order. -/
def AccessOrder.has_value : AccessOrder → Bool
  | .unset => false
  | _ => true

/-- The `is_device()` query: true for a stream order. -/
def AccessOrder.is_device : AccessOrder → Bool
  | .stream _ _ => true
  | _ => false

/-- The `device_id()` query of an order. -/
def AccessOrder.device_id : AccessOrder → Int
  | .stream _ d => d
  | _ => -1

/-- The constant `CPU_ONLY_DEVICE_ID` ("device id (-1 for host-only)"). -/
def CPU_ONLY_DEVICE_ID : Int := -1

/-- Library calls whose order matters to the claims; each is appended to
`Env.trace` at the point where the source issues it. -/
inductive Call where
  | ShareData (src : Option Nat)
  | Reset
  | Copy (src : Option Nat) (order : AccessOrder) (use_copy_kernel : Bool)
  | cudaEventRecord (event : Nat) (order : AccessOrder)
  | cudaEventSynchronize (event : Nat)
  | DALI_WARN
  | notify_one
  deriving DecidableEq, Repr

/-- Modelled from the spec: CUDAEventPool (cuda_event_pool.h is not among the
sources).  "Get(device_id) returns a CUDA event bound to device_id, creating one
if the pool is empty.  Put(event, device_id) returns it."  Events are handles;
`free` lists the returned events with their device, most recently returned
first; `created` counts the handles created so far. -/
structure CUDAEventPool where
  free : List (Int × Nat)
  created : Nat
  deriving DecidableEq, Repr

/-- Take the most recently returned event of the device out of a free list. -/
def CUDAEventPool.takeFree (device_id : Int) :
    List (Int × Nat) → Option (Nat × List (Int × Nat))
  | [] => none
  | (d, e) :: rest =>
    if d = device_id then some (e, rest)
    else match CUDAEventPool.takeFree device_id rest with
      | some (e', rest') => some (e', (d, e) :: rest')
      | none => none

/-- The pool operation `Get(device_id)`. -/
def CUDAEventPool.Get (pool : CUDAEventPool) (device_id : Int) : Nat × CUDAEventPool :=
  match CUDAEventPool.takeFree device_id pool.free with
  | some (e, rest) => (e, { pool with free := rest })
  | none => (pool.created, { pool with created := pool.created + 1 })

/-- The pool operation `Put(event, device_id)`. -/
def CUDAEventPool.Put (pool : CUDAEventPool) (event : Nat) (device_id : Int) : CUDAEventPool :=
  { pool with free := (device_id, event) :: pool.free }

/-- Modelled from the spec: TensorList (its header is not among the sources).
"An ordered batch of N tensors sharing a backend ... Attributes: backend, device
id, ..., pinned flag, contiguity flag, current access-order".  `buffer` is the
address of the storage backing the batch (the data pointer of its first sample),
absent when the list has no storage; `shares_data` tells that the storage belongs
to someone else. -/
structure TensorList where
  backend : Backend
  num_samples : Nat
  buffer : Option Nat
  pinned : Bool
  device_id : Int
  order : AccessOrder
  contiguous : Bool
  shares_data : Bool
  deriving DecidableEq, Repr

/-- Modelled from the spec: Tensor, one sample handed over by the caller. -/
structure Tensor where
  data : Nat
  nbytes : Nat
  pinned : Bool
  device_id : Int
  order : AccessOrder
  deriving DecidableEq, Repr

/-- The process-wide collaborators of the operator. `mem a` is the content of the
storage at address `a`; every address handed out so far is below `next_addr`;
`pinned_by_default` is the pinned flag of a newly constructed host buffer. -/
structure Env where
  mem : Nat → Nat
  next_addr : Nat
  event_pool : CUDAEventPool
  trace : List Call
  pinned_by_default : Bool

/-- Append one library call to the trace. -/
def Env.log (env : Env) (c : Call) : Env :=
  { env with trace := env.trace ++ [c] }

/-- The caller overwrites the storage at address `a`. -/
def Env.write (env : Env) (a v : Nat) : Env :=
  { env with mem := fun x => if x = a then v else env.mem x }

/-- The calls issued between two environments of one run. -/
def Env.callsSince (before after : Env) : List Call :=
  after.trace.drop before.trace.length

namespace TensorList

/-- A default-constructed tensor list. -/
def empty (backend : Backend) (pinned : Bool) : TensorList :=
  { backend := backend, num_samples := 0, buffer := none, pinned := pinned,
    device_id := CPU_ONLY_DEVICE_ID, order := AccessOrder.host, contiguous := true,
    shares_data := false }

/-- The query `is_pinned()`. -/
def is_pinned (t : TensorList) : Bool := t.pinned

/-- The query `IsContiguousInMemory()`. -/
def IsContiguousInMemory (t : TensorList) : Bool := t.contiguous

/-- The setter `set_pinned`. -/
def set_pinned (t : TensorList) (p : Bool) : TensorList := { t with pinned := p }

/-- The setter `set_device_id`. -/
def set_device_id (t : TensorList) (d : Int) : TensorList := { t with device_id := d }

/-- The setter `set_order`. -/
def set_order (t : TensorList) (o : AccessOrder) : TensorList := { t with order := o }

/-- The call `Reset()`: drop the storage, owned or shared. -/
def Reset (t : TensorList) (env : Env) : TensorList × Env :=
  ({ t with num_samples := 0, buffer := none, shares_data := false }, env.log Call.Reset)

/-- The call `ShareData(src)`: "a direct buffer share"; the list takes over the
storage and the attributes of the source without copying. -/
def ShareData (t : TensorList) (src : TensorList) (env : Env) : TensorList × Env :=
  ({ t with num_samples := src.num_samples, buffer := src.buffer, pinned := src.pinned,
            device_id := src.device_id, order := src.order, contiguous := src.contiguous,
            shares_data := true },
   env.log (Call.ShareData src.buffer))

/-- The call `Copy(src, order, use_copy_kernel)`: the copy path "allocates (or
reuses a recycled) destination buffer".  A list that has storage is written in
place (hence the source comment "Do not overwrite the buffer if it shares data"
before the one `Reset`); a list without storage gets a new allocation. -/
def Copy (t : TensorList) (src : TensorList) (order : AccessOrder) (use_copy_kernel : Bool)
    (env : Env) : TensorList × Env :=
  let dst : Nat := match t.buffer with
    | some p => p
    | none => env.next_addr
  let next : Nat := match t.buffer with
    | some _ => env.next_addr
    | none => env.next_addr + 1
  let mem' : Nat → Nat := match src.buffer with
    | some s => fun a => if a = dst then env.mem s else env.mem a
    | none => env.mem
  ({ t with num_samples := src.num_samples, buffer := some dst, contiguous := true },
   { env with mem := mem', next_addr := next,
              trace := env.trace ++ [Call.Copy src.buffer order use_copy_kernel] })

/-- Whether the samples of a vector of tensors lie back to back in memory. -/
def adjacent : List Tensor → Bool
  | [] => true
  | [_] => true
  | a :: b :: rest => (a.data + a.nbytes == b.data) && adjacent (b :: rest)

/-- The list built by the vector overload of `SetDataSource`:
`tl(size)`, `tl.SetupLike(v[0])`, then `tl.SetSample(i, v[i])` for every sample. -/
def ofTensors (backend : Backend) (first : Tensor) (rest : List Tensor) : TensorList :=
  { backend := backend, num_samples := rest.length + 1, buffer := some first.data,
    pinned := first.pinned, device_id := first.device_id, order := first.order,
    contiguous := adjacent (first :: rest), shares_data := true }

end TensorList

/-! ## `detail::InputQueueItem` -/

/-- The nested class `InputQueueItem::EventLease`. -/
structure EventLease where
  device_id_ : Int := -1
  event_ : Option Nat := none
  deriving DecidableEq, Repr

namespace EventLease

/-- The accessor `device_id()`. -/
def device_id (l : EventLease) : Int := l.device_id_

/-- The method `Put()`. -/
def Put (l : EventLease) (pool : CUDAEventPool) : EventLease × CUDAEventPool :=
  let pool' := match l.event_ with
    | some e => pool.Put e l.device_id_
    | none => pool
  ({ device_id_ := -1, event_ := none }, pool')

/-- The method `Get(device_id)`. -/
def Get (l : EventLease) (device_id : Int) (pool : CUDAEventPool) :
    EventLease × CUDAEventPool :=
  let (l1, pool1) := if device_id ≠ l.device_id_ then l.Put pool else (l, pool)
  match l1.event_ with
  | none =>
    let (e, pool2) := pool1.Get device_id
    ({ device_id_ := device_id, event_ := some e }, pool2)
  | some _ => (l1, pool1)

end EventLease

/-- The struct `detail::InputQueueItem`. -/
structure InputQueueItem where
  data : TensorList
  data_id : Option String := none
  copy_complete : EventLease := {}
  copy_performed : Bool := false
  copy_requested : Bool := false
  deriving DecidableEq, Repr

/-- The method `InputQueueItem::GetCompletionEvent`; returns the leased event. -/
def InputQueueItem.GetCompletionEvent (it : InputQueueItem) (device_id : Int)
    (pool : CUDAEventPool) : Option Nat × InputQueueItem × CUDAEventPool :=
  let (l, pool') := it.copy_complete.Get device_id pool
  (l.event_, { it with copy_complete := l }, pool')

/-! ## `CachingList` -/

/-- What a call can throw: the exception of `DALI_FAIL` / `DALI_ENFORCE` with its
message, or an exception of another kind that a collaborator of the operator
lets through, named by its description. -/
inductive Failure where
  | DALIException (msg : String)
  | exception (what : String)
  deriving DecidableEq, Repr

/-- Modelled from the spec: CachingList (caching_list.h is not among the sources).
"A FIFO of items with a side cache of recycled ... items", with a lookahead
cursor, the prophet.  `full_data` is the live queue, oldest first; `empty_data`
is the recycle cache; `prophet` is the position of the lookahead cursor in the
live queue, equal to its length when the cursor is at the live tail. -/
structure CachingList (T : Type) where
  full_data : List T
  empty_data : List T
  prophet : Nat
  deriving DecidableEq, Repr

/-- What the prophet reads do when the cursor is at the live tail.  Neither the
sources (caching_list.h is not among them) nor the specification say, so it is
a parameter of the model: `PeekProphet` is how the read ends there, with an
item or with a failure, and `AdvanceProphet` is how that call ends there and
the queue it leaves. -/
structure ProphetAtTail (T : Type) where
  PeekProphet : CachingList T → Except Failure T
  AdvanceProphet : CachingList T → Except Failure Unit × CachingList T

namespace CachingList

variable {T : Type}

/-- The query `IsEmpty()`: no live item. -/
def IsEmpty (q : CachingList T) : Bool := q.full_data.isEmpty

/-- "GetEmpty returns an item from the recycle cache (allocating a new one if
empty)"; `fresh` is the newly constructed item. -/
def GetEmpty (q : CachingList T) (fresh : T) : T × CachingList T :=
  match q.empty_data with
  | [] => (fresh, q)
  | x :: rest => (x, { q with empty_data := rest })

/-- "PushBack appends a filled item to the live queue". -/
def PushBack (q : CachingList T) (x : T) : CachingList T :=
  { q with full_data := q.full_data ++ [x] }

/-- "Recycle returns a consumed item to the cache for reuse"; "after
Recycle(item), the next GetEmpty() returns the same underlying storage". -/
def Recycle (q : CachingList T) (x : T) : CachingList T :=
  { q with empty_data := x :: q.empty_data }

/-- "CanProphetAdvance is true iff the prophet has not reached the live tail". -/
def CanProphetAdvance (q : CachingList T) : Bool := decide (q.prophet < q.full_data.length)

/-- The read-ahead `PeekProphet`: the item under the cursor; at the live tail
the read ends as the queue at hand decides. -/
def PeekProphet (q : CachingList T) (tail : ProphetAtTail T) : Except Failure T :=
  match q.full_data.get? q.prophet with
  | some x => Except.ok x
  | none => tail.PeekProphet q

/-- The read-ahead `AdvanceProphet`: move the cursor one item on; at the live
tail the call ends, and leaves the queue, as the queue at hand decides. -/
def AdvanceProphet (q : CachingList T) (tail : ProphetAtTail T) :
    Except Failure Unit × CachingList T :=
  if q.prophet < q.full_data.length then (Except.ok (), { q with prophet := q.prophet + 1 })
  else tail.AdvanceProphet q

end CachingList

/-! ## Copy modes and results -/

/-- The enum `InputOperatorCopyMode`. -/
inductive InputOperatorCopyMode where
  | DEFAULT
  | FORCE_COPY
  | FORCE_NO_COPY
  deriving DecidableEq, Repr

/-- The struct `InputOperatorSettingMode`. -/
structure InputOperatorSettingMode where
  sync : Bool := false
  use_copy_kernel : Bool := false
  copy_mode : InputOperatorCopyMode := InputOperatorCopyMode.DEFAULT
  deriving DecidableEq, Repr

/-- How a call ends: it returns a value, it throws, or it stays in `cv_.wait`
because the wait predicate is false in this state. -/
inductive Outcome (α : Type) where
  | returned (a : α)
  | threw (f : Failure)
  | blocked
  deriving DecidableEq, Repr

/-- Whether the call threw. -/
def Outcome.failed {α : Type} : Outcome α → Bool
  | .threw _ => true
  | _ => false

/-- Whether the call returned normally. -/
def Outcome.succeeded {α : Type} : Outcome α → Bool
  | .returned _ => true
  | _ => false

/-! ## `InputOperator` -/

/-- The class `InputOperator<Backend>`: the template parameter and the data
members.  `internal_copy_stream_` is the handle of the stream leased for a GPU
operator. -/
structure InputOperator where
  backend : Backend
  device_id_ : Int
  blocking_ : Bool
  no_copy_ : Bool
  running_ : Bool
  tl_data_ : CachingList InputQueueItem
  zero_copy_noncontiguous_gpu_input_ : Bool
  internal_copy_stream_ : Nat
  deriving DecidableEq, Repr

/-- The alias `InBackend`: GPU for a GPU operator, CPU for CPU and Mixed. -/
def InBackend : Backend → Backend
  | .GPUBackend => .GPUBackend
  | _ => .CPUBackend

/-- The alias `OutBackend`: CPU for a CPU operator, GPU for GPU and Mixed. -/
def OutBackend : Backend → Backend
  | .CPUBackend => .CPUBackend
  | _ => .GPUBackend

/-- The result of a call on the operator: outcome and the state it leaves. -/
structure Step (α : Type) where
  outcome : Outcome α
  op : InputOperator
  env : Env

namespace InputOperator

/-- The member `internal_copy_order_` as the constructor leaves it: the leased
stream on the operator device for a GPU operator, host order otherwise. -/
def internal_copy_order_ (op : InputOperator) : AccessOrder :=
  if op.backend = Backend.GPUBackend then
    AccessOrder.stream op.internal_copy_stream_ op.device_id_
  else AccessOrder.host

/-- The method `WouldCopy`. -/
def WouldCopy (op : InputOperator) (mode : InputOperatorCopyMode) : Bool :=
  match mode with
  | .FORCE_COPY => true
  | .FORCE_NO_COPY => false
  | _ => !op.no_copy_

/-- The method `BreakWaiting`: clears `running_`; `notify_all` makes every waiter
evaluate its wait predicate again, in the new state. -/
def BreakWaiting (op : InputOperator) : InputOperator :=
  { op with running_ := false }

/-- The method `HasDataInQueue`. -/
def HasDataInQueue (op : InputOperator) : Bool := !op.tl_data_.IsEmpty

/-- The method `HandleDataAvailability`. -/
def HandleDataAvailability (op : InputOperator) : Outcome Unit × InputOperator :=
  if op.blocking_ then
    if op.HasDataInQueue then (Outcome.returned (), op) else (Outcome.blocked, op)
  else
    if !op.HasDataInQueue then
      (Outcome.threw (Failure.DALIException
        "No data was provided to the InputOperator. Make sure to feed it properly."), op)
    else (Outcome.returned (), op)

/-- The method `NextBatchSize`; `tail` is what the queue at hand does on a
prophet read at the live tail. -/
def NextBatchSize (op : InputOperator) (tail : ProphetAtTail InputQueueItem) :
    Outcome Nat × InputOperator :=
  if op.blocking_ && !(!op.running_ || op.tl_data_.CanProphetAdvance) then
    (Outcome.blocked, op)
  else
    match op.tl_data_.PeekProphet tail with
    | .ok item => (Outcome.returned item.data.num_samples, op)
    | .error f => (Outcome.threw f, op)

/-- The method `Advance`; `tail` is what the queue at hand does on a prophet
read at the live tail. -/
def Advance (op : InputOperator) (tail : ProphetAtTail InputQueueItem) :
    Outcome Unit × InputOperator :=
  if op.blocking_ && !(!op.running_ || op.tl_data_.CanProphetAdvance) then
    (Outcome.blocked, op)
  else
    match op.tl_data_.AdvanceProphet tail with
    | (.ok _, q) => (Outcome.returned (), { op with tl_data_ := q })
    | (.error f, q) => (Outcome.threw f, { op with tl_data_ := q })

/-- The method `GetEmptyOutputBatch`. -/
def GetEmptyOutputBatch (op : InputOperator) (env : Env) (data_id : Option String) :
    InputQueueItem × InputOperator :=
  let fresh : InputQueueItem :=
    { data := TensorList.empty (InBackend op.backend) env.pinned_by_default }
  let (result, q) := op.tl_data_.GetEmpty fresh
  let data_device_id : Int :=
    if op.backend = Backend.GPUBackend || result.data.is_pinned then op.device_id_
    else CPU_ONLY_DEVICE_ID
  let data := (result.data.set_device_id data_device_id).set_order op.internal_copy_order_
  ({ result with data := data, data_id := data_id }, { op with tl_data_ := q })

/-- The method `RecycleBuffer`. -/
def RecycleBuffer (op : InputOperator) (env : Env) (data : InputQueueItem) :
    InputOperator × Env :=
  let (l, pool) := data.copy_complete.Put env.event_pool
  ({ op with tl_data_ := op.tl_data_.Recycle { data with copy_complete := l } },
   { env with event_pool := pool })

/-- The message of the `DALI_FAIL` in the mismatching `ShareUserData`. -/
def no_copy_mismatch_message (src_backend backend : Backend) : String :=
  "no_copy is supported only for the same data source device type as operator. Received: "
    ++ (if src_backend = Backend.CPUBackend then "CPU" else "GPU")
    ++ " input for "
    ++ (if backend = Backend.CPUBackend then "CPU" else "GPU")
    ++ " operator."

/-- The overload of `ShareUserData` for a source backend other than `InBackend`. -/
def ShareUserData_mismatch (op : InputOperator) (env : Env) (t : TensorList) : Step Unit :=
  { outcome := Outcome.threw
      (Failure.DALIException (no_copy_mismatch_message t.backend op.backend)),
    op := op, env := env }

/-- The overload of `ShareUserData` for a host source on a host-input operator. -/
def ShareUserData_host (op : InputOperator) (env : Env) (batch : TensorList)
    (data_id : Option String) : Step Unit :=
  let (tl_elm0, op1) := op.GetEmptyOutputBatch env data_id
  let tl_elm1 := { tl_elm0 with copy_requested := false, copy_performed := true }
  -- set pinned if needed
  let (data2, env2) :=
    if batch.is_pinned != tl_elm1.data.is_pinned then
      let (d, e) := tl_elm1.data.Reset env
      (d.set_pinned batch.is_pinned, e)
    else (tl_elm1.data, env)
  let (data3, env3) := data2.ShareData batch env2
  let tl_elm3 := { tl_elm1 with data := data3 }
  { outcome := Outcome.returned (),
    op := { op1 with tl_data_ := op1.tl_data_.PushBack tl_elm3 },
    env := env3 }

/-- The overload of `ShareUserData` for a device source on a GPU operator. -/
def ShareUserData_device (op : InputOperator) (env : Env) (batch : TensorList)
    (data_id : Option String) (order : AccessOrder) (use_copy_kernel : Bool) : Step Unit :=
  let (tl_elm0, op1) := op.GetEmptyOutputBatch env data_id
  let order1 : AccessOrder :=
    if !order.has_value then
      (if batch.order.is_device then batch.order else tl_elm0.data.order)
    else order
  -- We can share only contiguous tensor lists that are stored on the same device.
  if batch.IsContiguousInMemory && batch.device_id == op.device_id_ then
    let (data1, env1) := tl_elm0.data.ShareData batch env
    let op2 := { op1 with zero_copy_noncontiguous_gpu_input_ := true }
    let tl_elm1 := { tl_elm0 with data := data1, copy_performed := false,
                                  copy_requested := false }
    { outcome := Outcome.returned (),
      op := { op2 with tl_data_ := op2.tl_data_.PushBack tl_elm1 },
      env := env1 }
  else
    -- Do not overwrite the buffer if it shares data.
    let (data1, env1) :=
      if tl_elm0.data.shares_data then tl_elm0.data.Reset env else (tl_elm0.data, env)
    let (data2, env2) := data1.Copy batch order1 use_copy_kernel env1
    let tl_elm2 := { tl_elm0 with data := data2 }
    let (tl_elm3, env3) :=
      if order1.is_device then
        let (event, it, pool) := tl_elm2.GetCompletionEvent order1.device_id env2.event_pool
        let env_e := { env2 with event_pool := pool }
        (it, match event with
             | some e => env_e.log (Call.cudaEventRecord e order1)
             | none => env_e)
      else (tl_elm2, env2)
    let env4 := if op1.zero_copy_noncontiguous_gpu_input_ then env3.log Call.DALI_WARN else env3
    let tl_elm4 := { tl_elm3 with copy_performed := true, copy_requested := false }
    { outcome := Outcome.returned (),
      op := { op1 with tl_data_ := op1.tl_data_.PushBack tl_elm4 },
      env := env4 }

/-- The method `ShareUserData`: overload resolution on the source backend. -/
def ShareUserData (op : InputOperator) (env : Env) (batch : TensorList)
    (data_id : Option String) (order : AccessOrder) (use_copy_kernel : Bool) : Step Unit :=
  if batch.backend ≠ InBackend op.backend then ShareUserData_mismatch op env batch
  else if batch.backend = Backend.CPUBackend then ShareUserData_host op env batch data_id
  else ShareUserData_device op env batch data_id order use_copy_kernel

/-- The overload of `CopyUserData` for a host-input operator (CPU and Mixed);
`sync` and `use_copy_kernel` are unnamed, unused parameters there. -/
def CopyUserData_host (op : InputOperator) (env : Env) (batch : TensorList)
    (data_id : Option String) (order : AccessOrder) : Step Unit :=
  let (tl_elm0, op1) := op.GetEmptyOutputBatch env data_id
  -- set pinned if needed
  let data1 := tl_elm0.data.set_order AccessOrder.host
  let (data2, env2) :=
    if batch.is_pinned != data1.is_pinned then
      let (d, e) := data1.Reset env
      let d1 := d.set_pinned batch.is_pinned
      let d2 := if op.backend = Backend.CPUBackend then
                  d1.set_device_id (if d1.is_pinned then op.device_id_ else CPU_ONLY_DEVICE_ID)
                else d1
      (d2, e)
    else (data1, env)
  let copy_order : AccessOrder :=
    if batch.backend = Backend.CPUBackend then
      AccessOrder.host  -- do not use a device order for a host to host copy
    else order
  let (data3, env3) := data2.Copy batch copy_order false env2
  let tl_elm3 := { tl_elm0 with data := data3, copy_requested := true, copy_performed := true }
  { outcome := Outcome.returned (),
    op := { op1 with tl_data_ := op1.tl_data_.PushBack tl_elm3 },
    env := env3 }

/-- The overload of `CopyUserData` for a device-input operator (GPU). -/
def CopyUserData_device (op : InputOperator) (env : Env) (batch : TensorList)
    (data_id : Option String) (order : AccessOrder) (sync use_copy_kernel : Bool) :
    Step Unit :=
  let (tl_elm0, op1) := op.GetEmptyOutputBatch env data_id
  let order1 : AccessOrder := if !order.is_device then tl_elm0.data.order else order
  let (data1, env1) := tl_elm0.data.Copy batch order1 use_copy_kernel env
  let tl_elm1 := { tl_elm0 with data := data1 }
  let copy_device : Int := if order1.is_device then order1.device_id else tl_elm1.data.device_id
  let (event, tl_elm2, pool) := tl_elm1.GetCompletionEvent copy_device env1.event_pool
  let env2 := { env1 with event_pool := pool }
  let env3 := match event with
    | some e =>
      let env_r := env2.log (Call.cudaEventRecord e order1)
      if sync then env_r.log (Call.cudaEventSynchronize e) else env_r
    | none => env2
  let tl_elm3 := { tl_elm2 with copy_requested := true, copy_performed := true }
  { outcome := Outcome.returned (),
    op := { op1 with tl_data_ := op1.tl_data_.PushBack tl_elm3 },
    env := env3 }

/-- The method `CopyUserData`: overload resolution on `InBackend`. -/
def CopyUserData (op : InputOperator) (env : Env) (batch : TensorList)
    (data_id : Option String) (order : AccessOrder) (sync use_copy_kernel : Bool) :
    Step Unit :=
  if InBackend op.backend = Backend.CPUBackend then
    CopyUserData_host op env batch data_id order
  else CopyUserData_device op env batch data_id order sync use_copy_kernel

/-- The method `SetDataSourceHelper`; `cv_.notify_one()` is reached only when
the chosen path returned. -/
def SetDataSourceHelper (op : InputOperator) (env : Env) (batch : TensorList)
    (data_id : Option String) (order : AccessOrder)
    (ext_src_setting_mode : InputOperatorSettingMode) : Step Unit :=
  let actual_no_copy : Bool :=
    match ext_src_setting_mode.copy_mode with
    | .FORCE_COPY => false
    | .FORCE_NO_COPY => true
    | _ => op.no_copy_
  let r : Step Unit :=
    if actual_no_copy then
      ShareUserData op env batch data_id order ext_src_setting_mode.use_copy_kernel
    else
      CopyUserData op env batch data_id order ext_src_setting_mode.sync
        ext_src_setting_mode.use_copy_kernel
  match r.outcome with
  | .returned _ => { r with env := r.env.log Call.notify_one }
  | _ => r

/-- The overload `SetDataSource(const TensorList<SrcBackend> &, ...)`. -/
def SetDataSource_TensorList (op : InputOperator) (env : Env) (tl : TensorList)
    (order : AccessOrder) (ext_src_setting_mode : InputOperatorSettingMode)
    (data_id : Option String) : Step Unit :=
  SetDataSourceHelper op env tl data_id order ext_src_setting_mode

/-- The overload `SetDataSource(const vector<Tensor<SrcBackend>> &, ...)`. -/
def SetDataSource_vector (op : InputOperator) (env : Env) (src_backend : Backend)
    (vect_of_tensors : List Tensor) (order : AccessOrder)
    (ext_src_setting_mode : InputOperatorSettingMode) (data_id : Option String) : Step Unit :=
  match vect_of_tensors with
  | [] =>
    { outcome := Outcome.threw (Failure.DALIException "Provided batch cannot be empty."),
      op := op, env := env }
  | first :: rest =>
    SetDataSourceHelper op env (TensorList.ofTensors src_backend first rest) data_id order
      ext_src_setting_mode

end InputOperator

/-! ## Feeds in sequence -/

/-- One call of `SetDataSource`, through either overload, with its arguments. -/
inductive Feed where
  | tensorList (tl : TensorList) (order : AccessOrder)
      (ext_src_setting_mode : InputOperatorSettingMode) (data_id : Option String)
  | vector (src_backend : Backend) (vect_of_tensors : List Tensor) (order : AccessOrder)
      (ext_src_setting_mode : InputOperatorSettingMode) (data_id : Option String)

/-- The `data_id` argument of a feed. -/
def Feed.data_id : Feed → Option String
  | .tensorList _ _ _ id => id
  | .vector _ _ _ _ id => id

/-- Issue the call. -/
def Feed.run (f : Feed) (op : InputOperator) (env : Env) : Step Unit :=
  match f with
  | .tensorList tl order mode id => op.SetDataSource_TensorList env tl order mode id
  | .vector b v order mode id => op.SetDataSource_vector env b v order mode id

/-- Issue the calls one after the other with no consumption in between; the flag
tells whether every call returned, and the run stops at the first that threw. -/
def FeedAll : List Feed → InputOperator → Env → Bool × InputOperator × Env
  | [], op, env => (true, op, env)
  | f :: fs, op, env =>
    match (f.run op env).outcome with
    | .returned _ => FeedAll fs (f.run op env).op (f.run op env).env
    | _ => (false, (f.run op env).op, (f.run op env).env)

/-- The data-model invariant "copy_performed implies completion event has been
recorded in the producer order (or the copy was host-synchronous)", read on an
item and the calls of the feed that filled it: some `Copy` of the feed was made
in host order, or in an order in which the event leased by the item was
recorded. -/
def InputQueueItem.CompletionInvariant (it : InputQueueItem) (calls : List Call) : Bool :=
  !it.copy_performed ||
  calls.any (fun c =>
    match c with
    | Call.Copy _ o _ =>
      (o == AccessOrder.host) ||
        (match it.copy_complete.event_ with
         | some e => calls.contains (Call.cudaEventRecord e o)
         | none => false)
    | _ => false)

/-! ## Concrete states used to evaluate the definitions -/

namespace Example

/-- An environment in which the storage at address `a` holds the value `a`. -/
def env0 : Env :=
  { mem := fun a => a, next_addr := 100, event_pool := { free := [], created := 0 },
    trace := [], pinned_by_default := false }

/-- A queue with no live and no recycled item. -/
def emptyQueue : CachingList InputQueueItem :=
  { full_data := [], empty_data := [], prophet := 0 }

/-- A non-blocking CPU operator that copies by default. -/
def cpuOp : InputOperator :=
  { backend := Backend.CPUBackend, device_id_ := 0, blocking_ := false, no_copy_ := false,
    running_ := true, tl_data_ := emptyQueue, zero_copy_noncontiguous_gpu_input_ := false,
    internal_copy_stream_ := 7 }

/-- The same operator with `blocking` set. -/
def blockingOp : InputOperator := { cpuOp with blocking_ := true }

/-- A Mixed operator (host input). -/
def mixedOp : InputOperator := { cpuOp with backend := Backend.MixedBackend }

/-- A GPU operator (device input). -/
def gpuOp : InputOperator := { cpuOp with backend := Backend.GPUBackend }

/-- A contiguous host batch of four samples at address 5. -/
def hostBatch : TensorList :=
  { backend := Backend.CPUBackend, num_samples := 4, buffer := some 5, pinned := false,
    device_id := CPU_ONLY_DEVICE_ID, order := AccessOrder.host, contiguous := true,
    shares_data := false }

/-- A contiguous device batch of four samples at address 6 on device 0. -/
def deviceBatch : TensorList :=
  { backend := Backend.GPUBackend, num_samples := 4, buffer := some 6, pinned := false,
    device_id := 0, order := AccessOrder.stream 3 0, contiguous := true,
    shares_data := false }

/-- A host tensor list with no sample. -/
def emptyBatch : TensorList := TensorList.empty Backend.CPUBackend false

/-- A recycled, logically empty item that owns the storage at address 50. -/
def recycledItem : InputQueueItem :=
  { data := { backend := Backend.CPUBackend, num_samples := 0, buffer := some 50,
              pinned := false, device_id := CPU_ONLY_DEVICE_ID, order := AccessOrder.host,
              contiguous := true, shares_data := false } }

/-- A CPU operator with `no_copy` set whose recycle cache holds one item. -/
def recycledOp : InputOperator :=
  { cpuOp with
    no_copy_ := true,
    tl_data_ := { full_data := [], empty_data := [recycledItem], prophet := 0 } }

/-- A blocking operator that holds one live item, already passed by the prophet. -/
def drainedOp : InputOperator :=
  { blockingOp with
    tl_data_ := { full_data := [{ data := hostBatch }], empty_data := [], prophet := 1 } }

/-- One queue among those the model allows: a prophet read at the live tail
throws and leaves the queue as it is. -/
def throwingTail : ProphetAtTail InputQueueItem :=
  { PeekProphet := fun _ => Except.error (Failure.exception "prophet at the live tail"),
    AdvanceProphet := fun q => (Except.error (Failure.exception "prophet at the live tail"), q) }

/-- The CPU example operator is fed the host batch with FORCE_NO_COPY. -/
def sharedFeed : Step Unit :=
  cpuOp.SetDataSource_TensorList env0 hostBatch AccessOrder.unset
    { copy_mode := InputOperatorCopyMode.FORCE_NO_COPY } none

/-- The state after that feed once the consumer has taken the queued item out of
the live queue and handed it to `RecycleBuffer`. -/
def sharedRecycled : InputOperator × Env :=
  match sharedFeed.op.tl_data_.full_data with
  | item :: rest =>
    InputOperator.RecycleBuffer
      { sharedFeed.op with tl_data_ := { sharedFeed.op.tl_data_ with full_data := rest } }
      sharedFeed.env item
  | [] => (sharedFeed.op, sharedFeed.env)

/-- The GPU example operator is fed the device batch with FORCE_NO_COPY. -/
def sharedDeviceFeed : Step Unit :=
  gpuOp.SetDataSource_TensorList env0 deviceBatch AccessOrder.unset
    { copy_mode := InputOperatorCopyMode.FORCE_NO_COPY } none

/-- The state after that feed once the consumer has taken the queued item out of
the live queue and handed it to `RecycleBuffer`. -/
def sharedDeviceRecycled : InputOperator × Env :=
  match sharedDeviceFeed.op.tl_data_.full_data with
  | item :: rest =>
    InputOperator.RecycleBuffer
      { sharedDeviceFeed.op with
        tl_data_ := { sharedDeviceFeed.op.tl_data_ with full_data := rest } }
      sharedDeviceFeed.env item
  | [] => (sharedDeviceFeed.op, sharedDeviceFeed.env)

end Example

/-! ## `DynamicScratchpad` (dali/kernels/dynamic_scratchpad.h) -/

namespace kernels

/-- The memory kinds of the pack `Kinds...` of `DynamicScratchpadImpl`, which are
the valid values of `mm::memory_kind_id`. -/
inductive memory_kind where
  | host
  | pinned
  | device
  | managed
  deriving DecidableEq, Repr

/-- One value per memory kind: the `std::tuple` and `std::array` members indexed
by `index_in_pack<Kind, Kinds...>`. -/
structure PerKind (α : Type) where
  host : α
  pinned : α
  device : α
  managed : α
  deriving DecidableEq, Repr

/-- The element of a kind. -/
def PerKind.get {α : Type} (t : PerKind α) : memory_kind → α
  | .host => t.host
  | .pinned => t.pinned
  | .device => t.device
  | .managed => t.managed

/-- Assign the element of a kind. -/
def PerKind.set {α : Type} (t : PerKind α) (k : memory_kind) (a : α) : PerKind α :=
  match k with
  | .host => { t with host := a }
  | .pinned => { t with pinned := a }
  | .device => { t with device := a }
  | .managed => { t with managed := a }

/-- What an upstream pointer of a monotonic resource points at: the default
resource of a kind (`mm::GetDefaultResource<Kind>()`) or the adapter of a kind
held by the scratchpad (`&adapter<Kind>()`). -/
inductive resource_ref where
  | default_resource (k : memory_kind)
  | adapter (k : memory_kind)
  deriving DecidableEq, Repr

/-- Modelled from the spec: mm::fixed_order_resource (its header is not among
the sources), the "fixed-order adapter parameterized by an allocation
access-order and a deallocation access-order" over an upstream pool. `upstream`
is the kind whose default resource it wraps, absent when default-constructed. -/
structure fixed_order_resource where
  upstream : Option memory_kind := none
  alloc_order : AccessOrder := AccessOrder.unset
  dealloc_order : AccessOrder := AccessOrder.unset
  deriving DecidableEq, Repr

/-- Modelled from the spec: mm::monotonic_memory_resource (its header is not
among the sources), the "monotonic (bump) sub-allocator layered on an upstream
pool".  `curr` and `limit` bound the free part of the current block, `blocks`
lists the blocks taken from upstream (address and size, newest first) and
`next_block_size` is the size of the next block.  A default-constructed resource
has no upstream. -/
structure monotonic_memory_resource where
  upstream : Option resource_ref := none
  next_block_size : Nat := 0
  curr : Nat := 0
  limit : Nat := 0
  blocks : List (Nat × Nat) := []
  deriving DecidableEq, Repr

/-- The constructor `monotonic_memory_resource(upstream, next_block_size)`. -/
def monotonic_memory_resource.create (upstream : resource_ref) (next_block_size : Nat) :
    monotonic_memory_resource :=
  { upstream := some upstream, next_block_size := next_block_size }

/-- What the scratchpad does to the memory system: it materialises the upstream
of a kind, and it asks an upstream for a block, in an order when the upstream is
an adapter. -/
inductive MmCall where
  | InitResource (k : memory_kind)
  | upstream_allocate (r : resource_ref) (bytes alignment : Nat) (order : Option AccessOrder)
  deriving DecidableEq, Repr

/-- The memory system around the scratchpad: the first address no upstream has
handed out yet and the calls made so far. -/
structure MmEnv where
  top : Nat
  calls : List MmCall
  deriving DecidableEq, Repr

/-- Round an address up to a multiple of the alignment. -/
def align_up (a alignment : Nat) : Nat :=
  if alignment ≤ 1 then a else ((a + alignment - 1) / alignment) * alignment

/-- The struct `DynamicScratchpadImplT` with the members of `DynamicScratchpad`. -/
structure DynamicScratchpad where
  adapters_ : PerKind fixed_order_resource
  resources_ : PerKind monotonic_memory_resource
  initial_sizes_ : PerKind Nat
  device_order_ : AccessOrder
  pinned_dealloc_order_ : AccessOrder
  managed_dealloc_order_ : AccessOrder
  deriving DecidableEq, Repr

namespace DynamicScratchpad

/-- The accessor `initial_size<Kind>()`. -/
def initial_size (sp : DynamicScratchpad) (k : memory_kind) : Nat := sp.initial_sizes_.get k

/-- The accessor `resource<Kind>()`. -/
def resource (sp : DynamicScratchpad) (k : memory_kind) : monotonic_memory_resource :=
  sp.resources_.get k

/-- The accessor `adapter<Kind>()`. -/
def adapter (sp : DynamicScratchpad) (k : memory_kind) : fixed_order_resource :=
  sp.adapters_.get k

/-- The overload `set_upstream_resource(mm::memory_resource<Kind> *rsrc)`: the
resource of the kind is replaced by a new monotonic resource over `rsrc`. -/
def set_upstream_resource (sp : DynamicScratchpad) (k : memory_kind) (rsrc : resource_ref) :
    DynamicScratchpad :=
  { sp with resources_ :=
      sp.resources_.set k (monotonic_memory_resource.create rsrc (sp.initial_size k)) }

/-- The overload `set_upstream_resource(mm::async_memory_resource<Kind> *rsrc,
alloc_order, dealloc_order = {})`, applied to the default resource of the kind. -/
def set_upstream_resource_async (sp : DynamicScratchpad) (k : memory_kind)
    (alloc_order : AccessOrder) (dealloc_order : AccessOrder) : DynamicScratchpad :=
  let dealloc_order1 := if !dealloc_order.has_value then alloc_order else dealloc_order
  let a : fixed_order_resource :=
    { upstream := some k, alloc_order := alloc_order, dealloc_order := dealloc_order1 }
  let sp1 := { sp with adapters_ := sp.adapters_.set k a }
  sp1.set_upstream_resource k (resource_ref.adapter k)

/-- The constructor `DynamicScratchpad(device_order, pinned_dealloc_order,
managed_dealloc_order, initial_sizes)`. -/
def create (device_order : AccessOrder) (pinned_dealloc_order : AccessOrder)
    (managed_dealloc_order : AccessOrder) (initial_sizes : PerKind Nat) : DynamicScratchpad :=
  let fix (s : Nat) : Nat := if s = 0 then 0x10000 else s  -- 64k
  let pinned_dealloc_order1 :=
    if !pinned_dealloc_order.has_value then device_order else pinned_dealloc_order
  let managed_dealloc_order1 :=
    if !managed_dealloc_order.has_value then device_order else managed_dealloc_order
  { adapters_ := { host := {}, pinned := {}, device := {}, managed := {} },
    resources_ := { host := {}, pinned := {}, device := {}, managed := {} },
    initial_sizes_ :=
      { host := fix initial_sizes.host, pinned := fix initial_sizes.pinned,
        device := fix initial_sizes.device, managed := fix initial_sizes.managed },
    device_order_ := device_order,
    pinned_dealloc_order_ := pinned_dealloc_order1,
    managed_dealloc_order_ := managed_dealloc_order1 }

/-- The default argument `initial_sizes = {}` of the constructor. -/
def default_initial_sizes : PerKind Nat := { host := 0, pinned := 0, device := 0, managed := 0 }

/-- The four overloads of `InitResource`, selected by the kind tag. -/
def InitResource (sp : DynamicScratchpad) (k : memory_kind) : DynamicScratchpad :=
  match k with
  | .host => sp.set_upstream_resource .host (resource_ref.default_resource .host)
  | .pinned => sp.set_upstream_resource_async .pinned AccessOrder.host sp.pinned_dealloc_order_
  | .device => sp.set_upstream_resource_async .device sp.device_order_ AccessOrder.unset
  | .managed => sp.set_upstream_resource_async .managed AccessOrder.host sp.managed_dealloc_order_

/-- Modelled from the spec: the call `r.allocate(bytes, alignment)` on the
monotonic resource of a kind.  "Allocation grows the bump region; on exhaustion
it requests a new block from upstream (geometric growth)"; a block asked from an
adapter is allocated in the allocation order of the adapter. -/
def allocate (sp : DynamicScratchpad) (env : MmEnv) (k : memory_kind) (bytes alignment : Nat) :
    Option Nat × DynamicScratchpad × MmEnv :=
  let r := sp.resource k
  match r.upstream with
  | none => (none, sp, env)
  | some up =>
    let p := align_up r.curr alignment
    if p + bytes ≤ r.limit then
      let r1 : monotonic_memory_resource := { r with curr := p + bytes }
      (some p, { sp with resources_ := sp.resources_.set k r1 }, env)
    else
      let size := max r.next_block_size (bytes + alignment)
      let order : Option AccessOrder :=
        match up with
        | .adapter a => some (sp.adapter a).alloc_order
        | .default_resource _ => none
      let base := align_up env.top alignment
      let r1 : monotonic_memory_resource :=
        { r with curr := base + bytes, limit := base + size,
                 blocks := (base, size) :: r.blocks, next_block_size := 2 * size }
      (some base, { sp with resources_ := sp.resources_.set k r1 },
       { top := base + size,
         calls := env.calls ++ [MmCall.upstream_allocate up size alignment order] })

/-- The member template `AllocImpl<Kind>`. -/
def AllocImpl (sp : DynamicScratchpad) (env : MmEnv) (k : memory_kind) (bytes alignment : Nat) :
    Option Nat × DynamicScratchpad × MmEnv :=
  if bytes = 0 then
    (none, sp, env)  -- do not initialize the resource in case of 0-sized allocation
  else
    let (sp1, env1) :=
      if (sp.resource k).upstream.isNone then
        (sp.InitResource k, { env with calls := env.calls ++ [MmCall.InitResource k] })
      else (sp, env)
    sp1.allocate env1 k bytes alignment

/-- The method `Alloc`: the type switch over the four kinds. -/
def Alloc (sp : DynamicScratchpad) (env : MmEnv) (kind_id : memory_kind)
    (bytes alignment : Nat) : Option Nat × DynamicScratchpad × MmEnv :=
  match kind_id with
  | .host => sp.AllocImpl env .host bytes alignment
  | .pinned => sp.AllocImpl env .pinned bytes alignment
  | .device => sp.AllocImpl env .device bytes alignment
  | .managed => sp.AllocImpl env .managed bytes alignment

/-- The kind policies as the specification words them, for device order `D` and
the optional deallocation orders `P` and `M` given to the constructor: the
allocation and deallocation order of the upstream of a kind, none for plain host
memory.  "Pinned: allocated host-ordered; deallocated in the caller-provided
device order (default: same as device kind's order).  Device: allocated and
deallocated in the provided device order.  Managed: as pinned." -/
def spec_kind_policy (D P M : AccessOrder) : memory_kind → Option (AccessOrder × AccessOrder)
  | .host => none
  | .pinned => some (AccessOrder.host, if P.has_value then P else D)
  | .device => some (D, D)
  | .managed => some (AccessOrder.host, if M.has_value then M else D)

/-- Whether the upstream of a kind, when materialised, is set up as the kind
policy says: for plain host memory the default resource itself, with the adapter
left default-constructed; for the other kinds the adapter of the kind over the
default resource, with the allocation and deallocation order of the policy. -/
def kind_follows_policy (D P M : AccessOrder) (sp : DynamicScratchpad) (k : memory_kind) :
    Bool :=
  (sp.resource k).upstream.isNone ||
    match spec_kind_policy D P M k with
    | none =>
      decide ((sp.resource k).upstream = some (resource_ref.default_resource k))
        && decide (sp.adapter k = {})
    | some (a, d) =>
      decide ((sp.resource k).upstream = some (resource_ref.adapter k))
        && decide (sp.adapter k = { upstream := some k, alloc_order := a, dealloc_order := d })

/-- Whether a call on the memory system that asks an upstream for a block does
it in the order of the kind policy: in no order from a default resource, in the
allocation order of the policy from an adapter. -/
def call_follows_policy (D P M : AccessOrder) : MmCall → Bool
  | .InitResource _ => true
  | .upstream_allocate (.default_resource _) _ _ o => o.isNone
  | .upstream_allocate (.adapter k) _ _ o =>
    decide (o = (spec_kind_policy D P M k).map Prod.fst)

/-- A sequence of `Alloc` calls on one scratchpad, given as kind, bytes and
alignment; returns the pointers with the final state. -/
def AllocAll : List (memory_kind × Nat × Nat) → DynamicScratchpad → MmEnv →
    List (Option Nat) × DynamicScratchpad × MmEnv
  | [], sp, env => ([], sp, env)
  | (k, bytes, alignment) :: rest, sp, env =>
    let r := sp.Alloc env k bytes alignment
    let rs := AllocAll rest r.2.1 r.2.2
    (r.1 :: rs.1, rs.2.1, rs.2.2)

end DynamicScratchpad

end kernels

/-! ## The run loop of `nvjpegPipe` (dali/benchmark/resnet50_nvjpeg_bench.cc) -/

namespace benchmark

/-- The calls on the pipeline made by the run loop. -/
inductive PipeCall where
  | Run
  | Outputs
  deriving DecidableEq, Repr

/-- The prefetch queue depth the pipeline is constructed with. -/
def prefetch_queue_depth : Nat := 2

/-- The flag `pipelined = executor > 0`. -/
def pipelined (executor : Int) : Bool := decide (executor > 0)

/-- The flag `async = executor > 1`. -/
def async (executor : Int) : Bool := decide (executor > 1)

/-- One pass of the body of `while (st.KeepRunning())`; `iterations` is the value
of `st.iterations()` in that pass (1 in the first pass) and `max_iterations` the
value of `st.max_iterations`. -/
def loop_body (pipelined : Bool) (iterations max_iterations : Nat) : List PipeCall :=
  (if iterations = 1 ∧ pipelined = true then [PipeCall.Run] else [])
    ++ [PipeCall.Run, PipeCall.Outputs]
    ++ (if iterations = max_iterations ∧ pipelined = true then [PipeCall.Outputs] else [])

/-- The passes `first, first + 1, ...` of the loop, `count` of them. -/
def loop_from (pipelined : Bool) (max_iterations : Nat) : Nat → Nat → List PipeCall
  | _, 0 => []
  | first, count + 1 =>
    loop_body pipelined first max_iterations
      ++ loop_from pipelined max_iterations (first + 1) count

/-- The calls of `nvjpegPipe` on the pipeline, in order: the run that allocates
the memory, then the timed loop of `max_iterations` passes. -/
def nvjpegPipe (executor : Int) (max_iterations : Nat) : List PipeCall :=
  [PipeCall.Run, PipeCall.Outputs]
    ++ loop_from (pipelined executor) max_iterations 1 max_iterations

/-- The number of outstanding iterations after a sequence of calls, starting
from `start`: calls of `Run()` minus calls of `Outputs()`. -/
def outstanding (start : Int) : List PipeCall → Int
  | [] => start
  | PipeCall.Run :: rest => outstanding (start + 1) rest
  | PipeCall.Outputs :: rest => outstanding (start - 1) rest

/-- Whether the number of outstanding iterations is between 0 and the prefetch
depth at the start and after every call of the sequence. -/
def within_depth (start : Int) : List PipeCall → Bool
  | [] => decide (0 ≤ start ∧ start ≤ prefetch_queue_depth)
  | c :: rest =>
    decide (0 ≤ start ∧ start ≤ prefetch_queue_depth)
      && within_depth (outstanding start [c]) rest

end benchmark

end dali

/-! ## The cuFile handle (`dali/util/cufile_helper.h`, namespace `cufile`) -/

namespace cufile

/-- The library and system calls a handle makes when it lets go of its
resources. -/
inductive FileCall where
  | cuFileHandleDeregister (cufh : Nat)
  | close (fd : Int)
  deriving DecidableEq, Repr

/-- The class `CUFileHandle`: `cufh` is the pointer `CUfileHandle_t`, with 0 for
`nullptr`; `fd` is the descriptor for buffered IO and `fdd` the one for direct
IO.  The default values are the default member initialisers. -/
structure CUFileHandle where
  cufh : Nat := 0
  fd : Int := -1
  fdd : Int := -1
  deriving DecidableEq, Repr

namespace CUFileHandle

/-- The method `Close`; `calls` is the list of calls made so far. -/
def Close (h : CUFileHandle) (calls : List FileCall) : CUFileHandle × List FileCall :=
  let (cufh1, calls1) :=
    if h.cufh ≠ 0 then (0, calls ++ [FileCall.cuFileHandleDeregister h.cufh])
    else (h.cufh, calls)
  let calls2 := if h.fd ≠ -1 then calls1 ++ [FileCall.close h.fd] else calls1
  let calls3 := if h.fdd ≠ -1 then calls2 ++ [FileCall.close h.fdd] else calls2
  ({ cufh := cufh1, fd := -1, fdd := -1 }, calls3)

/-- The move assignment `operator=(CUFileHandle &&other)` on two distinct
objects: the three members are swapped, then `other` is closed.  Returns
`*this`, `other` and the calls. -/
def operator_assign (self other : CUFileHandle) (calls : List FileCall) :
    CUFileHandle × CUFileHandle × List FileCall :=
  let (self1, other1) : CUFileHandle × CUFileHandle :=
    ({ self with fd := other.fd }, { other with fd := self.fd })
  let (self2, other2) : CUFileHandle × CUFileHandle :=
    ({ self1 with fdd := other1.fdd }, { other1 with fdd := self1.fdd })
  let (self3, other3) : CUFileHandle × CUFileHandle :=
    ({ self2 with cufh := other2.cufh }, { other2 with cufh := self2.cufh })
  let (other4, calls1) := other3.Close calls
  (self3, other4, calls1)

/-- The move constructor: a default-initialised object is move-assigned from
`other`. -/
def move_construct (other : CUFileHandle) (calls : List FileCall) :
    CUFileHandle × CUFileHandle × List FileCall :=
  operator_assign {} other calls

/-- Whether a handle is in the closed state. -/
def closed (h : CUFileHandle) : Bool := h.cufh == 0 && h.fd == -1 && h.fdd == -1

end CUFileHandle

end cufile

namespace dali

/-! ## Theorems -/

open InputOperator

/-! ## Lemmas on the feed paths -/

theorem EventLease.Get_eq (l : EventLease) (d : Int) (pool : CUDAEventPool) :
    ∃ e pool', l.Get d pool = ({ device_id_ := d, event_ := some e }, pool') := by
  obtain ⟨ld, le⟩ := l
  by_cases h : d = ld
  · subst h
    cases le with
    | none => exact ⟨(pool.Get d).1, (pool.Get d).2, by simp [EventLease.Get]⟩
    | some e => exact ⟨e, pool, by simp [EventLease.Get]⟩
  · cases le with
    | none => exact ⟨(pool.Get d).1, (pool.Get d).2, by simp [EventLease.Get, EventLease.Put, h]⟩
    | some e =>
      exact ⟨((pool.Put e ld).Get d).1, ((pool.Put e ld).Get d).2,
        by simp [EventLease.Get, EventLease.Put, h]⟩


theorem ShareUserData_host_push (op : InputOperator) (env : Env) (batch : TensorList)
    (data_id : Option String) :
    (op.ShareUserData_host env batch data_id).outcome = Outcome.returned () ∧
    ∃ item,
      (op.ShareUserData_host env batch data_id).op.tl_data_.full_data
        = op.tl_data_.full_data ++ [item] ∧ item.data_id = data_id := by
  obtain ⟨backend, dev, blocking, no_copy, running, ⟨full, cache, prophet⟩, zc, stream⟩ := op
  cases cache <;>
    simp [ShareUserData_host, GetEmptyOutputBatch, CachingList.GetEmpty, CachingList.PushBack]

theorem ShareUserData_device_push (op : InputOperator) (env : Env) (batch : TensorList)
    (data_id : Option String) (order : AccessOrder) (k : Bool) :
    (op.ShareUserData_device env batch data_id order k).outcome = Outcome.returned () ∧
    ∃ item,
      (op.ShareUserData_device env batch data_id order k).op.tl_data_.full_data
        = op.tl_data_.full_data ++ [item] ∧ item.data_id = data_id := by
  obtain ⟨backend, dev, blocking, no_copy, running, ⟨full, cache, prophet⟩, zc, stream⟩ := op
  by_cases hc : (batch.IsContiguousInMemory && batch.device_id == dev) = true
  · cases cache <;>
      simp [ShareUserData_device, GetEmptyOutputBatch, CachingList.GetEmpty,
        CachingList.PushBack, hc]
  · cases cache <;>
      simp only [ShareUserData_device, GetEmptyOutputBatch, CachingList.GetEmpty,
        CachingList.PushBack, InputQueueItem.GetCompletionEvent, hc] <;>
      simp <;> split_ifs <;> simp

theorem CopyUserData_host_push (op : InputOperator) (env : Env) (batch : TensorList)
    (data_id : Option String) (order : AccessOrder) :
    (op.CopyUserData_host env batch data_id order).outcome = Outcome.returned () ∧
    ∃ item,
      (op.CopyUserData_host env batch data_id order).op.tl_data_.full_data
        = op.tl_data_.full_data ++ [item] ∧ item.data_id = data_id := by
  obtain ⟨backend, dev, blocking, no_copy, running, ⟨full, cache, prophet⟩, zc, stream⟩ := op
  cases cache <;>
    simp [CopyUserData_host, GetEmptyOutputBatch, CachingList.GetEmpty, CachingList.PushBack]

theorem CopyUserData_device_push (op : InputOperator) (env : Env) (batch : TensorList)
    (data_id : Option String) (order : AccessOrder) (sync k : Bool) :
    (op.CopyUserData_device env batch data_id order sync k).outcome = Outcome.returned () ∧
    ∃ item,
      (op.CopyUserData_device env batch data_id order sync k).op.tl_data_.full_data
        = op.tl_data_.full_data ++ [item] ∧ item.data_id = data_id := by
  obtain ⟨backend, dev, blocking, no_copy, running, ⟨full, cache, prophet⟩, zc, stream⟩ := op
  cases cache <;>
    simp [CopyUserData_device, GetEmptyOutputBatch, CachingList.GetEmpty,
      CachingList.PushBack, InputQueueItem.GetCompletionEvent]


theorem SetDataSourceHelper_copy (op : InputOperator) (env : Env) (batch : TensorList)
    (data_id : Option String) (order : AccessOrder) (mode : InputOperatorSettingMode)
    (hw : op.WouldCopy mode.copy_mode = true) :
    op.SetDataSourceHelper env batch data_id order mode
      = match (op.CopyUserData env batch data_id order mode.sync mode.use_copy_kernel).outcome with
        | .returned _ =>
          { op.CopyUserData env batch data_id order mode.sync mode.use_copy_kernel with
            env := (op.CopyUserData env batch data_id order mode.sync
              mode.use_copy_kernel).env.log Call.notify_one }
        | _ => op.CopyUserData env batch data_id order mode.sync mode.use_copy_kernel := by
  unfold SetDataSourceHelper
  unfold WouldCopy at hw
  cases hm : mode.copy_mode <;> simp_all

theorem SetDataSourceHelper_share (op : InputOperator) (env : Env) (batch : TensorList)
    (data_id : Option String) (order : AccessOrder) (mode : InputOperatorSettingMode)
    (hw : op.WouldCopy mode.copy_mode = false) :
    op.SetDataSourceHelper env batch data_id order mode
      = match (op.ShareUserData env batch data_id order mode.use_copy_kernel).outcome with
        | .returned _ =>
          { op.ShareUserData env batch data_id order mode.use_copy_kernel with
            env := (op.ShareUserData env batch data_id order
              mode.use_copy_kernel).env.log Call.notify_one }
        | _ => op.ShareUserData env batch data_id order mode.use_copy_kernel := by
  unfold SetDataSourceHelper
  unfold WouldCopy at hw
  cases hm : mode.copy_mode <;> simp_all

theorem SetDataSourceHelper_copy_host (op : InputOperator) (env : Env) (batch : TensorList)
    (data_id : Option String) (order : AccessOrder) (mode : InputOperatorSettingMode)
    (hw : op.WouldCopy mode.copy_mode = true) (hin : InBackend op.backend = Backend.CPUBackend) :
    op.SetDataSourceHelper env batch data_id order mode
      = { op.CopyUserData_host env batch data_id order with
          env := (op.CopyUserData_host env batch data_id order).env.log Call.notify_one } := by
  rw [SetDataSourceHelper_copy op env batch data_id order mode hw]
  simp only [CopyUserData, hin, if_true]
  rw [(CopyUserData_host_push op env batch data_id order).1]

theorem SetDataSourceHelper_copy_device (op : InputOperator) (env : Env) (batch : TensorList)
    (data_id : Option String) (order : AccessOrder) (mode : InputOperatorSettingMode)
    (hw : op.WouldCopy mode.copy_mode = true) (hin : InBackend op.backend ≠ Backend.CPUBackend) :
    op.SetDataSourceHelper env batch data_id order mode
      = { op.CopyUserData_device env batch data_id order mode.sync mode.use_copy_kernel with
          env := (op.CopyUserData_device env batch data_id order mode.sync
            mode.use_copy_kernel).env.log Call.notify_one } := by
  rw [SetDataSourceHelper_copy op env batch data_id order mode hw]
  simp only [CopyUserData, hin, if_false]
  rw [(CopyUserData_device_push op env batch data_id order _ _).1]

theorem SetDataSourceHelper_share_mismatch (op : InputOperator) (env : Env)
    (batch : TensorList) (data_id : Option String) (order : AccessOrder)
    (mode : InputOperatorSettingMode)
    (hw : op.WouldCopy mode.copy_mode = false) (hb : batch.backend ≠ InBackend op.backend) :
    op.SetDataSourceHelper env batch data_id order mode
      = op.ShareUserData_mismatch env batch := by
  rw [SetDataSourceHelper_share op env batch data_id order mode hw]
  simp only [ShareUserData, hb, if_true, ne_eq, not_false_eq_true]
  rfl

theorem SetDataSourceHelper_share_host (op : InputOperator) (env : Env)
    (batch : TensorList) (data_id : Option String) (order : AccessOrder)
    (mode : InputOperatorSettingMode)
    (hw : op.WouldCopy mode.copy_mode = false) (hb : batch.backend = InBackend op.backend)
    (hc : batch.backend = Backend.CPUBackend) :
    op.SetDataSourceHelper env batch data_id order mode
      = { op.ShareUserData_host env batch data_id with
          env := (op.ShareUserData_host env batch data_id).env.log Call.notify_one } := by
  rw [SetDataSourceHelper_share op env batch data_id order mode hw]
  have h1 : op.ShareUserData env batch data_id order mode.use_copy_kernel
      = op.ShareUserData_host env batch data_id := by
    simp [ShareUserData, hb, hc ▸ hb]
  rw [h1, (ShareUserData_host_push op env batch data_id).1]

theorem SetDataSourceHelper_share_device (op : InputOperator) (env : Env)
    (batch : TensorList) (data_id : Option String) (order : AccessOrder)
    (mode : InputOperatorSettingMode)
    (hw : op.WouldCopy mode.copy_mode = false) (hb : batch.backend = InBackend op.backend)
    (hc : batch.backend ≠ Backend.CPUBackend) :
    op.SetDataSourceHelper env batch data_id order mode
      = { op.ShareUserData_device env batch data_id order mode.use_copy_kernel with
          env := (op.ShareUserData_device env batch data_id order
            mode.use_copy_kernel).env.log Call.notify_one } := by
  rw [SetDataSourceHelper_share op env batch data_id order mode hw]
  have h1 : op.ShareUserData env batch data_id order mode.use_copy_kernel
      = op.ShareUserData_device env batch data_id order mode.use_copy_kernel := by
    simp [ShareUserData, hb, hb ▸ hc]
  rw [h1, (ShareUserData_device_push op env batch data_id order _).1]

theorem SetDataSourceHelper_push (op : InputOperator) (env : Env) (batch : TensorList)
    (data_id : Option String) (order : AccessOrder) (mode : InputOperatorSettingMode)
    (hret : (op.SetDataSourceHelper env batch data_id order mode).outcome = Outcome.returned ()) :
    ∃ item,
      (op.SetDataSourceHelper env batch data_id order mode).op.tl_data_.full_data
        = op.tl_data_.full_data ++ [item] ∧ item.data_id = data_id := by
  cases hw : op.WouldCopy mode.copy_mode with
  | true =>
    by_cases hin : InBackend op.backend = Backend.CPUBackend
    · rw [SetDataSourceHelper_copy_host op env batch data_id order mode hw hin]
      exact (CopyUserData_host_push op env batch data_id order).2
    · rw [SetDataSourceHelper_copy_device op env batch data_id order mode hw hin]
      exact (CopyUserData_device_push op env batch data_id order mode.sync mode.use_copy_kernel).2
  | false =>
    by_cases hb : batch.backend = InBackend op.backend
    · by_cases hc : batch.backend = Backend.CPUBackend
      · rw [SetDataSourceHelper_share_host op env batch data_id order mode hw hb hc]
        exact (ShareUserData_host_push op env batch data_id).2
      · rw [SetDataSourceHelper_share_device op env batch data_id order mode hw hb hc]
        exact (ShareUserData_device_push op env batch data_id order mode.use_copy_kernel).2
    · rw [SetDataSourceHelper_share_mismatch op env batch data_id order mode hw hb] at hret
      simp [ShareUserData_mismatch] at hret

theorem Feed.run_push (f : Feed) (op : InputOperator) (env : Env)
    (hret : (f.run op env).outcome = Outcome.returned ()) :
    ∃ item,
      (f.run op env).op.tl_data_.full_data = op.tl_data_.full_data ++ [item] ∧
      item.data_id = f.data_id := by
  cases f with
  | tensorList tl order mode id =>
    exact SetDataSourceHelper_push op env tl id order mode hret
  | vector b v order mode id =>
    cases v with
    | nil => simp [Feed.run, SetDataSource_vector] at hret
    | cons first rest =>
      exact SetDataSourceHelper_push op env _ id order mode hret

theorem FeedAll_push (feeds : List Feed) :
    ∀ (op : InputOperator) (env : Env), (FeedAll feeds op env).1 = true →
      ∃ items,
        (FeedAll feeds op env).2.1.tl_data_.full_data = op.tl_data_.full_data ++ items ∧
        items.map (fun it => it.data_id) = feeds.map Feed.data_id := by
  induction feeds with
  | nil => intro op env _; exact ⟨[], by simp [FeedAll]⟩
  | cons f fs ih =>
    intro op env h
    unfold FeedAll at h ⊢
    cases ho : (f.run op env).outcome with
    | returned u =>
      cases u
      simp only [ho] at h ⊢
      obtain ⟨item, hq, hid⟩ := Feed.run_push f op env ho
      obtain ⟨items, hqs, hids⟩ := ih _ _ h
      exact ⟨item :: items, by rw [hqs, hq]; simp, by simp [hid, hids]⟩
    | threw e => simp [ho] at h
    | blocked => simp [ho] at h


theorem CopyUserData_host_fill (op : InputOperator) (env : Env) (batch : TensorList)
    (order : AccessOrder) (data_id : Option String)
    (hsrc : ∀ s, batch.buffer = some s → s < env.next_addr)
    (hcache : ∀ it ∈ op.tl_data_.empty_data,
      it.data.shares_data = false ∧ ∀ s, batch.buffer = some s → it.data.buffer ≠ some s) :
    (op.CopyUserData_host env batch data_id order).outcome = Outcome.returned () ∧
    ∃ item d cs,
      (op.CopyUserData_host env batch data_id order).op.tl_data_.full_data
        = op.tl_data_.full_data ++ [item] ∧
      item.copy_requested = true ∧ item.copy_performed = true ∧
      item.data.shares_data = false ∧
      item.data.buffer = some d ∧ batch.buffer ≠ some d ∧
      (op.CopyUserData_host env batch data_id order).env.trace = env.trace ++ cs ∧
      (∃ o, Call.Copy batch.buffer o false ∈ cs) ∧
      (∀ p, Call.ShareData p ∉ cs) ∧
      ∀ s, batch.buffer = some s →
        (op.CopyUserData_host env batch data_id order).env.mem d = env.mem s := by
  obtain ⟨backend, dev, blocking, no_copy, running, ⟨full, cache, prophet⟩, zc, stream⟩ := op
  obtain ⟨bb, bn, bbuf, bp, bd, bo, bc, bs⟩ := batch
  simp only [CopyUserData_host, GetEmptyOutputBatch, CachingList.GetEmpty,
    CachingList.PushBack, TensorList.Copy, TensorList.Reset, Env.log,
    TensorList.set_pinned, TensorList.set_order, TensorList.set_device_id,
    TensorList.is_pinned, TensorList.empty]
  simp only [] at hsrc hcache
  cases cache with
  | nil =>
    by_cases hp : bp = env.pinned_by_default
    · cases bbuf with
      | none => cases backend <;> simp [hp]
      | some s =>
        have hlt : s < env.next_addr := hsrc s rfl
        have hne : s ≠ env.next_addr := by omega
        cases backend <;> simp [hp, hne, Ne.symm hne]
    · cases bbuf with
      | none => cases backend <;> simp [hp]
      | some s =>
        have hlt : s < env.next_addr := hsrc s rfl
        have hne : s ≠ env.next_addr := by omega
        cases backend <;> simp [hp, hne, Ne.symm hne]
  | cons x rest =>
    obtain ⟨⟨xb, xn, xbuf, xp, xd, xo, xc, xs⟩, xid, xlease, xcp, xcr⟩ := x
    have hx := hcache _ (List.mem_cons_self _ _)
    simp only [] at hx
    obtain ⟨hxs, hxb⟩ := hx
    subst hxs
    by_cases hp : bp = xp
    · cases bbuf with
      | none => cases backend <;> cases xbuf <;> simp [hp]
      | some s =>
        have hlt : s < env.next_addr := hsrc s rfl
        have hne : s ≠ env.next_addr := by omega
        cases xbuf with
        | none => cases backend <;> simp [hp, hne, Ne.symm hne]
        | some p =>
          have hps : p ≠ s := fun h => hxb s rfl (by rw [h])
          cases backend <;> simp [hp, hps, Ne.symm hps]
    · cases bbuf with
      | none => cases backend <;> cases xbuf <;> simp [hp]
      | some s =>
        have hlt : s < env.next_addr := hsrc s rfl
        have hne : s ≠ env.next_addr := by omega
        cases backend <;> cases xbuf <;> simp [hp, hne, Ne.symm hne]

theorem CopyUserData_device_fill (op : InputOperator) (env : Env) (batch : TensorList)
    (order : AccessOrder) (data_id : Option String) (sync k : Bool)
    (hgpu : op.backend = Backend.GPUBackend)
    (hsrc : ∀ s, batch.buffer = some s → s < env.next_addr)
    (hcache : ∀ it ∈ op.tl_data_.empty_data,
      it.data.shares_data = false ∧ ∀ s, batch.buffer = some s → it.data.buffer ≠ some s) :
    (op.CopyUserData_device env batch data_id order sync k).outcome = Outcome.returned () ∧
    ∃ item d cs,
      (op.CopyUserData_device env batch data_id order sync k).op.tl_data_.full_data
        = op.tl_data_.full_data ++ [item] ∧
      item.copy_requested = true ∧ item.copy_performed = true ∧
      item.data.shares_data = false ∧
      item.data.buffer = some d ∧ batch.buffer ≠ some d ∧
      (op.CopyUserData_device env batch data_id order sync k).env.trace = env.trace ++ cs ∧
      (∃ o, Call.Copy batch.buffer o k ∈ cs) ∧
      (∀ p, Call.ShareData p ∉ cs) ∧
      ∀ s, batch.buffer = some s →
        (op.CopyUserData_device env batch data_id order sync k).env.mem d = env.mem s := by
  obtain ⟨backend, dev, blocking, no_copy, running, ⟨full, cache, prophet⟩, zc, stream⟩ := op
  obtain ⟨bb, bn, bbuf, bp, bd, bo, bc, bs⟩ := batch
  simp only [] at hgpu hsrc hcache
  subst hgpu
  simp only [CopyUserData_device, GetEmptyOutputBatch, CachingList.GetEmpty,
    CachingList.PushBack, TensorList.Copy, Env.log,
    TensorList.set_order, TensorList.set_device_id, InputQueueItem.GetCompletionEvent,
    TensorList.is_pinned, TensorList.empty, internal_copy_order_]
  cases cache with
  | nil =>
    cases order with
    | stream h dv =>
      obtain ⟨e, pool', hg⟩ := EventLease.Get_eq {} dv env.event_pool
      cases bbuf with
      | none => cases sync <;> simp [AccessOrder.is_device, AccessOrder.device_id, hg]
      | some s =>
        have hne : s ≠ env.next_addr := by have := hsrc s rfl; omega
        cases sync <;>
          simp [AccessOrder.is_device, AccessOrder.device_id, hg, hne, Ne.symm hne]
    | _ =>
      obtain ⟨e, pool', hg⟩ := EventLease.Get_eq {} dev env.event_pool
      cases bbuf with
      | none => cases sync <;> simp [AccessOrder.is_device, AccessOrder.device_id, hg]
      | some s =>
        have hne : s ≠ env.next_addr := by have := hsrc s rfl; omega
        cases sync <;>
          simp [AccessOrder.is_device, AccessOrder.device_id, hg, hne, Ne.symm hne]
  | cons x rest =>
    obtain ⟨⟨xb, xn, xbuf, xp, xd, xo, xc, xs⟩, xid, xlease, xcp, xcr⟩ := x
    obtain ⟨hxs, hxb⟩ := hcache _ (List.mem_cons_self _ _)
    simp only [] at hxs hxb
    subst hxs
    cases order with
    | stream h dv =>
      obtain ⟨e, pool', hg⟩ := EventLease.Get_eq xlease dv env.event_pool
      cases bbuf with
      | none => cases sync <;> cases xbuf <;>
          simp [AccessOrder.is_device, AccessOrder.device_id, hg]
      | some s =>
        have hne : s ≠ env.next_addr := by have := hsrc s rfl; omega
        cases xbuf with
        | none => cases sync <;>
            simp [AccessOrder.is_device, AccessOrder.device_id, hg, hne, Ne.symm hne]
        | some p =>
          have hps : p ≠ s := fun h => hxb s rfl (by rw [h])
          cases sync <;>
            simp [AccessOrder.is_device, AccessOrder.device_id, hg, hps, Ne.symm hps]
    | _ =>
      obtain ⟨e, pool', hg⟩ := EventLease.Get_eq xlease dev env.event_pool
      cases bbuf with
      | none => cases sync <;> cases xbuf <;>
          simp [AccessOrder.is_device, AccessOrder.device_id, hg]
      | some s =>
        have hne : s ≠ env.next_addr := by have := hsrc s rfl; omega
        cases xbuf with
        | none => cases sync <;>
            simp [AccessOrder.is_device, AccessOrder.device_id, hg, hne, Ne.symm hne]
        | some p =>
          have hps : p ≠ s := fun h => hxb s rfl (by rw [h])
          cases sync <;>
            simp [AccessOrder.is_device, AccessOrder.device_id, hg, hps, Ne.symm hps]

theorem CopyUserData_device_invariant (op : InputOperator) (env : Env) (batch : TensorList)
    (order : AccessOrder) (data_id : Option String) (sync k : Bool)
    (hgpu : op.backend = Backend.GPUBackend) :
    ∃ item,
      (op.CopyUserData_device env batch data_id order sync k).op.tl_data_.full_data
        = op.tl_data_.full_data ++ [item] ∧
      item.CompletionInvariant (Env.callsSince env
        ((op.CopyUserData_device env batch data_id order sync k).env.log Call.notify_one))
        = true := by
  obtain ⟨backend, dev, blocking, no_copy, running, ⟨full, cache, prophet⟩, zc, stream⟩ := op
  simp only [] at hgpu
  subst hgpu
  simp only [CopyUserData_device, GetEmptyOutputBatch, CachingList.GetEmpty,
    CachingList.PushBack, TensorList.Copy, Env.log, Env.callsSince,
    TensorList.set_order, TensorList.set_device_id, InputQueueItem.GetCompletionEvent,
    TensorList.is_pinned, TensorList.empty, internal_copy_order_,
    InputQueueItem.CompletionInvariant]
  cases cache with
  | nil =>
    cases order with
    | stream h dv =>
      obtain ⟨e, pool', hg⟩ := EventLease.Get_eq {} dv env.event_pool
      cases sync <;> simp [AccessOrder.is_device, AccessOrder.device_id, hg]
    | _ =>
      obtain ⟨e, pool', hg⟩ := EventLease.Get_eq {} dev env.event_pool
      cases sync <;> simp [AccessOrder.is_device, AccessOrder.device_id, hg]
  | cons x rest =>
    cases order with
    | stream h dv =>
      obtain ⟨e, pool', hg⟩ := EventLease.Get_eq x.copy_complete dv env.event_pool
      cases sync <;> simp [AccessOrder.is_device, AccessOrder.device_id, hg]
    | _ =>
      obtain ⟨e, pool', hg⟩ := EventLease.Get_eq x.copy_complete dev env.event_pool
      cases sync <;> simp [AccessOrder.is_device, AccessOrder.device_id, hg]

theorem CopyUserData_host_invariant (op : InputOperator) (env : Env) (batch : TensorList)
    (order : AccessOrder) (data_id : Option String)
    (ho : batch.backend = Backend.CPUBackend ∨ order = AccessOrder.host) :
    ∃ item,
      (op.CopyUserData_host env batch data_id order).op.tl_data_.full_data
        = op.tl_data_.full_data ++ [item] ∧
      item.CompletionInvariant (Env.callsSince env
        ((op.CopyUserData_host env batch data_id order).env.log Call.notify_one)) = true := by
  obtain ⟨backend, dev, blocking, no_copy, running, ⟨full, cache, prophet⟩, zc, stream⟩ := op
  obtain ⟨bb, bn, bbuf, bp, bd, bo, bc, bs⟩ := batch
  simp only [] at ho
  have hco : (if bb = Backend.CPUBackend then AccessOrder.host else order) = AccessOrder.host := by
    rcases ho with h | h <;> simp [h]
  simp only [CopyUserData_host, GetEmptyOutputBatch, CachingList.GetEmpty,
    CachingList.PushBack, TensorList.Copy, TensorList.Reset, Env.callsSince, Env.log,
    TensorList.set_pinned, TensorList.set_order, TensorList.set_device_id,
    TensorList.is_pinned, TensorList.empty, InputQueueItem.CompletionInvariant, hco]
  cases cache with
  | nil => by_cases hp : bp = env.pinned_by_default <;> simp [hp]
  | cons x rest => by_cases hp : bp = x.data.pinned <;> simp [hp]

theorem ShareUserData_device_invariant (op : InputOperator) (env : Env) (batch : TensorList)
    (order : AccessOrder) (data_id : Option String) (k : Bool)
    (hgpu : op.backend = Backend.GPUBackend) :
    ∃ item,
      (op.ShareUserData_device env batch data_id order k).op.tl_data_.full_data
        = op.tl_data_.full_data ++ [item] ∧
      item.CompletionInvariant (Env.callsSince env
        ((op.ShareUserData_device env batch data_id order k).env.log Call.notify_one))
        = true := by
  obtain ⟨backend, dev, blocking, no_copy, running, ⟨full, cache, prophet⟩, zc, stream⟩ := op
  obtain ⟨bb, bn, bbuf, bp, bd, bo, bc, bs⟩ := batch
  simp only [] at hgpu
  subst hgpu
  by_cases hc : (bc && bd == dev) = true
  · cases cache <;>
      simp [ShareUserData_device, GetEmptyOutputBatch, CachingList.GetEmpty,
        CachingList.PushBack, TensorList.IsContiguousInMemory, hc,
        InputQueueItem.CompletionInvariant]
  · have hord : ∃ o, (if (!order.has_value) = true then
          (if bo.is_device = true then bo else AccessOrder.stream stream dev) else order) = o ∧
        (o = AccessOrder.host ∨ ∃ h dv, o = AccessOrder.stream h dv) := by
      cases order with
      | host => exact ⟨_, rfl, Or.inl (by simp [AccessOrder.has_value])⟩
      | stream h dv => exact ⟨_, rfl, Or.inr ⟨h, dv, by simp [AccessOrder.has_value]⟩⟩
      | unset =>
        cases bo with
        | stream h dv =>
          exact ⟨_, rfl, Or.inr ⟨h, dv, by simp [AccessOrder.has_value, AccessOrder.is_device]⟩⟩
        | host =>
          exact ⟨_, rfl, Or.inr ⟨stream, dev,
            by simp [AccessOrder.has_value, AccessOrder.is_device]⟩⟩
        | unset =>
          exact ⟨_, rfl, Or.inr ⟨stream, dev,
            by simp [AccessOrder.has_value, AccessOrder.is_device]⟩⟩
    obtain ⟨o, ho, hcase⟩ := hord
    simp only [ShareUserData_device, GetEmptyOutputBatch, CachingList.GetEmpty,
      CachingList.PushBack, TensorList.Copy, TensorList.Reset, Env.log, Env.callsSince,
      TensorList.set_order, TensorList.set_device_id, InputQueueItem.GetCompletionEvent,
      TensorList.is_pinned, TensorList.empty, internal_copy_order_,
      TensorList.IsContiguousInMemory, InputQueueItem.CompletionInvariant, hc]
    cases cache with
    | nil =>
      simp only [if_true, ho]
      rcases hcase with rfl | ⟨h, dv, rfl⟩
      · cases zc <;> simp [AccessOrder.is_device]
      · obtain ⟨e, pool', hg⟩ := EventLease.Get_eq {} dv env.event_pool
        cases zc <;> simp [AccessOrder.is_device, AccessOrder.device_id, hg]
    | cons x rest =>
      simp only [if_true, ho]
      rcases hcase with rfl | ⟨h, dv, rfl⟩
      · cases zc <;> cases hs : x.data.shares_data <;> simp [AccessOrder.is_device, hs]
      · obtain ⟨e, pool', hg⟩ := EventLease.Get_eq x.copy_complete dv env.event_pool
        cases zc <;> cases hs : x.data.shares_data <;>
          simp [AccessOrder.is_device, AccessOrder.device_id, hg, hs]

theorem CopyUserData_host_calls (op : InputOperator) (env : Env) (batch : TensorList)
    (order : AccessOrder) (data_id : Option String) :
    ∃ item cs,
      (op.CopyUserData_host env batch data_id order).op.tl_data_.full_data
        = op.tl_data_.full_data ++ [item] ∧
      item.copy_requested = true ∧ item.copy_performed = true ∧
      (op.CopyUserData_host env batch data_id order).env.trace = env.trace ++ cs ∧
      (∃ o, Call.Copy batch.buffer o false ∈ cs) ∧
      (∀ p, Call.ShareData p ∉ cs) := by
  obtain ⟨backend, dev, blocking, no_copy, running, ⟨full, cache, prophet⟩, zc, stream⟩ := op
  obtain ⟨bb, bn, bbuf, bp, bd, bo, bc, bs⟩ := batch
  simp only [CopyUserData_host, GetEmptyOutputBatch, CachingList.GetEmpty,
    CachingList.PushBack, TensorList.Copy, TensorList.Reset, Env.log,
    TensorList.set_pinned, TensorList.set_order, TensorList.set_device_id,
    TensorList.is_pinned, TensorList.empty]
  cases cache with
  | nil => by_cases hp : bp = env.pinned_by_default <;> simp [hp]
  | cons x rest => by_cases hp : bp = x.data.pinned <;> simp [hp]

theorem CopyUserData_device_calls (op : InputOperator) (env : Env) (batch : TensorList)
    (order : AccessOrder) (data_id : Option String) (sync k : Bool)
    (hgpu : op.backend = Backend.GPUBackend) :
    ∃ item cs,
      (op.CopyUserData_device env batch data_id order sync k).op.tl_data_.full_data
        = op.tl_data_.full_data ++ [item] ∧
      item.copy_requested = true ∧ item.copy_performed = true ∧
      (op.CopyUserData_device env batch data_id order sync k).env.trace = env.trace ++ cs ∧
      (∃ o, Call.Copy batch.buffer o k ∈ cs) ∧
      (∀ p, Call.ShareData p ∉ cs) := by
  obtain ⟨backend, dev, blocking, no_copy, running, ⟨full, cache, prophet⟩, zc, stream⟩ := op
  simp only [] at hgpu
  subst hgpu
  simp only [CopyUserData_device, GetEmptyOutputBatch, CachingList.GetEmpty,
    CachingList.PushBack, TensorList.Copy, Env.log,
    TensorList.set_order, TensorList.set_device_id, InputQueueItem.GetCompletionEvent,
    TensorList.is_pinned, TensorList.empty, internal_copy_order_]
  cases cache with
  | nil =>
    cases order with
    | stream h dv =>
      obtain ⟨e, pool', hg⟩ := EventLease.Get_eq {} dv env.event_pool
      cases sync <;> simp [AccessOrder.is_device, AccessOrder.device_id, hg]
    | _ =>
      obtain ⟨e, pool', hg⟩ := EventLease.Get_eq {} dev env.event_pool
      cases sync <;> simp [AccessOrder.is_device, AccessOrder.device_id, hg]
  | cons x rest =>
    cases order with
    | stream h dv =>
      obtain ⟨e, pool', hg⟩ := EventLease.Get_eq x.copy_complete dv env.event_pool
      cases sync <;> simp [AccessOrder.is_device, AccessOrder.device_id, hg]
    | _ =>
      obtain ⟨e, pool', hg⟩ := EventLease.Get_eq x.copy_complete dev env.event_pool
      cases sync <;> simp [AccessOrder.is_device, AccessOrder.device_id, hg]

theorem InBackend_ne_CPU {b : Backend} (h : InBackend b ≠ Backend.CPUBackend) :
    b = Backend.GPUBackend := by
  cases b <;> simp [InBackend] at h ⊢


/-! ## The claims -/

/-- C1: `WouldCopy(mode)` is true for FORCE_COPY, false for FORCE_NO_COPY and
the negation of the `no_copy` flag of the operator for DEFAULT. -/
theorem WouldCopy_by_mode (op : InputOperator) :
    op.WouldCopy InputOperatorCopyMode.FORCE_COPY = true ∧
    op.WouldCopy InputOperatorCopyMode.FORCE_NO_COPY = false ∧
    op.WouldCopy InputOperatorCopyMode.DEFAULT = !op.no_copy_ :=
  ⟨rfl, rfl, rfl⟩

/-- C2, evaluated: the vector overload rejects an empty vector and enqueues
nothing, but the TensorList overload accepts a tensor list with no sample, on
the copy path as on the share path, and enqueues one item with zero samples. -/
theorem SetDataSource_TensorList_accepts_empty_batch :
    (Example.cpuOp.SetDataSource_vector Example.env0 Backend.CPUBackend []
        AccessOrder.unset {} none).outcome
      = Outcome.threw (Failure.DALIException "Provided batch cannot be empty.") ∧
    (Example.cpuOp.SetDataSource_vector Example.env0 Backend.CPUBackend []
        AccessOrder.unset {} none).op = Example.cpuOp ∧
    Example.emptyBatch.num_samples = 0 ∧
    (Example.cpuOp.SetDataSource_TensorList Example.env0 Example.emptyBatch
        AccessOrder.unset {} none).outcome = Outcome.returned () ∧
    ((Example.cpuOp.SetDataSource_TensorList Example.env0 Example.emptyBatch
        AccessOrder.unset {} none).op.tl_data_.full_data.map
          (fun it => it.data.num_samples)) = [0] ∧
    (Example.cpuOp.SetDataSource_TensorList Example.env0 Example.emptyBatch
        AccessOrder.unset { copy_mode := InputOperatorCopyMode.FORCE_NO_COPY }
        none).outcome = Outcome.returned () ∧
    ((Example.cpuOp.SetDataSource_TensorList Example.env0 Example.emptyBatch
        AccessOrder.unset { copy_mode := InputOperatorCopyMode.FORCE_NO_COPY }
        none).op.tl_data_.full_data.map (fun it => it.data.num_samples)) = [0] := by
  refine ⟨rfl, rfl, rfl, rfl, rfl, rfl, rfl⟩

/-- C3: with `blocking` false, `HandleDataAvailability` throws exactly when the
live queue is empty and returns otherwise; either way the operator state (queue,
cache, running flag) is the one it was called in. -/
theorem HandleDataAvailability_nonblocking (op : InputOperator)
    (h : op.blocking_ = false) :
    (op.HandleDataAvailability.1.failed = true ↔ op.tl_data_.full_data = []) ∧
    (op.HandleDataAvailability.1 = Outcome.returned () ↔ op.tl_data_.full_data ≠ []) ∧
    op.HandleDataAvailability.2 = op := by
  unfold HandleDataAvailability HasDataInQueue CachingList.IsEmpty
  cases hq : op.tl_data_.full_data <;> simp [h, Outcome.failed]

/-- C3, witness: the non-blocking example operator with an empty queue. -/
theorem HandleDataAvailability_nonblocking_witness :
    Example.cpuOp.blocking_ = false ∧
    ((Example.cpuOp.HandleDataAvailability.1.failed = true ↔
        Example.cpuOp.tl_data_.full_data = []) ∧
     (Example.cpuOp.HandleDataAvailability.1 = Outcome.returned () ↔
        Example.cpuOp.tl_data_.full_data ≠ []) ∧
     Example.cpuOp.HandleDataAvailability.2 = Example.cpuOp) :=
  ⟨rfl, HandleDataAvailability_nonblocking Example.cpuOp rfl⟩

/-- C4, evaluated: on a blocking operator with an empty queue, after
`BreakWaiting()` the waits of `NextBatchSize` and `Advance` are released, but
the wait of `HandleDataAvailability`, whose predicate does not read `running_`,
is still blocked. -/
theorem HandleDataAvailability_stays_blocked_after_BreakWaiting :
    Example.blockingOp.blocking_ = true ∧
    Example.blockingOp.tl_data_.full_data = [] ∧
    Example.blockingOp.BreakWaiting.running_ = false ∧
    Example.blockingOp.BreakWaiting.HandleDataAvailability.1 = Outcome.blocked ∧
    (∀ tail, (Example.blockingOp.BreakWaiting.NextBatchSize tail).1 ≠ Outcome.blocked) ∧
    (∀ tail, (Example.blockingOp.BreakWaiting.Advance tail).1 ≠ Outcome.blocked) := by
  refine ⟨rfl, rfl, rfl, rfl, fun tail => ?_, fun tail => ?_⟩
  · simp only [NextBatchSize, BreakWaiting, Example.blockingOp, Bool.not_false, Bool.true_or,
      Bool.not_true, Bool.and_false, Bool.false_eq_true, if_false]
    cases op_peek : Example.cpuOp.tl_data_.PeekProphet tail <;> simp
  · simp only [Advance, BreakWaiting, Example.blockingOp, Bool.not_false, Bool.true_or,
      Bool.not_true, Bool.and_false, Bool.false_eq_true, if_false]
    rcases op_adv : Example.cpuOp.tl_data_.AdvanceProphet tail with ⟨r, q⟩
    cases r <;> simp

theorem NextBatchSize_at_tail (op : InputOperator) (tail : ProphetAtTail InputQueueItem)
    (hp : op.tl_data_.CanProphetAdvance = false)
    (hw : (op.blocking_ && !(!op.running_ || op.tl_data_.CanProphetAdvance)) = false) :
    op.NextBatchSize tail
      = (match tail.PeekProphet op.tl_data_ with
         | .ok item => Outcome.returned item.data.num_samples
         | .error f => Outcome.threw f,
         op) := by
  have hlt : ¬ op.tl_data_.prophet < op.tl_data_.full_data.length := by
    simpa [CachingList.CanProphetAdvance] using hp
  have hget : op.tl_data_.full_data.get? op.tl_data_.prophet = none :=
    List.get?_eq_none.mpr (by omega)
  simp only [NextBatchSize, hw, Bool.false_eq_true, if_false, CachingList.PeekProphet, hget]
  cases tail.PeekProphet op.tl_data_ <;> rfl

theorem Advance_at_tail (op : InputOperator) (tail : ProphetAtTail InputQueueItem)
    (hp : op.tl_data_.CanProphetAdvance = false)
    (hw : (op.blocking_ && !(!op.running_ || op.tl_data_.CanProphetAdvance)) = false) :
    op.Advance tail
      = (match (tail.AdvanceProphet op.tl_data_).1 with
         | .ok _ => Outcome.returned ()
         | .error f => Outcome.threw f,
         { op with tl_data_ := (tail.AdvanceProphet op.tl_data_).2 }) := by
  have hlt : ¬ op.tl_data_.prophet < op.tl_data_.full_data.length := by
    simpa [CachingList.CanProphetAdvance] using hp
  simp only [Advance, hw, Bool.false_eq_true, if_false, CachingList.AdvanceProphet, hlt]
  rcases tail.AdvanceProphet op.tl_data_ with ⟨r, q⟩
  cases r <;> rfl

/-- C5, counterexample: a blocking operator whose prophet is at the live tail is
released by `BreakWaiting()`.  Whatever the queue does on a read at the live
tail, `NextBatchSize` then makes the read `PeekProphet` there and `Advance` the
call `AdvanceProphet` there: the result of the released call is the result of
that read, the queue is left as that read leaves it, and both are those of the
same call on a non-blocking operator that was never cancelled.  The operator
produces no result of its own for the cancelled wait. -/
theorem released_wait_is_not_cancelled :
    Example.drainedOp.tl_data_.CanProphetAdvance = false ∧
    ∀ tail : ProphetAtTail InputQueueItem,
      (Example.drainedOp.NextBatchSize tail).1 = Outcome.blocked ∧
      (Example.drainedOp.BreakWaiting.NextBatchSize tail).1
        = (match tail.PeekProphet Example.drainedOp.tl_data_ with
           | .ok item => Outcome.returned item.data.num_samples
           | .error f => Outcome.threw f) ∧
      (Example.drainedOp.BreakWaiting.Advance tail).2.tl_data_
        = (tail.AdvanceProphet Example.drainedOp.tl_data_).2 ∧
      (Example.drainedOp.BreakWaiting.NextBatchSize tail).1
        = (NextBatchSize { Example.drainedOp with blocking_ := false } tail).1 ∧
      (Example.drainedOp.BreakWaiting.Advance tail).1
        = (Advance { Example.drainedOp with blocking_ := false } tail).1 := by
  refine ⟨rfl, fun tail => ⟨rfl, ?_, ?_, ?_, ?_⟩⟩
  · exact congrArg Prod.fst
      (NextBatchSize_at_tail Example.drainedOp.BreakWaiting tail rfl rfl)
  · exact congrArg (fun r => r.2.tl_data_)
      (Advance_at_tail Example.drainedOp.BreakWaiting tail rfl rfl)
  · exact (congrArg Prod.fst
      (NextBatchSize_at_tail Example.drainedOp.BreakWaiting tail rfl rfl)).trans
      (congrArg Prod.fst
        (NextBatchSize_at_tail { Example.drainedOp with blocking_ := false } tail
          rfl rfl)).symm
  · exact (congrArg Prod.fst
      (Advance_at_tail Example.drainedOp.BreakWaiting tail rfl rfl)).trans
      (congrArg Prod.fst
        (Advance_at_tail { Example.drainedOp with blocking_ := false } tail rfl rfl)).symm

/-- C5, amended: for a blocking operator whose prophet cannot advance, a
`NextBatchSize` or `Advance` call is blocked while the operator runs; released
by `BreakWaiting()` it does not test `running_` but goes on to the prophet read
at the live tail.  Whatever the queue does there, the result of the released
call is the result of that read, the operator is left with the queue as the
read leaves it, and result and queue are those of the same call on a
non-blocking operator that was never cancelled. -/
theorem released_wait_reads_prophet_at_tail (op : InputOperator)
    (tail : ProphetAtTail InputQueueItem)
    (hb : op.blocking_ = true) (hp : op.tl_data_.CanProphetAdvance = false) :
    (op.running_ = true →
      (op.NextBatchSize tail).1 = Outcome.blocked ∧ (op.Advance tail).1 = Outcome.blocked) ∧
    op.BreakWaiting.NextBatchSize tail
      = (match tail.PeekProphet op.tl_data_ with
         | .ok item => Outcome.returned item.data.num_samples
         | .error f => Outcome.threw f,
         op.BreakWaiting) ∧
    op.BreakWaiting.Advance tail
      = (match (tail.AdvanceProphet op.tl_data_).1 with
         | .ok _ => Outcome.returned ()
         | .error f => Outcome.threw f,
         { op.BreakWaiting with tl_data_ := (tail.AdvanceProphet op.tl_data_).2 }) ∧
    (op.BreakWaiting.NextBatchSize tail).1
      = (NextBatchSize { op with blocking_ := false } tail).1 ∧
    (op.BreakWaiting.Advance tail).1 = (Advance { op with blocking_ := false } tail).1 ∧
    (op.BreakWaiting.Advance tail).2.tl_data_
      = (Advance { op with blocking_ := false } tail).2.tl_data_ := by
  have hp' : op.BreakWaiting.tl_data_.CanProphetAdvance = false := hp
  have hw' : (op.BreakWaiting.blocking_
      && !(!op.BreakWaiting.running_ || op.BreakWaiting.tl_data_.CanProphetAdvance)) = false := by
    simp [BreakWaiting]
  have hn := NextBatchSize_at_tail op.BreakWaiting tail hp' hw'
  have ha := Advance_at_tail op.BreakWaiting tail hp' hw'
  have hn0 := NextBatchSize_at_tail { op with blocking_ := false } tail hp rfl
  have ha0 := Advance_at_tail { op with blocking_ := false } tail hp rfl
  refine ⟨fun hr => ?_, hn, ha, ?_, ?_, ?_⟩
  · simp [NextBatchSize, Advance, hb, hr, hp]
  · exact (congrArg Prod.fst hn).trans (congrArg Prod.fst hn0).symm
  · exact (congrArg Prod.fst ha).trans (congrArg Prod.fst ha0).symm
  · exact (congrArg (fun r => r.2.tl_data_) ha).trans
      (congrArg (fun r => r.2.tl_data_) ha0).symm

/-- C5, witness: the drained blocking example operator, with a queue whose
reads at the live tail throw. -/
theorem released_wait_reads_prophet_at_tail_witness :
    Example.drainedOp.blocking_ = true ∧
    Example.drainedOp.tl_data_.CanProphetAdvance = false ∧
    (Example.drainedOp.BreakWaiting.NextBatchSize Example.throwingTail).1
      = Outcome.threw (Failure.exception "prophet at the live tail") ∧
    (Example.drainedOp.BreakWaiting.NextBatchSize Example.throwingTail).1
      = (NextBatchSize { Example.drainedOp with blocking_ := false } Example.throwingTail).1 :=
  ⟨rfl, rfl,
   (congrArg Prod.fst
      (released_wait_reads_prophet_at_tail Example.drainedOp Example.throwingTail
        rfl rfl).2.1).trans rfl,
   (released_wait_reads_prophet_at_tail Example.drainedOp Example.throwingTail
      rfl rfl).2.2.2.1⟩

/-- C6: a feed with FORCE_NO_COPY whose source has the input backend of the
operator, is contiguous and lies on the operator device returns, and the item
it appends to the live queue shares the source storage: its buffer pointer is
the source pointer, `ShareData` was called and no `Copy` was issued, whatever
the `no_copy` flag of the operator. -/
theorem force_no_copy_shares_source (op : InputOperator) (env : Env) (batch : TensorList)
    (order : AccessOrder) (mode : InputOperatorSettingMode) (data_id : Option String)
    (hmode : mode.copy_mode = InputOperatorCopyMode.FORCE_NO_COPY)
    (hb : batch.backend = InBackend op.backend)
    (hc : batch.contiguous = true) (hd : batch.device_id = op.device_id_) :
    (op.SetDataSource_TensorList env batch order mode data_id).outcome = Outcome.returned () ∧
    ∃ item,
      (op.SetDataSource_TensorList env batch order mode data_id).op.tl_data_.full_data
        = op.tl_data_.full_data ++ [item] ∧
      item.data.buffer = batch.buffer ∧ item.data.shares_data = true ∧
      Call.ShareData batch.buffer ∈
        Env.callsSince env (op.SetDataSource_TensorList env batch order mode data_id).env ∧
      ∀ s o k, Call.Copy s o k ∉
        Env.callsSince env (op.SetDataSource_TensorList env batch order mode data_id).env := by
  obtain ⟨backend, dev, blocking, no_copy, running, ⟨full, cache, prophet⟩, zc, stream⟩ := op
  simp only [] at hb hd
  cases backend <;> cases cache <;>
    simp [SetDataSource_TensorList, SetDataSourceHelper, ShareUserData, ShareUserData_host,
      ShareUserData_device, GetEmptyOutputBatch, CachingList.GetEmpty, CachingList.PushBack,
      TensorList.ShareData, TensorList.Reset, Env.callsSince, Env.log, TensorList.set_pinned,
      TensorList.IsContiguousInMemory, InBackend, hmode, hb, hc, hd] <;>
    (try split_ifs) <;> simp_all [InBackend]

/-- C6, witness: the GPU example operator, which copies by default, fed its
contiguous device batch with FORCE_NO_COPY. -/
theorem force_no_copy_shares_source_witness :
    Example.gpuOp.no_copy_ = false ∧
    Example.deviceBatch.backend = InBackend Example.gpuOp.backend ∧
    Example.deviceBatch.contiguous = true ∧
    Example.deviceBatch.device_id = Example.gpuOp.device_id_ ∧
    ∃ item,
      (Example.gpuOp.SetDataSource_TensorList Example.env0 Example.deviceBatch
        AccessOrder.unset { copy_mode := InputOperatorCopyMode.FORCE_NO_COPY }
        none).op.tl_data_.full_data = Example.gpuOp.tl_data_.full_data ++ [item] ∧
      item.data.buffer = some 6 :=
  ⟨rfl, rfl, rfl, rfl,
   (force_no_copy_shares_source Example.gpuOp Example.env0 Example.deviceBatch
      AccessOrder.unset { copy_mode := InputOperatorCopyMode.FORCE_NO_COPY } none
      rfl rfl rfl rfl).2.imp (fun _ h => ⟨h.1, h.2.1⟩)⟩


/-- A feed with FORCE_COPY returns, whatever the `no_copy` flag, and the item it
appends was filled by `Copy` and not by `ShareData`, with `copy_requested` and
`copy_performed` set.  When the source storage is an existing allocation and the
recycle cache holds logically empty items (none shares data, none points at the
source storage), the item does not share data, its buffer differs from the
source buffer and holds the source content, and a later write to the source
storage leaves the queued content as it is.  The condition on the recycle cache
is needed: `CopyUserData` does not reset an item that shares data. -/
theorem force_copy_owns_buffer (op : InputOperator) (env : Env) (batch : TensorList)
    (order : AccessOrder) (mode : InputOperatorSettingMode) (data_id : Option String)
    (hmode : mode.copy_mode = InputOperatorCopyMode.FORCE_COPY) :
    (op.SetDataSource_TensorList env batch order mode data_id).outcome = Outcome.returned () ∧
    ∃ item,
      (op.SetDataSource_TensorList env batch order mode data_id).op.tl_data_.full_data
        = op.tl_data_.full_data ++ [item] ∧
      item.copy_requested = true ∧ item.copy_performed = true ∧
      (∃ o k, Call.Copy batch.buffer o k ∈
        Env.callsSince env (op.SetDataSource_TensorList env batch order mode data_id).env) ∧
      (∀ p, Call.ShareData p ∉
        Env.callsSince env (op.SetDataSource_TensorList env batch order mode data_id).env) ∧
      ((∀ s, batch.buffer = some s → s < env.next_addr) →
       (∀ it ∈ op.tl_data_.empty_data,
          it.data.shares_data = false ∧ ∀ s, batch.buffer = some s → it.data.buffer ≠ some s) →
       item.data.shares_data = false ∧
       ∃ d, item.data.buffer = some d ∧ batch.buffer ≠ some d ∧
        ∀ s, batch.buffer = some s →
          (op.SetDataSource_TensorList env batch order mode data_id).env.mem d = env.mem s ∧
          ∀ v, ((op.SetDataSource_TensorList env batch order mode data_id).env.write s v).mem d
            = (op.SetDataSource_TensorList env batch order mode data_id).env.mem d) := by
  have hw : op.WouldCopy mode.copy_mode = true := by rw [hmode]; rfl
  unfold SetDataSource_TensorList
  by_cases hin : InBackend op.backend = Backend.CPUBackend
  · rw [SetDataSourceHelper_copy_host op env batch data_id order mode hw hin]
    obtain ⟨item, cs, hq, hr, hp, ht, ⟨o, hcp⟩, hsh⟩ :=
      CopyUserData_host_calls op env batch order data_id
    refine ⟨(CopyUserData_host_push op env batch data_id order).1, item, hq, hr, hp,
      ⟨o, false, ?_⟩, ?_, ?_⟩
    · simp [Env.callsSince, Env.log, ht, hcp]
    · intro p
      simp [Env.callsSince, Env.log, ht, hsh p]
    · intro hsrc hcache
      obtain ⟨_, item', d, cs', hq', _, _, hs, hb, hne, _, _, _, hm⟩ :=
        CopyUserData_host_fill op env batch order data_id hsrc hcache
      have hitem : item' = item := by
        have := hq'.symm.trans hq
        simpa using this
      subst hitem
      refine ⟨hs, d, hb, hne, fun s hbs => ⟨by simpa [Env.log] using hm s hbs, fun v => ?_⟩⟩
      have hds : d ≠ s := fun h => hne (by rw [hbs, h])
      simp [Env.write, Env.log, hds]
  · have hgpu : op.backend = Backend.GPUBackend := InBackend_ne_CPU hin
    rw [SetDataSourceHelper_copy_device op env batch data_id order mode hw hin]
    obtain ⟨item, cs, hq, hr, hp, ht, ⟨o, hcp⟩, hsh⟩ :=
      CopyUserData_device_calls op env batch order data_id mode.sync mode.use_copy_kernel hgpu
    refine ⟨(CopyUserData_device_push op env batch data_id order mode.sync
      mode.use_copy_kernel).1, item, hq, hr, hp,
      ⟨o, mode.use_copy_kernel, ?_⟩, ?_, ?_⟩
    · simp [Env.callsSince, Env.log, ht, hcp]
    · intro p
      simp [Env.callsSince, Env.log, ht, hsh p]
    · intro hsrc hcache
      obtain ⟨_, item', d, cs', hq', _, _, hs, hb, hne, _, _, _, hm⟩ :=
        CopyUserData_device_fill op env batch order data_id mode.sync mode.use_copy_kernel
          hgpu hsrc hcache
      have hitem : item' = item := by
        have := hq'.symm.trans hq
        simpa using this
      subst hitem
      refine ⟨hs, d, hb, hne, fun s hbs => ⟨by simpa [Env.log] using hm s hbs, fun v => ?_⟩⟩
      have hds : d ≠ s := fun h => hne (by rw [hbs, h])
      simp [Env.write, Env.log, hds]

/-- An instance: a CPU operator with `no_copy` set, whose recycle cache holds one
item owning the storage at address 50, is fed the host batch at address 5 with
FORCE_COPY; the queued copy lies at address 50. -/
theorem force_copy_owns_buffer_witness :
    Example.recycledOp.no_copy_ = true ∧
    (∀ s, Example.hostBatch.buffer = some s → s < Example.env0.next_addr) ∧
    (∀ it ∈ Example.recycledOp.tl_data_.empty_data,
      it.data.shares_data = false ∧
      ∀ s, Example.hostBatch.buffer = some s → it.data.buffer ≠ some s) ∧
    ∃ item,
      (Example.recycledOp.SetDataSource_TensorList Example.env0 Example.hostBatch
        AccessOrder.unset { copy_mode := InputOperatorCopyMode.FORCE_COPY }
        none).op.tl_data_.full_data = [item] ∧
      item.data.shares_data = false ∧
      ∃ d, item.data.buffer = some d ∧ Example.hostBatch.buffer ≠ some d :=
  ⟨rfl, by decide, by decide,
   (force_copy_owns_buffer Example.recycledOp Example.env0
      Example.hostBatch AccessOrder.unset { copy_mode := InputOperatorCopyMode.FORCE_COPY }
      none rfl).2.imp
     (fun _ h => ⟨h.1, (h.2.2.2.2.2 (by decide) (by decide)).1,
        (h.2.2.2.2.2 (by decide) (by decide)).2.imp (fun _ h' => ⟨h'.1, h'.2.1⟩)⟩)⟩

/-- C7, evaluated: a CPU operator is fed the host batch at address 5 with
FORCE_NO_COPY, the queued item, which shares that storage, is consumed and
handed to `RecycleBuffer`, and the same batch is fed again with FORCE_COPY.
`CopyUserData` takes the recycled item and copies into the storage it finds
there: the queued item has the pointer of the source, still marked as shared,
no `Reset` is made, and a later write to the source changes the queued data.
The same happens on a GPU operator with the device batch at address 6.  On that
state the copy branch of `ShareUserData`, which tests `shares_data()` before its
`Copy`, resets the item first and copies into a new buffer. -/
theorem force_copy_writes_into_shared_buffer :
    Example.hostBatch.buffer = some 5 ∧
    Example.sharedRecycled.1.tl_data_.empty_data.map
      (fun it => (it.data.buffer, it.data.shares_data)) = [(some 5, true)] ∧
    (Example.sharedRecycled.1.SetDataSource_TensorList Example.sharedRecycled.2
      Example.hostBatch AccessOrder.unset { copy_mode := InputOperatorCopyMode.FORCE_COPY }
      none).outcome = Outcome.returned () ∧
    (Example.sharedRecycled.1.SetDataSource_TensorList Example.sharedRecycled.2
      Example.hostBatch AccessOrder.unset { copy_mode := InputOperatorCopyMode.FORCE_COPY }
      none).op.tl_data_.full_data.map
      (fun it => (it.data.buffer, it.data.shares_data, it.copy_requested, it.copy_performed))
      = [(some 5, true, true, true)] ∧
    Env.callsSince Example.sharedRecycled.2
      (Example.sharedRecycled.1.SetDataSource_TensorList Example.sharedRecycled.2
        Example.hostBatch AccessOrder.unset { copy_mode := InputOperatorCopyMode.FORCE_COPY }
        none).env
      = [Call.Copy (some 5) AccessOrder.host false, Call.notify_one] ∧
    (Example.sharedRecycled.1.SetDataSource_TensorList Example.sharedRecycled.2
      Example.hostBatch AccessOrder.unset { copy_mode := InputOperatorCopyMode.FORCE_COPY }
      none).env.mem 5 = 5 ∧
    ((Example.sharedRecycled.1.SetDataSource_TensorList Example.sharedRecycled.2
      Example.hostBatch AccessOrder.unset { copy_mode := InputOperatorCopyMode.FORCE_COPY }
      none).env.write 5 99).mem 5 = 99 ∧
    Example.deviceBatch.buffer = some 6 ∧
    Example.sharedDeviceRecycled.1.tl_data_.empty_data.map
      (fun it => (it.data.buffer, it.data.shares_data)) = [(some 6, true)] ∧
    (Example.sharedDeviceRecycled.1.SetDataSource_TensorList Example.sharedDeviceRecycled.2
      Example.deviceBatch AccessOrder.unset { copy_mode := InputOperatorCopyMode.FORCE_COPY }
      none).op.tl_data_.full_data.map
      (fun it => (it.data.buffer, it.data.shares_data, it.copy_requested, it.copy_performed))
      = [(some 6, true, true, true)] ∧
    Env.callsSince Example.sharedDeviceRecycled.2
      (Example.sharedDeviceRecycled.1.SetDataSource_TensorList Example.sharedDeviceRecycled.2
        Example.deviceBatch AccessOrder.unset { copy_mode := InputOperatorCopyMode.FORCE_COPY }
        none).env
      = [Call.Copy (some 6) (AccessOrder.stream 7 0) false,
         Call.cudaEventRecord 0 (AccessOrder.stream 7 0), Call.notify_one] ∧
    (Example.sharedDeviceRecycled.1.SetDataSource_TensorList Example.sharedDeviceRecycled.2
      { Example.deviceBatch with contiguous := false } AccessOrder.unset
      { copy_mode := InputOperatorCopyMode.FORCE_NO_COPY } none).op.tl_data_.full_data.map
      (fun it => (it.data.buffer, it.data.shares_data)) = [(some 100, false)] ∧
    Env.callsSince Example.sharedDeviceRecycled.2
      (Example.sharedDeviceRecycled.1.SetDataSource_TensorList Example.sharedDeviceRecycled.2
        { Example.deviceBatch with contiguous := false } AccessOrder.unset
        { copy_mode := InputOperatorCopyMode.FORCE_NO_COPY } none).env
      = [Call.Reset, Call.Copy (some 6) (AccessOrder.stream 3 0) false,
         Call.cudaEventRecord 0 (AccessOrder.stream 3 0), Call.DALI_WARN, Call.notify_one] := by
  refine ⟨rfl, rfl, rfl, rfl, rfl, rfl, rfl, rfl, rfl, rfl, rfl, rfl, rfl⟩

/-- C8: a feed resolved to no-copy whose source backend differs from the input
backend of the operator throws, through either overload, and leaves the operator
state, the live queue and the recycle cache included, and the environment as
they were. -/
theorem no_copy_backend_mismatch_fails (op : InputOperator) (env : Env) (batch : TensorList)
    (src_backend : Backend) (vect_of_tensors : List Tensor) (order : AccessOrder)
    (mode : InputOperatorSettingMode) (data_id : Option String)
    (hw : op.WouldCopy mode.copy_mode = false)
    (hb : batch.backend ≠ InBackend op.backend)
    (hv : src_backend ≠ InBackend op.backend) :
    (op.SetDataSource_TensorList env batch order mode data_id).outcome.failed = true ∧
    (op.SetDataSource_TensorList env batch order mode data_id).op = op ∧
    (op.SetDataSource_TensorList env batch order mode data_id).env.trace = env.trace ∧
    (op.SetDataSource_vector env src_backend vect_of_tensors order mode data_id).outcome.failed
      = true ∧
    (op.SetDataSource_vector env src_backend vect_of_tensors order mode data_id).op = op ∧
    (op.SetDataSource_vector env src_backend vect_of_tensors order mode data_id).env.trace
      = env.trace := by
  have h1 := SetDataSourceHelper_share_mismatch op env batch data_id order mode hw hb
  refine ⟨?_, ?_, ?_, ?_, ?_, ?_⟩
  · simp [SetDataSource_TensorList, h1, ShareUserData_mismatch, Outcome.failed]
  · simp [SetDataSource_TensorList, h1, ShareUserData_mismatch]
  · simp [SetDataSource_TensorList, h1, ShareUserData_mismatch]
  all_goals
    cases vect_of_tensors with
    | nil => simp [SetDataSource_vector, Outcome.failed]
    | cons first rest =>
      simp [SetDataSource_vector,
        SetDataSourceHelper_share_mismatch op env (TensorList.ofTensors src_backend first rest)
          data_id order mode hw hv, ShareUserData_mismatch, Outcome.failed]

/-- C8, witness: the GPU example operator fed a host batch, as a tensor list and
as a vector of one host tensor, with FORCE_NO_COPY. -/
theorem no_copy_backend_mismatch_fails_witness :
    Example.gpuOp.WouldCopy InputOperatorCopyMode.FORCE_NO_COPY = false ∧
    Example.hostBatch.backend ≠ InBackend Example.gpuOp.backend ∧
    (Example.gpuOp.SetDataSource_TensorList Example.env0 Example.hostBatch AccessOrder.unset
      { copy_mode := InputOperatorCopyMode.FORCE_NO_COPY } none).outcome.failed = true ∧
    (Example.gpuOp.SetDataSource_TensorList Example.env0 Example.hostBatch AccessOrder.unset
      { copy_mode := InputOperatorCopyMode.FORCE_NO_COPY } none).op = Example.gpuOp ∧
    (Example.gpuOp.SetDataSource_vector Example.env0 Backend.CPUBackend
      [{ data := 8, nbytes := 4, pinned := false, device_id := CPU_ONLY_DEVICE_ID,
         order := AccessOrder.host }]
      AccessOrder.unset { copy_mode := InputOperatorCopyMode.FORCE_NO_COPY } none).op
      = Example.gpuOp :=
  ⟨rfl, by decide,
   (no_copy_backend_mismatch_fails Example.gpuOp Example.env0 Example.hostBatch
      Backend.CPUBackend [] AccessOrder.unset
      { copy_mode := InputOperatorCopyMode.FORCE_NO_COPY } none rfl
      (by decide) (by decide)).1,
   (no_copy_backend_mismatch_fails Example.gpuOp Example.env0 Example.hostBatch
      Backend.CPUBackend [] AccessOrder.unset
      { copy_mode := InputOperatorCopyMode.FORCE_NO_COPY } none rfl
      (by decide) (by decide)).2.1,
   (no_copy_backend_mismatch_fails Example.gpuOp Example.env0 Example.hostBatch
      Backend.CPUBackend
      [{ data := 8, nbytes := 4, pinned := false, device_id := CPU_ONLY_DEVICE_ID,
         order := AccessOrder.host }]
      AccessOrder.unset { copy_mode := InputOperatorCopyMode.FORCE_NO_COPY } none rfl
      (by decide) (by decide)).2.2.2.2.1⟩

/-- C9: every `SetDataSource` call that returns, through either overload,
appends exactly one item at the tail of the live queue, carrying the `data_id`
of the caller, and leaves the items queued before in place and in order; so
when `k` feeds in a row all return, with no consumption in between, the queue
holds the items it held followed by `k` new ones whose `data_id`s are those of
the feeds, in feed order. -/
theorem SetDataSource_appends_in_feed_order (op : InputOperator) (env : Env)
    (feeds : List Feed) :
    (∀ f : Feed, (f.run op env).outcome = Outcome.returned () →
      ∃ item, (f.run op env).op.tl_data_.full_data = op.tl_data_.full_data ++ [item] ∧
        item.data_id = f.data_id) ∧
    ((FeedAll feeds op env).1 = true →
      ∃ items,
        (FeedAll feeds op env).2.1.tl_data_.full_data = op.tl_data_.full_data ++ items ∧
        items.length = feeds.length ∧
        items.map (fun it => it.data_id) = feeds.map Feed.data_id) := by
  refine ⟨fun f h => Feed.run_push f op env h, fun hall => ?_⟩
  obtain ⟨items, hq, hids⟩ := FeedAll_push feeds op env hall
  refine ⟨items, hq, ?_, hids⟩
  have := congrArg List.length hids
  simpa using this

/-- C9, witness: two feeds, one through each overload, on the CPU example
operator with an empty queue. -/
theorem SetDataSource_appends_in_feed_order_witness :
    (FeedAll
      [Feed.tensorList Example.hostBatch AccessOrder.unset {} (some "first"),
       Feed.vector Backend.CPUBackend
         [{ data := 8, nbytes := 4, pinned := false, device_id := CPU_ONLY_DEVICE_ID,
            order := AccessOrder.host }]
         AccessOrder.unset { copy_mode := InputOperatorCopyMode.FORCE_NO_COPY } (some "second")]
      Example.cpuOp Example.env0).1 = true ∧
    ∃ items,
      (FeedAll
        [Feed.tensorList Example.hostBatch AccessOrder.unset {} (some "first"),
         Feed.vector Backend.CPUBackend
           [{ data := 8, nbytes := 4, pinned := false, device_id := CPU_ONLY_DEVICE_ID,
              order := AccessOrder.host }]
           AccessOrder.unset { copy_mode := InputOperatorCopyMode.FORCE_NO_COPY }
           (some "second")]
        Example.cpuOp Example.env0).2.1.tl_data_.full_data
        = Example.cpuOp.tl_data_.full_data ++ items ∧
      items.length = 2 ∧
      items.map (fun it => it.data_id) = [some "first", some "second"] :=
  ⟨rfl, (SetDataSource_appends_in_feed_order Example.cpuOp Example.env0 _).2 rfl⟩

/-- C10, counterexample: a Mixed operator copies a device batch in the stream
order given by the caller and leases no event, and a CPU operator shares a host
batch without any copy; both queue an item with `copy_performed` set for which
no `Copy` of the feed was made in host order or in an order in which an event of
the item was recorded. -/
theorem copy_performed_without_completion :
    (Example.mixedOp.SetDataSource_TensorList Example.env0 Example.deviceBatch
        (AccessOrder.stream 9 0) {} none).outcome = Outcome.returned () ∧
    (Example.mixedOp.SetDataSource_TensorList Example.env0 Example.deviceBatch
        (AccessOrder.stream 9 0) {} none).env.trace
      = [Call.Copy (some 6) (AccessOrder.stream 9 0) false, Call.notify_one] ∧
    (Example.mixedOp.SetDataSource_TensorList Example.env0 Example.deviceBatch
        (AccessOrder.stream 9 0) {} none).op.tl_data_.full_data.map
      (fun it => (it.copy_performed, it.copy_complete.event_,
        it.CompletionInvariant (Env.callsSince Example.env0
          (Example.mixedOp.SetDataSource_TensorList Example.env0 Example.deviceBatch
            (AccessOrder.stream 9 0) {} none).env)))
      = [(true, none, false)] ∧
    (Example.cpuOp.SetDataSource_TensorList Example.env0 Example.hostBatch
        AccessOrder.unset { copy_mode := InputOperatorCopyMode.FORCE_NO_COPY } none).env.trace
      = [Call.ShareData (some 5), Call.notify_one] ∧
    (Example.cpuOp.SetDataSource_TensorList Example.env0 Example.hostBatch
        AccessOrder.unset { copy_mode := InputOperatorCopyMode.FORCE_NO_COPY }
        none).op.tl_data_.full_data.map
      (fun it => (it.copy_performed, it.copy_complete.event_,
        it.CompletionInvariant (Env.callsSince Example.env0
          (Example.cpuOp.SetDataSource_TensorList Example.env0 Example.hostBatch
            AccessOrder.unset { copy_mode := InputOperatorCopyMode.FORCE_NO_COPY } none).env)))
      = [(true, none, false)] := by
  refine ⟨rfl, rfl, ?_, rfl, ?_⟩ <;> decide

/-- C10, amended: every item pushed to the live queue by a GPU operator (device
share path, device-input copy path), or by the host-input copy path when the copy
order is host (a host source, or a caller order that is host), satisfies: if
`copy_performed` is set, then a `Copy` of the feed was made in host order, or in
an order in which the completion event leased by the item was recorded. -/
theorem completion_recorded_in_copy_order (op : InputOperator) (env : Env)
    (batch : TensorList) (order : AccessOrder) (mode : InputOperatorSettingMode)
    (data_id : Option String)
    (hpath : op.backend = Backend.GPUBackend ∨
      (op.WouldCopy mode.copy_mode = true ∧
        (batch.backend = Backend.CPUBackend ∨ order = AccessOrder.host)))
    (hret : (op.SetDataSource_TensorList env batch order mode data_id).outcome
      = Outcome.returned ()) :
    ∃ item,
      (op.SetDataSource_TensorList env batch order mode data_id).op.tl_data_.full_data
        = op.tl_data_.full_data ++ [item] ∧
      item.CompletionInvariant (Env.callsSince env
        (op.SetDataSource_TensorList env batch order mode data_id).env) = true := by
  unfold SetDataSource_TensorList at hret ⊢
  have hgpu_of : InBackend op.backend ≠ Backend.CPUBackend → op.backend = Backend.GPUBackend := by
    intro h
    cases hbk : op.backend <;> simp [hbk, InBackend] at h ⊢
  cases hw : op.WouldCopy mode.copy_mode with
  | true =>
    by_cases hin : InBackend op.backend = Backend.CPUBackend
    · have hcpu : op.backend ≠ Backend.GPUBackend := by
        intro h
        simp [h, InBackend] at hin
      have ho : batch.backend = Backend.CPUBackend ∨ order = AccessOrder.host := by
        rcases hpath with h | h
        · exact absurd h hcpu
        · exact h.2
      rw [SetDataSourceHelper_copy_host op env batch data_id order mode hw hin]
      exact CopyUserData_host_invariant op env batch order data_id ho
    · rw [SetDataSourceHelper_copy_device op env batch data_id order mode hw hin]
      exact CopyUserData_device_invariant op env batch order data_id mode.sync
        mode.use_copy_kernel (hgpu_of hin)
  | false =>
    have hgpu : op.backend = Backend.GPUBackend := by
      rcases hpath with h | h
      · exact h
      · rw [hw] at h
        exact absurd h.1 (by simp)
    by_cases hb : batch.backend = InBackend op.backend
    · have hc : batch.backend ≠ Backend.CPUBackend := by
        rw [hb, hgpu]
        simp [InBackend]
      rw [SetDataSourceHelper_share_device op env batch data_id order mode hw hb hc]
      exact ShareUserData_device_invariant op env batch order data_id mode.use_copy_kernel hgpu
    · rw [SetDataSourceHelper_share_mismatch op env batch data_id order mode hw hb] at hret
      simp [ShareUserData_mismatch] at hret

/-- C10, witness: the GPU example operator copies a host batch in its internal
stream and records the leased event there. -/
theorem completion_recorded_in_copy_order_witness :
    Example.gpuOp.backend = Backend.GPUBackend ∧
    (Example.gpuOp.SetDataSource_TensorList Example.env0 Example.hostBatch AccessOrder.unset
      {} none).outcome = Outcome.returned () ∧
    ∃ item,
      (Example.gpuOp.SetDataSource_TensorList Example.env0 Example.hostBatch AccessOrder.unset
        {} none).op.tl_data_.full_data = Example.gpuOp.tl_data_.full_data ++ [item] ∧
      item.CompletionInvariant (Env.callsSince Example.env0
        (Example.gpuOp.SetDataSource_TensorList Example.env0 Example.hostBatch
          AccessOrder.unset {} none).env) = true :=
  ⟨rfl, rfl,
   completion_recorded_in_copy_order Example.gpuOp Example.env0 Example.hostBatch
     AccessOrder.unset {} none (Or.inl rfl) rfl⟩

theorem CopyUserData_device_trace (op : InputOperator) (env : Env) (batch : TensorList)
    (order : AccessOrder) (data_id : Option String) (sync k : Bool)
    (hgpu : op.backend = Backend.GPUBackend) :
    ∃ item e o,
      (op.CopyUserData_device env batch data_id order sync k).op.tl_data_.full_data
        = op.tl_data_.full_data ++ [item] ∧
      item.copy_complete.event_ = some e ∧ o.is_device = true ∧
      (op.CopyUserData_device env batch data_id order sync k).env.trace
        = env.trace ++ ([Call.Copy batch.buffer o k, Call.cudaEventRecord e o]
            ++ (if sync then [Call.cudaEventSynchronize e] else [])) := by
  obtain ⟨backend, dev, blocking, no_copy, running, ⟨full, cache, prophet⟩, zc, stream⟩ := op
  simp only [] at hgpu
  subst hgpu
  simp only [CopyUserData_device, GetEmptyOutputBatch, CachingList.GetEmpty,
    CachingList.PushBack, TensorList.Copy, Env.log,
    TensorList.set_order, TensorList.set_device_id, InputQueueItem.GetCompletionEvent,
    TensorList.is_pinned, TensorList.empty, internal_copy_order_]
  cases cache with
  | nil =>
    cases order with
    | stream h dv =>
      obtain ⟨e, pool', hg⟩ := EventLease.Get_eq {} dv env.event_pool
      cases sync <;> simp [AccessOrder.is_device, AccessOrder.device_id, hg]
    | _ =>
      obtain ⟨e, pool', hg⟩ := EventLease.Get_eq {} dev env.event_pool
      cases sync <;> simp [AccessOrder.is_device, AccessOrder.device_id, hg]
  | cons x rest =>
    cases order with
    | stream h dv =>
      obtain ⟨e, pool', hg⟩ := EventLease.Get_eq x.copy_complete dv env.event_pool
      cases sync <;> simp [AccessOrder.is_device, AccessOrder.device_id, hg]
    | _ =>
      obtain ⟨e, pool', hg⟩ := EventLease.Get_eq x.copy_complete dev env.event_pool
      cases sync <;> simp [AccessOrder.is_device, AccessOrder.device_id, hg]

theorem CopyUserData_host_trace (op : InputOperator) (env : Env) (batch : TensorList)
    (order : AccessOrder) (data_id : Option String) :
    ∃ item cs,
      (op.CopyUserData_host env batch data_id order).op.tl_data_.full_data
        = op.tl_data_.full_data ++ [item] ∧
      item.copy_complete.event_ = (op.tl_data_.empty_data.head?.map
        (fun it => it.copy_complete.event_)).getD none ∧
      (op.CopyUserData_host env batch data_id order).env.trace = env.trace ++ cs ∧
      (∀ e o, Call.cudaEventRecord e o ∉ cs) ∧ (∀ e, Call.cudaEventSynchronize e ∉ cs) ∧
      (op.CopyUserData_host env batch data_id order).env.event_pool = env.event_pool := by
  obtain ⟨backend, dev, blocking, no_copy, running, ⟨full, cache, prophet⟩, zc, stream⟩ := op
  obtain ⟨bb, bn, bbuf, bp, bd, bo, bc, bs⟩ := batch
  simp only [CopyUserData_host, GetEmptyOutputBatch, CachingList.GetEmpty,
    CachingList.PushBack, TensorList.Copy, TensorList.Reset, Env.log,
    TensorList.set_pinned, TensorList.set_order, TensorList.set_device_id,
    TensorList.is_pinned, TensorList.empty]
  cases cache with
  | nil => by_cases hp : bp = env.pinned_by_default <;> simp [hp]
  | cons x rest => by_cases hp : bp = x.data.pinned <;> simp [hp]


/-- C11, counterexample: on a CPU operator a host batch fed with `sync` set, and
on a Mixed operator a device batch fed in a stream order with `sync` set, take
the copy path; the calls of the feed are the `Copy` and the notification alone:
no event is recorded and none is synchronised. -/
theorem host_input_copy_records_no_event :
    Example.cpuOp.WouldCopy InputOperatorCopyMode.DEFAULT = true ∧
    (Example.cpuOp.SetDataSource_TensorList Example.env0 Example.hostBatch AccessOrder.unset
        { sync := true } none).outcome = Outcome.returned () ∧
    (Example.cpuOp.SetDataSource_TensorList Example.env0 Example.hostBatch AccessOrder.unset
        { sync := true } none).env.trace
      = [Call.Copy (some 5) AccessOrder.host false, Call.notify_one] ∧
    (Example.mixedOp.SetDataSource_TensorList Example.env0 Example.deviceBatch
        (AccessOrder.stream 9 0) { sync := true } none).env.trace
      = [Call.Copy (some 6) (AccessOrder.stream 9 0) false, Call.notify_one] ∧
    (Example.mixedOp.SetDataSource_TensorList Example.env0 Example.deviceBatch
        (AccessOrder.stream 9 0) { sync := true } none).op.tl_data_.full_data.map
      (fun it => it.copy_complete.event_) = [none] := by
  refine ⟨rfl, rfl, rfl, rfl, rfl⟩

/-- C11, amended: for a feed that takes the copy path on a device-input (GPU)
operator, the calls of the feed are, in this order, the `Copy` in a device
order, the record of the completion event leased by the queued item in that
same order, the host synchronisation on that event when `sync` is set, and the
notification before the return.  On a host-input operator (CPU, Mixed) the copy
path records no event, synchronises on none and leaves the event pool alone,
whatever `sync` is. -/
theorem copy_path_completion_event (op : InputOperator) (env : Env) (batch : TensorList)
    (order : AccessOrder) (mode : InputOperatorSettingMode) (data_id : Option String)
    (hw : op.WouldCopy mode.copy_mode = true) :
    (op.backend = Backend.GPUBackend →
      ∃ item e o,
        (op.SetDataSource_TensorList env batch order mode data_id).op.tl_data_.full_data
          = op.tl_data_.full_data ++ [item] ∧
        item.copy_complete.event_ = some e ∧ o.is_device = true ∧
        Env.callsSince env (op.SetDataSource_TensorList env batch order mode data_id).env
          = [Call.Copy batch.buffer o mode.use_copy_kernel, Call.cudaEventRecord e o]
            ++ (if mode.sync then [Call.cudaEventSynchronize e] else [])
            ++ [Call.notify_one]) ∧
    (op.backend ≠ Backend.GPUBackend →
      (∀ e o, Call.cudaEventRecord e o ∉
        Env.callsSince env (op.SetDataSource_TensorList env batch order mode data_id).env) ∧
      (∀ e, Call.cudaEventSynchronize e ∉
        Env.callsSince env (op.SetDataSource_TensorList env batch order mode data_id).env) ∧
      (op.SetDataSource_TensorList env batch order mode data_id).env.event_pool
        = env.event_pool) := by
  unfold SetDataSource_TensorList
  constructor
  · intro hgpu
    have hin : InBackend op.backend ≠ Backend.CPUBackend := by simp [hgpu, InBackend]
    rw [SetDataSourceHelper_copy_device op env batch data_id order mode hw hin]
    obtain ⟨item, e, o, hq, he, ho, ht⟩ :=
      CopyUserData_device_trace op env batch order data_id mode.sync mode.use_copy_kernel hgpu
    refine ⟨item, e, o, hq, he, ho, ?_⟩
    simp [Env.callsSince, Env.log, ht]
  · intro hgpu
    have hin : InBackend op.backend = Backend.CPUBackend := by
      cases hb : op.backend <;> simp [hb, InBackend] at hgpu ⊢
    rw [SetDataSourceHelper_copy_host op env batch data_id order mode hw hin]
    obtain ⟨item, cs, hq, _, ht, hrec, hsync, hpool⟩ :=
      CopyUserData_host_trace op env batch order data_id
    refine ⟨?_, ?_, ?_⟩
    · intro e o
      simp [Env.callsSince, Env.log, ht, hrec e o]
    · intro e
      simp [Env.callsSince, Env.log, ht, hsync e]
    · simpa [Env.log] using hpool

/-- C11, witness: the GPU example operator copies a host batch with `sync` set. -/
theorem copy_path_completion_event_witness :
    Example.gpuOp.WouldCopy InputOperatorCopyMode.DEFAULT = true ∧
    Example.gpuOp.backend = Backend.GPUBackend ∧
    Env.callsSince Example.env0
        (Example.gpuOp.SetDataSource_TensorList Example.env0 Example.hostBatch
          AccessOrder.unset { sync := true } none).env
      = [Call.Copy (some 5) (AccessOrder.stream 7 0) false,
         Call.cudaEventRecord 0 (AccessOrder.stream 7 0),
         Call.cudaEventSynchronize 0, Call.notify_one] ∧
    ∃ (item : InputQueueItem) (e : Nat) (o : AccessOrder),
      (Example.gpuOp.SetDataSource_TensorList Example.env0 Example.hostBatch
        AccessOrder.unset { sync := true } none).op.tl_data_.full_data
        = Example.gpuOp.tl_data_.full_data ++ [item] ∧
      item.copy_complete.event_ = some e ∧ o.is_device = true := by
  refine ⟨rfl, rfl, rfl, ?_⟩
  obtain ⟨item, e, o, h1, h2, h3, _⟩ :=
    (copy_path_completion_event Example.gpuOp Example.env0 Example.hostBatch
      AccessOrder.unset { sync := true } none rfl).1 rfl
  exact ⟨item, e, o, h1, h2, h3⟩

theorem ShareUserData_host_flag (op : InputOperator) (env : Env) (batch : TensorList)
    (data_id : Option String) :
    (op.ShareUserData_host env batch data_id).op.zero_copy_noncontiguous_gpu_input_
      = op.zero_copy_noncontiguous_gpu_input_ := by
  obtain ⟨backend, dev, blocking, no_copy, running, ⟨full, cache, prophet⟩, zc, stream⟩ := op
  cases cache <;>
    simp [ShareUserData_host, GetEmptyOutputBatch, CachingList.GetEmpty, CachingList.PushBack]

theorem CopyUserData_host_flag (op : InputOperator) (env : Env) (batch : TensorList)
    (data_id : Option String) (order : AccessOrder) :
    (op.CopyUserData_host env batch data_id order).op.zero_copy_noncontiguous_gpu_input_
      = op.zero_copy_noncontiguous_gpu_input_ := by
  obtain ⟨backend, dev, blocking, no_copy, running, ⟨full, cache, prophet⟩, zc, stream⟩ := op
  cases cache <;>
    simp [CopyUserData_host, GetEmptyOutputBatch, CachingList.GetEmpty, CachingList.PushBack]

theorem CopyUserData_device_flag (op : InputOperator) (env : Env) (batch : TensorList)
    (data_id : Option String) (order : AccessOrder) (sync k : Bool) :
    (op.CopyUserData_device env batch data_id order sync k).op.zero_copy_noncontiguous_gpu_input_
      = op.zero_copy_noncontiguous_gpu_input_ := by
  obtain ⟨backend, dev, blocking, no_copy, running, ⟨full, cache, prophet⟩, zc, stream⟩ := op
  cases cache <;>
    simp [CopyUserData_device, GetEmptyOutputBatch, CachingList.GetEmpty,
      CachingList.PushBack, InputQueueItem.GetCompletionEvent]

theorem ShareUserData_device_contiguous (op : InputOperator) (env : Env) (batch : TensorList)
    (order : AccessOrder) (data_id : Option String) (k : Bool)
    (hc : (batch.IsContiguousInMemory && batch.device_id == op.device_id_) = true) :
    (op.ShareUserData_device env batch data_id order k).op.zero_copy_noncontiguous_gpu_input_
      = true ∧
    (op.ShareUserData_device env batch data_id order k).env.trace
      = env.trace ++ [Call.ShareData batch.buffer] := by
  obtain ⟨backend, dev, blocking, no_copy, running, ⟨full, cache, prophet⟩, zc, stream⟩ := op
  simp only [] at hc
  cases cache <;>
    simp [ShareUserData_device, GetEmptyOutputBatch, CachingList.GetEmpty,
      CachingList.PushBack, TensorList.ShareData, Env.log, hc]

theorem ShareUserData_device_noncontiguous (op : InputOperator) (env : Env)
    (batch : TensorList) (order : AccessOrder) (data_id : Option String) (k : Bool)
    (hgpu : op.backend = Backend.GPUBackend)
    (hc : (batch.IsContiguousInMemory && batch.device_id == op.device_id_) = false) :
    ∃ item d cs,
      (op.ShareUserData_device env batch data_id order k).op.tl_data_.full_data
        = op.tl_data_.full_data ++ [item] ∧
      item.copy_performed = true ∧ item.copy_requested = false ∧
      item.data.shares_data = false ∧ item.data.buffer = some d ∧
      (op.ShareUserData_device env batch data_id order k).env.trace = env.trace ++ cs ∧
      (∃ o, Call.Copy batch.buffer o k ∈ cs) ∧
      (∀ p, Call.ShareData p ∉ cs) ∧
      (Call.DALI_WARN ∈ cs ↔ op.zero_copy_noncontiguous_gpu_input_ = true) ∧
      (op.ShareUserData_device env batch data_id order k).op.zero_copy_noncontiguous_gpu_input_
        = op.zero_copy_noncontiguous_gpu_input_ := by
  obtain ⟨backend, dev, blocking, no_copy, running, ⟨full, cache, prophet⟩, zc, stream⟩ := op
  obtain ⟨bb, bn, bbuf, bp, bd, bo, bc, bs⟩ := batch
  simp only [] at hgpu
  subst hgpu
  have hc' : ¬ (bc && bd == dev) = true := by
    simp only [TensorList.IsContiguousInMemory] at hc
    simp [hc]
  have hord : ∃ o, (if (!order.has_value) = true then
        (if bo.is_device = true then bo else AccessOrder.stream stream dev) else order) = o ∧
      (o = AccessOrder.host ∨ ∃ h dv, o = AccessOrder.stream h dv) := by
    cases order with
    | host => exact ⟨_, rfl, Or.inl (by simp [AccessOrder.has_value])⟩
    | stream h dv => exact ⟨_, rfl, Or.inr ⟨h, dv, by simp [AccessOrder.has_value]⟩⟩
    | unset =>
      cases bo with
      | stream h dv =>
        exact ⟨_, rfl, Or.inr ⟨h, dv, by simp [AccessOrder.has_value, AccessOrder.is_device]⟩⟩
      | host =>
        exact ⟨_, rfl, Or.inr ⟨stream, dev,
          by simp [AccessOrder.has_value, AccessOrder.is_device]⟩⟩
      | unset =>
        exact ⟨_, rfl, Or.inr ⟨stream, dev,
          by simp [AccessOrder.has_value, AccessOrder.is_device]⟩⟩
  obtain ⟨o, ho, hcase⟩ := hord
  simp only [ShareUserData_device, GetEmptyOutputBatch, CachingList.GetEmpty,
    CachingList.PushBack, TensorList.Copy, TensorList.Reset, Env.log,
    TensorList.set_order, TensorList.set_device_id, InputQueueItem.GetCompletionEvent,
    TensorList.is_pinned, TensorList.empty, internal_copy_order_,
    TensorList.IsContiguousInMemory, hc']
  cases cache with
  | nil =>
    simp only [if_true, ho]
    rcases hcase with rfl | ⟨h, dv, rfl⟩
    · cases zc <;> simp [AccessOrder.is_device]
    · obtain ⟨e, pool', hg⟩ := EventLease.Get_eq {} dv env.event_pool
      cases zc <;> simp [AccessOrder.is_device, AccessOrder.device_id, hg]
  | cons x rest =>
    simp only [if_true, ho]
    rcases hcase with rfl | ⟨h, dv, rfl⟩
    · cases zc <;> cases hs : x.data.shares_data <;> cases hx : x.data.buffer <;>
        simp [AccessOrder.is_device, hs, hx]
    · obtain ⟨e, pool', hg⟩ := EventLease.Get_eq x.copy_complete dv env.event_pool
      cases zc <;> cases hs : x.data.shares_data <;> cases hx : x.data.buffer <;>
        simp [AccessOrder.is_device, AccessOrder.device_id, hg, hs, hx]


/-- C12, counterexample: a GPU operator that has shared no contiguous feed is
fed a non-contiguous device batch with FORCE_NO_COPY; the batch is copied and
the copy event recorded, but no warning is emitted. -/
theorem first_noncontiguous_feed_emits_no_warning :
    Example.gpuOp.zero_copy_noncontiguous_gpu_input_ = false ∧
    (Example.gpuOp.SetDataSource_TensorList Example.env0
        { Example.deviceBatch with contiguous := false } AccessOrder.unset
        { copy_mode := InputOperatorCopyMode.FORCE_NO_COPY } none).env.trace
      = [Call.Copy (some 6) (AccessOrder.stream 3 0) false,
         Call.cudaEventRecord 0 (AccessOrder.stream 3 0), Call.notify_one] ∧
    (Example.gpuOp.SetDataSource_TensorList Example.env0
        { Example.deviceBatch with contiguous := false } AccessOrder.unset
        { copy_mode := InputOperatorCopyMode.FORCE_NO_COPY } none).op.tl_data_.full_data.map
      (fun it => it.copy_performed) = [true] := by
  refine ⟨rfl, rfl, rfl⟩

/-- C12, amended: for a GPU operator on the no-copy path, every feed whose
device source is non-contiguous (or not on the operator device) is copied into a
buffer of the queue, and it emits the mixed-contiguity warning exactly when the
flag `zero_copy_noncontiguous_gpu_input_` is set; the feed leaves the flag as it
is.  The flag is set by a contiguous feed shared on the operator device, which
emits no warning, and every other feed (copy path, host share, backend mismatch)
leaves it as it is: the warning tells that a contiguous feed was shared before. -/
theorem noncontiguous_share_warns_after_contiguous (op : InputOperator) (env : Env)
    (batch : TensorList) (order : AccessOrder) (mode : InputOperatorSettingMode)
    (data_id : Option String) :
    (op.backend = Backend.GPUBackend → op.WouldCopy mode.copy_mode = false →
      batch.backend = Backend.GPUBackend →
      (batch.IsContiguousInMemory && batch.device_id == op.device_id_) = false →
      (op.SetDataSource_TensorList env batch order mode data_id).outcome
        = Outcome.returned () ∧
      (∃ item d,
        (op.SetDataSource_TensorList env batch order mode data_id).op.tl_data_.full_data
          = op.tl_data_.full_data ++ [item] ∧
        item.copy_performed = true ∧ item.data.shares_data = false ∧
        item.data.buffer = some d) ∧
      (∃ o k, Call.Copy batch.buffer o k ∈
        Env.callsSince env (op.SetDataSource_TensorList env batch order mode data_id).env) ∧
      (∀ p, Call.ShareData p ∉
        Env.callsSince env (op.SetDataSource_TensorList env batch order mode data_id).env) ∧
      (Call.DALI_WARN ∈
          Env.callsSince env (op.SetDataSource_TensorList env batch order mode data_id).env
        ↔ op.zero_copy_noncontiguous_gpu_input_ = true) ∧
      (op.SetDataSource_TensorList env batch order mode
          data_id).op.zero_copy_noncontiguous_gpu_input_
        = op.zero_copy_noncontiguous_gpu_input_) ∧
    (op.backend = Backend.GPUBackend → op.WouldCopy mode.copy_mode = false →
      batch.backend = Backend.GPUBackend →
      (batch.IsContiguousInMemory && batch.device_id == op.device_id_) = true →
      (op.SetDataSource_TensorList env batch order mode
          data_id).op.zero_copy_noncontiguous_gpu_input_ = true ∧
      Call.DALI_WARN ∉
        Env.callsSince env (op.SetDataSource_TensorList env batch order mode data_id).env) ∧
    (op.WouldCopy mode.copy_mode = true ∨ batch.backend ≠ InBackend op.backend ∨
        op.backend ≠ Backend.GPUBackend →
      (op.SetDataSource_TensorList env batch order mode
          data_id).op.zero_copy_noncontiguous_gpu_input_
        = op.zero_copy_noncontiguous_gpu_input_) := by
  unfold SetDataSource_TensorList
  refine ⟨?_, ?_, ?_⟩
  · intro hgpu hw hbg hnc
    have hb : batch.backend = InBackend op.backend := by rw [hbg, hgpu]; rfl
    have hc : batch.backend ≠ Backend.CPUBackend := by rw [hbg]; decide
    rw [SetDataSourceHelper_share_device op env batch data_id order mode hw hb hc]
    obtain ⟨item, d, cs, hq, hp, _, hs, hd, ht, ⟨o, hcp⟩, hsh, hwarn, hflag⟩ :=
      ShareUserData_device_noncontiguous op env batch order data_id mode.use_copy_kernel
        hgpu hnc
    refine ⟨(ShareUserData_device_push op env batch data_id order mode.use_copy_kernel).1,
      ⟨item, d, hq, hp, hs, hd⟩, ⟨o, mode.use_copy_kernel, ?_⟩, ?_, ?_, hflag⟩
    · simp [Env.callsSince, Env.log, ht, hcp]
    · intro p
      simp [Env.callsSince, Env.log, ht, hsh p]
    · simp [Env.callsSince, Env.log, ht, hwarn]
  · intro hgpu hw hbg hcont
    have hb : batch.backend = InBackend op.backend := by rw [hbg, hgpu]; rfl
    have hc : batch.backend ≠ Backend.CPUBackend := by rw [hbg]; decide
    rw [SetDataSourceHelper_share_device op env batch data_id order mode hw hb hc]
    obtain ⟨hflag, ht⟩ :=
      ShareUserData_device_contiguous op env batch order data_id mode.use_copy_kernel hcont
    exact ⟨hflag, by simp [Env.callsSince, Env.log, ht]⟩
  · intro h
    cases hw : op.WouldCopy mode.copy_mode with
    | true =>
      by_cases hin : InBackend op.backend = Backend.CPUBackend
      · rw [SetDataSourceHelper_copy_host op env batch data_id order mode hw hin]
        exact CopyUserData_host_flag op env batch data_id order
      · rw [SetDataSourceHelper_copy_device op env batch data_id order mode hw hin]
        exact CopyUserData_device_flag op env batch data_id order mode.sync
          mode.use_copy_kernel
    | false =>
      by_cases hb : batch.backend = InBackend op.backend
      · have hng : op.backend ≠ Backend.GPUBackend := by
          rcases h with h | h | h
          · rw [hw] at h; exact absurd h (by simp)
          · exact absurd hb h
          · exact h
        have hc : batch.backend = Backend.CPUBackend := by
          rw [hb]
          cases hbk : op.backend <;> simp [hbk, InBackend] at hng ⊢
        rw [SetDataSourceHelper_share_host op env batch data_id order mode hw hb hc]
        exact ShareUserData_host_flag op env batch data_id
      · rw [SetDataSourceHelper_share_mismatch op env batch data_id order mode hw hb]
        rfl

/-- C12, witness: the GPU example operator shares a contiguous device batch, which
sets the flag, and is then fed a non-contiguous one, which is copied and warns. -/
theorem noncontiguous_share_warns_after_contiguous_witness :
    (Example.gpuOp.SetDataSource_TensorList Example.env0 Example.deviceBatch AccessOrder.unset
      { copy_mode := InputOperatorCopyMode.FORCE_NO_COPY }
      none).op.zero_copy_noncontiguous_gpu_input_ = true ∧
    Call.DALI_WARN ∈
      Env.callsSince
        (Example.gpuOp.SetDataSource_TensorList Example.env0 Example.deviceBatch
          AccessOrder.unset { copy_mode := InputOperatorCopyMode.FORCE_NO_COPY } none).env
        ((Example.gpuOp.SetDataSource_TensorList Example.env0 Example.deviceBatch
            AccessOrder.unset { copy_mode := InputOperatorCopyMode.FORCE_NO_COPY }
            none).op.SetDataSource_TensorList
          (Example.gpuOp.SetDataSource_TensorList Example.env0 Example.deviceBatch
            AccessOrder.unset { copy_mode := InputOperatorCopyMode.FORCE_NO_COPY } none).env
          { Example.deviceBatch with contiguous := false } AccessOrder.unset
          { copy_mode := InputOperatorCopyMode.FORCE_NO_COPY } none).env :=
  ⟨((noncontiguous_share_warns_after_contiguous Example.gpuOp Example.env0
      Example.deviceBatch AccessOrder.unset
      { copy_mode := InputOperatorCopyMode.FORCE_NO_COPY } none).2.1 rfl rfl rfl rfl).1,
   ((noncontiguous_share_warns_after_contiguous
      (Example.gpuOp.SetDataSource_TensorList Example.env0 Example.deviceBatch
        AccessOrder.unset { copy_mode := InputOperatorCopyMode.FORCE_NO_COPY } none).op
      (Example.gpuOp.SetDataSource_TensorList Example.env0 Example.deviceBatch
        AccessOrder.unset { copy_mode := InputOperatorCopyMode.FORCE_NO_COPY } none).env
      { Example.deviceBatch with contiguous := false } AccessOrder.unset
      { copy_mode := InputOperatorCopyMode.FORCE_NO_COPY } none).1
      rfl rfl rfl rfl).2.2.2.2.1.mpr rfl⟩

/-! ## The scratchpad -/

namespace kernels

open DynamicScratchpad

theorem PerKind.get_set_same {α : Type} (t : PerKind α) (k : memory_kind) (a : α) :
    (t.set k a).get k = a := by
  cases k <;> rfl

theorem PerKind.get_set_ne {α : Type} (t : PerKind α) (k k' : memory_kind) (a : α)
    (h : k' ≠ k) : (t.set k a).get k' = t.get k' := by
  cases k <;> cases k' <;> first | rfl | exact absurd rfl h

theorem DynamicScratchpad.Alloc_eq (sp : DynamicScratchpad) (env : MmEnv) (k : memory_kind)
    (bytes alignment : Nat) : sp.Alloc env k bytes alignment = sp.AllocImpl env k bytes alignment := by
  cases k <;> rfl

/-- C13: for every memory kind and every alignment, `Alloc(kind, 0, alignment)`
returns null and leaves the scratchpad and the memory system as they were: no
resource is materialised and no upstream is called. -/
theorem Alloc_zero_bytes (sp : DynamicScratchpad) (env : MmEnv) (kind_id : memory_kind)
    (alignment : Nat) :
    sp.Alloc env kind_id 0 alignment = (none, sp, env) := by
  cases kind_id <;> rfl

theorem DynamicScratchpad.InitResource_frame (sp : DynamicScratchpad) (k k' : memory_kind)
    (h : k' ≠ k) :
    (sp.InitResource k).resource k' = sp.resource k' ∧
    (sp.InitResource k).adapter k' = sp.adapter k' := by
  cases k <;>
    simp [InitResource, set_upstream_resource, set_upstream_resource_async, resource, adapter,
      PerKind.get_set_ne _ _ _ _ h]

theorem DynamicScratchpad.InitResource_fields (sp : DynamicScratchpad) (k : memory_kind) :
    (sp.InitResource k).initial_sizes_ = sp.initial_sizes_ ∧
    (sp.InitResource k).device_order_ = sp.device_order_ ∧
    (sp.InitResource k).pinned_dealloc_order_ = sp.pinned_dealloc_order_ ∧
    (sp.InitResource k).managed_dealloc_order_ = sp.managed_dealloc_order_ := by
  cases k <;> simp [InitResource, set_upstream_resource, set_upstream_resource_async]

theorem DynamicScratchpad.InitResource_upstream (sp : DynamicScratchpad) (k : memory_kind) :
    ((sp.InitResource k).resource k).upstream
      = some (match k with
              | .host => resource_ref.default_resource .host
              | k => resource_ref.adapter k) := by
  cases k <;>
    simp [InitResource, set_upstream_resource, set_upstream_resource_async, resource,
      PerKind.get_set_same, monotonic_memory_resource.create]

theorem DynamicScratchpad.allocate_frame (sp : DynamicScratchpad) (env : MmEnv)
    (k : memory_kind) (bytes alignment : Nat) :
    (∀ k', k' ≠ k → ((sp.allocate env k bytes alignment).2.1).resource k' = sp.resource k') ∧
    ((sp.allocate env k bytes alignment).2.1).adapters_ = sp.adapters_ ∧
    ((sp.allocate env k bytes alignment).2.1).initial_sizes_ = sp.initial_sizes_ ∧
    ((sp.allocate env k bytes alignment).2.1).device_order_ = sp.device_order_ ∧
    ((sp.allocate env k bytes alignment).2.1).pinned_dealloc_order_
      = sp.pinned_dealloc_order_ ∧
    ((sp.allocate env k bytes alignment).2.1).managed_dealloc_order_
      = sp.managed_dealloc_order_ ∧
    (((sp.allocate env k bytes alignment).2.1).resource k).upstream = (sp.resource k).upstream := by
  unfold allocate
  cases hu : (sp.resource k).upstream with
  | none => simp [hu]
  | some up =>
    simp only [hu]
    split_ifs <;>
      refine ⟨fun k' h => ?_, rfl, rfl, rfl, rfl, rfl, ?_⟩ <;>
      first
        | simp [resource, PerKind.get_set_ne _ _ _ _ h]
        | simp [resource, PerKind.get_set_same]

theorem DynamicScratchpad.AllocImpl_frame (sp : DynamicScratchpad) (env : MmEnv)
    (k : memory_kind) (bytes alignment : Nat) :
    (∀ k', k' ≠ k →
      ((sp.AllocImpl env k bytes alignment).2.1).resource k' = sp.resource k' ∧
      ((sp.AllocImpl env k bytes alignment).2.1).adapter k' = sp.adapter k') ∧
    ((sp.AllocImpl env k bytes alignment).2.1).initial_sizes_ = sp.initial_sizes_ ∧
    ((sp.AllocImpl env k bytes alignment).2.1).device_order_ = sp.device_order_ ∧
    ((sp.AllocImpl env k bytes alignment).2.1).pinned_dealloc_order_
      = sp.pinned_dealloc_order_ ∧
    ((sp.AllocImpl env k bytes alignment).2.1).managed_dealloc_order_
      = sp.managed_dealloc_order_ := by
  unfold AllocImpl
  by_cases hb : bytes = 0
  · simp [hb]
  · simp only [hb, if_false]
    by_cases hu : (sp.resource k).upstream.isNone = true
    · simp only [hu, if_true]
      obtain ⟨h1, h2, h3, h4, h5, h6, _⟩ :=
        allocate_frame (sp.InitResource k)
          { env with calls := env.calls ++ [MmCall.InitResource k] } k bytes alignment
      obtain ⟨g1, g2, g3, g4⟩ := InitResource_fields sp k
      refine ⟨fun k' h => ⟨?_, ?_⟩, ?_, ?_, ?_, ?_⟩
      · rw [h1 k' h]; exact (InitResource_frame sp k k' h).1
      · unfold adapter; rw [h2]; exact (InitResource_frame sp k k' h).2
      · rw [h3, g1]
      · rw [h4, g2]
      · rw [h5, g3]
      · rw [h6, g4]
    · simp only [hu, Bool.false_eq_true, if_false]
      obtain ⟨h1, h2, h3, h4, h5, h6, _⟩ := allocate_frame sp env k bytes alignment
      refine ⟨fun k' h => ⟨h1 k' h, ?_⟩, h3, h4, h5, h6⟩
      unfold adapter; rw [h2]

theorem DynamicScratchpad.AllocImpl_upstream (sp : DynamicScratchpad) (env : MmEnv)
    (k : memory_kind) (bytes alignment : Nat) :
    (((sp.AllocImpl env k bytes alignment).2.1).resource k).upstream
      = if bytes = 0 then (sp.resource k).upstream
        else if (sp.resource k).upstream.isNone then
          some (match k with
                | .host => resource_ref.default_resource .host
                | k => resource_ref.adapter k)
        else (sp.resource k).upstream := by
  unfold AllocImpl
  by_cases hb : bytes = 0
  · simp [hb]
  · simp only [hb, if_false]
    by_cases hu : (sp.resource k).upstream.isNone = true
    · simp only [hu, if_true]
      rw [(allocate_frame _ _ k bytes alignment).2.2.2.2.2.2, InitResource_upstream]
    · simp only [hu, Bool.false_eq_true, if_false]
      rw [(allocate_frame _ _ k bytes alignment).2.2.2.2.2.2]

theorem DynamicScratchpad.create_upstream (D P M : AccessOrder) (sizes : PerKind Nat)
    (k : memory_kind) :
    ((create D P M sizes).resource k).upstream = none ∧ (create D P M sizes).adapter k = {} := by
  cases k <;> exact ⟨rfl, rfl⟩

theorem DynamicScratchpad.AllocAll_untouched (reqs : List (memory_kind × Nat × Nat)) :
    ∀ (sp : DynamicScratchpad) (env : MmEnv) (k : memory_kind),
      (∀ q ∈ reqs, q.1 = k → q.2.1 = 0) →
      ((AllocAll reqs sp env).2.1).resource k = sp.resource k ∧
      ((AllocAll reqs sp env).2.1).adapter k = sp.adapter k := by
  induction reqs with
  | nil => intro sp env k _; exact ⟨rfl, rfl⟩
  | cons q rest ih =>
    intro sp env k h
    obtain ⟨kq, bytes, alignment⟩ := q
    have hrest : ∀ q ∈ rest, q.1 = k → q.2.1 = 0 :=
      fun q hq => h q (List.mem_cons_of_mem _ hq)
    have hstep : ((sp.Alloc env kq bytes alignment).2.1).resource k = sp.resource k ∧
        ((sp.Alloc env kq bytes alignment).2.1).adapter k = sp.adapter k := by
      by_cases hk : kq = k
      · have hz : bytes = 0 := h (kq, bytes, alignment) (List.mem_cons_self _ _) hk
        subst hz
        rw [Alloc_zero_bytes]
        exact ⟨rfl, rfl⟩
      · rw [Alloc_eq]
        exact (AllocImpl_frame sp env kq bytes alignment).1 k (fun h' => hk h'.symm)
    obtain ⟨i1, i2⟩ := ih (sp.Alloc env kq bytes alignment).2.1
      (sp.Alloc env kq bytes alignment).2.2 k hrest
    simp only [AllocAll]
    exact ⟨i1.trans hstep.1, i2.trans hstep.2⟩

/-- C14: a request `Alloc(K, bytes, alignment)` with `bytes > 0` materialises the
resource of kind `K` and leaves the resource and the adapter of every other kind
and the configuration of the scratchpad as they were; so after any sequence of
requests on a newly constructed scratchpad, a kind that was never requested with
a non-zero size has no upstream and a default-constructed adapter. -/
theorem Alloc_touches_one_kind (sp : DynamicScratchpad) (env : MmEnv) (K : memory_kind)
    (bytes alignment : Nat) (hb : 0 < bytes) :
    (((sp.Alloc env K bytes alignment).2.1).resource K).upstream.isSome = true ∧
    (∀ k', k' ≠ K →
      ((sp.Alloc env K bytes alignment).2.1).resource k' = sp.resource k' ∧
      ((sp.Alloc env K bytes alignment).2.1).adapter k' = sp.adapter k') ∧
    ((sp.Alloc env K bytes alignment).2.1).initial_sizes_ = sp.initial_sizes_ ∧
    ((sp.Alloc env K bytes alignment).2.1).device_order_ = sp.device_order_ ∧
    ((sp.Alloc env K bytes alignment).2.1).pinned_dealloc_order_ = sp.pinned_dealloc_order_ ∧
    ((sp.Alloc env K bytes alignment).2.1).managed_dealloc_order_
      = sp.managed_dealloc_order_ ∧
    ∀ (D P M : AccessOrder) (sizes : PerKind Nat) (reqs : List (memory_kind × Nat × Nat))
      (k : memory_kind),
      (∀ q ∈ reqs, q.1 = k → q.2.1 = 0) →
      (((AllocAll reqs (create D P M sizes) env).2.1).resource k).upstream = none ∧
      ((AllocAll reqs (create D P M sizes) env).2.1).adapter k = {} := by
  rw [Alloc_eq]
  refine ⟨?_, (AllocImpl_frame sp env K bytes alignment).1,
    (AllocImpl_frame sp env K bytes alignment).2.1,
    (AllocImpl_frame sp env K bytes alignment).2.2.1,
    (AllocImpl_frame sp env K bytes alignment).2.2.2.1,
    (AllocImpl_frame sp env K bytes alignment).2.2.2.2, ?_⟩
  · rw [AllocImpl_upstream]
    have : bytes ≠ 0 := by omega
    simp only [this, if_false]
    cases hu : (sp.resource K).upstream <;> simp
  · intro D P M sizes reqs k h
    obtain ⟨h1, h2⟩ := AllocAll_untouched reqs (create D P M sizes) env k h
    rw [h1, h2]
    exact create_upstream D P M sizes k

/-- C14, witness: a device request of 10 bytes on a new scratchpad, then requests
that ask the pinned kind for zero bytes only. -/
theorem Alloc_touches_one_kind_witness :
    (0 : Nat) < 10 ∧
    ((((create (AccessOrder.stream 1 0) AccessOrder.unset AccessOrder.unset
          default_initial_sizes).Alloc { top := 4096, calls := [] } memory_kind.device
        10 8).2.1).resource memory_kind.device).upstream.isSome = true ∧
    (((AllocAll [(memory_kind.device, 10, 8), (memory_kind.pinned, 0, 4)]
        (create (AccessOrder.stream 1 0) AccessOrder.unset AccessOrder.unset
          default_initial_sizes)
        { top := 4096, calls := [] }).2.1).resource memory_kind.pinned).upstream = none :=
  ⟨by decide,
   (Alloc_touches_one_kind
      (create (AccessOrder.stream 1 0) AccessOrder.unset AccessOrder.unset
        default_initial_sizes)
      { top := 4096, calls := [] } memory_kind.device 10 8 (by decide)).1,
   ((Alloc_touches_one_kind
      (create (AccessOrder.stream 1 0) AccessOrder.unset AccessOrder.unset
        default_initial_sizes)
      { top := 4096, calls := [] } memory_kind.device 10 8 (by decide)).2.2.2.2.2.2
      (AccessOrder.stream 1 0) AccessOrder.unset AccessOrder.unset default_initial_sizes
      [(memory_kind.device, 10, 8), (memory_kind.pinned, 0, 4)] memory_kind.pinned
      (by decide)).1⟩

/-- C16: after construction the initial block size of each kind is the value
given for it when that is non-zero and 65536 bytes (64 KiB) when it is zero;
with the default argument every kind has 65536. -/
theorem initial_size_default_64k (D P M : AccessOrder) (initial_sizes : PerKind Nat)
    (k : memory_kind) :
    (create D P M initial_sizes).initial_size k
      = (if initial_sizes.get k = 0 then 65536 else initial_sizes.get k) ∧
    (create D P M default_initial_sizes).initial_size k = 65536 := by
  cases k <;> exact ⟨rfl, rfl⟩

theorem DynamicScratchpad.allocate_calls (sp : DynamicScratchpad) (env : MmEnv)
    (k : memory_kind) (bytes alignment : Nat) :
    (sp.allocate env k bytes alignment).2.2.calls = env.calls ∨
    ∃ up size, (sp.resource k).upstream = some up ∧
      (sp.allocate env k bytes alignment).2.2.calls
        = env.calls ++ [MmCall.upstream_allocate up size alignment
            (match up with
             | .adapter a => some (sp.adapter a).alloc_order
             | .default_resource _ => none)] := by
  unfold allocate
  cases hu : (sp.resource k).upstream with
  | none => left; simp [hu]
  | some up =>
    simp only [hu]
    split_ifs
    · left; rfl
    · right; exact ⟨up, _, rfl, rfl⟩

theorem kind_follows_policy_congr (D P M : AccessOrder) (sp sp' : DynamicScratchpad)
    (k : memory_kind) (hu : (sp'.resource k).upstream = (sp.resource k).upstream)
    (ha : sp'.adapter k = sp.adapter k) :
    kind_follows_policy D P M sp' k = kind_follows_policy D P M sp k := by
  unfold kind_follows_policy
  rw [hu, ha]

theorem DynamicScratchpad.InitResource_keeps_policy (D P M : AccessOrder)
    (hD : D.has_value = true) (sp : DynamicScratchpad) (K : memory_kind)
    (h1 : sp.device_order_ = D)
    (h2 : sp.pinned_dealloc_order_ = (if P.has_value then P else D))
    (h3 : sp.managed_dealloc_order_ = (if M.has_value then M else D))
    (h4 : ∀ k, kind_follows_policy D P M sp k = true)
    (h5 : sp.adapter memory_kind.host = {}) :
    (∀ k, kind_follows_policy D P M (sp.InitResource K) k = true) ∧
    (sp.InitResource K).adapter memory_kind.host = {} := by
  obtain ⟨⟨ah, ap, ad, am⟩, ⟨rh, rp, rd, rm⟩, sizes, od, op, om⟩ := sp
  simp only [] at h1 h2 h3
  simp only [adapter, PerKind.get] at h5
  subst h1 h2 h3 h5
  have hh := h4 memory_kind.host
  have hp := h4 memory_kind.pinned
  have hd := h4 memory_kind.device
  have hm := h4 memory_kind.managed
  have hP : (if P.has_value = true then P else od).has_value = true := by
    split_ifs with h
    · exact h
    · exact hD
  have hM : (if M.has_value = true then M else od).has_value = true := by
    split_ifs with h
    · exact h
    · exact hD
  have hU : AccessOrder.unset.has_value = false := rfl
  constructor
  · intro k
    cases K <;> cases k <;>
      first
        | exact hh
        | exact hp
        | exact hd
        | exact hm
        | simp [kind_follows_policy, InitResource, set_upstream_resource,
            set_upstream_resource_async, resource, adapter, PerKind.get, PerKind.set,
            monotonic_memory_resource.create, spec_kind_policy, hP, hM, hU]
  · cases K <;> rfl

theorem DynamicScratchpad.Alloc_keeps_policy (D P M : AccessOrder) (hD : D.has_value = true)
    (sp : DynamicScratchpad) (env : MmEnv) (K : memory_kind) (bytes alignment : Nat)
    (h1 : sp.device_order_ = D)
    (h2 : sp.pinned_dealloc_order_ = (if P.has_value then P else D))
    (h3 : sp.managed_dealloc_order_ = (if M.has_value then M else D))
    (h4 : ∀ k, kind_follows_policy D P M sp k = true)
    (h5 : sp.adapter memory_kind.host = {}) :
    (∀ k, kind_follows_policy D P M (sp.Alloc env K bytes alignment).2.1 k = true) ∧
    (sp.Alloc env K bytes alignment).2.1.adapter memory_kind.host = {} ∧
    ∃ cs, (sp.Alloc env K bytes alignment).2.2.calls = env.calls ++ cs ∧
      ∀ c ∈ cs, call_follows_policy D P M c = true := by
  rw [Alloc_eq]
  unfold AllocImpl
  by_cases hb : bytes = 0
  · simp only [hb, if_true]
    exact ⟨h4, h5, [], by simp, by simp⟩
  · simp only [hb, if_false]
    -- the state in which `allocate` is called satisfies the invariant
    have key : ∀ (sp' : DynamicScratchpad) (env' : MmEnv) (pre : List MmCall),
        (∀ k, kind_follows_policy D P M sp' k = true) →
        sp'.adapter memory_kind.host = {} →
        env'.calls = env.calls ++ pre → (∀ c ∈ pre, call_follows_policy D P M c = true) →
        (∀ k, kind_follows_policy D P M (sp'.allocate env' K bytes alignment).2.1 k = true) ∧
        (sp'.allocate env' K bytes alignment).2.1.adapter memory_kind.host = {} ∧
        ∃ cs, (sp'.allocate env' K bytes alignment).2.2.calls = env.calls ++ cs ∧
          ∀ c ∈ cs, call_follows_policy D P M c = true := by
      intro sp' env' pre g4 g5 hpre hok
      obtain ⟨f1, f2, _, _, _, _, f7⟩ := allocate_frame sp' env' K bytes alignment
      have hadp : ∀ k, (sp'.allocate env' K bytes alignment).2.1.adapter k = sp'.adapter k := by
        intro k; unfold adapter; rw [f2]
      refine ⟨fun k => ?_, (hadp _).trans g5, ?_⟩
      · rw [kind_follows_policy_congr D P M sp' _ k ?_ (hadp k)]
        · exact g4 k
        · by_cases hk : k = K
          · subst hk; exact f7
          · rw [f1 k hk]
      · rcases allocate_calls sp' env' K bytes alignment with hc | ⟨up, size, hup, hc⟩
        · exact ⟨pre, by rw [hc, hpre], hok⟩
        · refine ⟨pre ++ [_], by rw [hc, hpre, List.append_assoc], ?_⟩
          intro c hcm
          rcases List.mem_append.mp hcm with hcm | hcm
          · exact hok c hcm
          · rw [List.mem_singleton.mp hcm]
            have hK := g4 K
            unfold kind_follows_policy at hK
            rw [hup] at hK
            cases K <;> cases up <;>
              simp_all [call_follows_policy, spec_kind_policy]
    by_cases hu : (sp.resource K).upstream.isNone = true
    · simp only [hu, if_true]
      obtain ⟨i1, i2⟩ := InitResource_keeps_policy D P M hD sp K h1 h2 h3 h4 h5
      exact key _ _ [MmCall.InitResource K] i1 i2 rfl (by simp [call_follows_policy])
    · simp only [hu, Bool.false_eq_true, if_false]
      exact key _ _ [] h4 h5 (by simp) (by simp)

theorem DynamicScratchpad.AllocAll_keeps_policy (D P M : AccessOrder)
    (hD : D.has_value = true) (reqs : List (memory_kind × Nat × Nat)) :
    ∀ (sp : DynamicScratchpad) (env : MmEnv),
      sp.device_order_ = D →
      sp.pinned_dealloc_order_ = (if P.has_value then P else D) →
      sp.managed_dealloc_order_ = (if M.has_value then M else D) →
      (∀ k, kind_follows_policy D P M sp k = true) →
      sp.adapter memory_kind.host = {} →
      (∀ k, kind_follows_policy D P M (AllocAll reqs sp env).2.1 k = true) ∧
      ∃ cs, (AllocAll reqs sp env).2.2.calls = env.calls ++ cs ∧
        ∀ c ∈ cs, call_follows_policy D P M c = true := by
  induction reqs with
  | nil => intro sp env _ _ _ h4 _; exact ⟨h4, [], by simp [AllocAll], by simp⟩
  | cons q rest ih =>
    intro sp env h1 h2 h3 h4 h5
    obtain ⟨kq, bytes, alignment⟩ := q
    obtain ⟨s4, s5, cs, hcs, hok⟩ :=
      Alloc_keeps_policy D P M hD sp env kq bytes alignment h1 h2 h3 h4 h5
    have hf := AllocImpl_frame sp env kq bytes alignment
    rw [← Alloc_eq] at hf
    obtain ⟨r4, cs', hcs', hok'⟩ := ih (sp.Alloc env kq bytes alignment).2.1
      (sp.Alloc env kq bytes alignment).2.2 (hf.2.2.1.trans h1) (hf.2.2.2.1.trans h2)
      (hf.2.2.2.2.trans h3) s4 s5
    simp only [AllocAll]
    refine ⟨r4, cs ++ cs', by rw [hcs', hcs, List.append_assoc], ?_⟩
    intro c hc
    rcases List.mem_append.mp hc with hc | hc
    · exact hok c hc
    · exact hok' c hc

/-- C15: on a scratchpad constructed with a set device order `D` and optional
pinned and managed deallocation orders `P` and `M`, after any sequence of
requests, every materialised upstream is set up as the kind policy says: device
allocates and deallocates in `D`; pinned allocates in host order and deallocates
in `P` if given, in `D` otherwise; managed allocates in host order and
deallocates in `M` if given, in `D` otherwise; host uses the default resource
without an adapter.  Every block asked from an upstream is asked in the
allocation order of the policy, and from the host resource in no order. -/
theorem upstreams_follow_kind_policy (D P M : AccessOrder) (initial_sizes : PerKind Nat)
    (reqs : List (memory_kind × Nat × Nat)) (env : MmEnv) (hD : D.has_value = true) :
    (∀ k, kind_follows_policy D P M (AllocAll reqs (create D P M initial_sizes) env).2.1 k
      = true) ∧
    (∀ k, spec_kind_policy D P M k
      = match k with
        | .host => none
        | .pinned => some (AccessOrder.host, if P.has_value then P else D)
        | .device => some (D, D)
        | .managed => some (AccessOrder.host, if M.has_value then M else D)) ∧
    ∃ cs, (AllocAll reqs (create D P M initial_sizes) env).2.2.calls = env.calls ++ cs ∧
      ∀ c ∈ cs, call_follows_policy D P M c = true := by
  have h := AllocAll_keeps_policy D P M hD reqs (create D P M initial_sizes) env rfl
    (by cases hp : P.has_value <;> simp [create, hp])
    (by cases hm : M.has_value <;> simp [create, hm])
    (by intro k; cases k <;> rfl) rfl
  exact ⟨h.1, fun k => by cases k <;> rfl, h.2⟩

/-- C15, witness: device order stream 1, no pinned order, managed order stream 2;
one device, one pinned and one managed request. -/
theorem upstreams_follow_kind_policy_witness :
    (AccessOrder.stream 1 0).has_value = true ∧
    ((AllocAll [(memory_kind.device, 10, 8), (memory_kind.pinned, 3, 1),
          (memory_kind.managed, 7, 2)]
        (create (AccessOrder.stream 1 0) AccessOrder.unset (AccessOrder.stream 2 0)
          default_initial_sizes)
        { top := 4096, calls := [] }).2.1).adapters_
      = { host := {},
          pinned := { upstream := some memory_kind.pinned, alloc_order := AccessOrder.host,
                      dealloc_order := AccessOrder.stream 1 0 },
          device := { upstream := some memory_kind.device,
                      alloc_order := AccessOrder.stream 1 0,
                      dealloc_order := AccessOrder.stream 1 0 },
          managed := { upstream := some memory_kind.managed, alloc_order := AccessOrder.host,
                       dealloc_order := AccessOrder.stream 2 0 } } ∧
    ∀ k, kind_follows_policy (AccessOrder.stream 1 0) AccessOrder.unset (AccessOrder.stream 2 0)
      (AllocAll [(memory_kind.device, 10, 8), (memory_kind.pinned, 3, 1),
          (memory_kind.managed, 7, 2)]
        (create (AccessOrder.stream 1 0) AccessOrder.unset (AccessOrder.stream 2 0)
          default_initial_sizes)
        { top := 4096, calls := [] }).2.1 k = true :=
  ⟨rfl, by decide,
   (upstreams_follow_kind_policy (AccessOrder.stream 1 0) AccessOrder.unset
      (AccessOrder.stream 2 0) default_initial_sizes
      [(memory_kind.device, 10, 8), (memory_kind.pinned, 3, 1), (memory_kind.managed, 7, 2)]
      { top := 4096, calls := [] } rfl).1⟩

end kernels

/-! ## The event pool and the completion-event lease -/

theorem CUDAEventPool.takeFree_mem (d : Int) :
    ∀ (l : List (Int × Nat)) (e : Nat) (rest : List (Int × Nat)),
      CUDAEventPool.takeFree d l = some (e, rest) → (d, e) ∈ l := by
  intro l
  induction l with
  | nil => intro e rest h; simp [CUDAEventPool.takeFree] at h
  | cons p tl ih =>
    intro e rest h
    obtain ⟨d', e'⟩ := p
    unfold CUDAEventPool.takeFree at h
    by_cases hd : d' = d
    · simp only [hd, if_true, Option.some.injEq, Prod.mk.injEq] at h
      subst hd
      rw [← h.1]
      exact List.mem_cons_self _ _
    · simp only [hd, if_false] at h
      cases ht : CUDAEventPool.takeFree d tl with
      | none => simp [ht] at h
      | some r =>
        obtain ⟨e2, rest2⟩ := r
        simp only [ht, Option.some.injEq, Prod.mk.injEq] at h
        rw [← h.1]
        exact List.mem_cons_of_mem _ (ih e2 rest2 ht)

/-- C17: an event `e` held by a caller (a handle the pool created, not in its
free list) is returned to the pool for a device; the next `Get` for the same
device yields `e` itself and leaves the pool as it was before the return, and a
further `Get` for that device while `e` is held yields a different event. -/
theorem Put_then_Get_returns_same_event (pool : CUDAEventPool) (device_id : Int) (e : Nat)
    (hcreated : e < pool.created) (hheld : ∀ p ∈ pool.free, p.2 ≠ e) :
    ((pool.Put e device_id).Get device_id).1 = e ∧
    ((pool.Put e device_id).Get device_id).2 = pool ∧
    (((pool.Put e device_id).Get device_id).2.Get device_id).1 ≠ e := by
  have h1 : (pool.Put e device_id).Get device_id = (e, pool) := by
    simp [CUDAEventPool.Put, CUDAEventPool.Get, CUDAEventPool.takeFree]
  rw [h1]
  refine ⟨rfl, rfl, ?_⟩
  simp only [CUDAEventPool.Get]
  cases ht : CUDAEventPool.takeFree device_id pool.free with
  | none => simp only []; omega
  | some r =>
    obtain ⟨e', rest⟩ := r
    exact hheld _ (CUDAEventPool.takeFree_mem device_id pool.free e' rest ht)

/-- C17, witness: the pool of the test `ReturnToPool`, which has created its
first event, handle 0, and holds no free event. -/
theorem Put_then_Get_returns_same_event_witness :
    (0 : Nat) < ({ free := [], created := 1 } : CUDAEventPool).created ∧
    ((({ free := [], created := 1 } : CUDAEventPool).Put 0 0).Get 0).1 = 0 ∧
    ((((({ free := [], created := 1 } : CUDAEventPool).Put 0 0).Get 0).2).Get 0).1 ≠ 0 :=
  ⟨by decide,
   (Put_then_Get_returns_same_event { free := [], created := 1 } 0 0 (by decide)
      (by simp)).1,
   (Put_then_Get_returns_same_event { free := [], created := 1 } 0 0 (by decide)
      (by simp)).2.2⟩

/-- C18: after `EventLease::Get(d)` the lease holds an event and `device_id()` is
`d`.  A lease that held an event for another device id has returned it to the
pool under the old device id and taken one for `d` from the pool so changed; a
lease that held an event for `d` keeps it and the pool is not touched; a lease
that held none takes one for `d` from the pool. -/
theorem EventLease_Get_rebinds (l : EventLease) (d : Int) (pool : CUDAEventPool) :
    (l.Get d pool).1.event_.isSome = true ∧
    (l.Get d pool).1.device_id = d ∧
    (∀ e, l.event_ = some e → l.device_id_ ≠ d →
      l.Get d pool
        = ({ device_id_ := d, event_ := some ((pool.Put e l.device_id_).Get d).1 },
           ((pool.Put e l.device_id_).Get d).2)) ∧
    (∀ e, l.event_ = some e → l.device_id_ = d → l.Get d pool = (l, pool)) ∧
    (l.event_ = none →
      l.Get d pool = ({ device_id_ := d, event_ := some (pool.Get d).1 }, (pool.Get d).2)) := by
  obtain ⟨ld, le⟩ := l
  by_cases h : d = ld
  · subst h
    cases le <;> simp [EventLease.Get, EventLease.Put, EventLease.device_id]
  · have h' : ld ≠ d := fun g => h g.symm
    cases le <;> simp [EventLease.Get, EventLease.Put, EventLease.device_id, h, h']

/-- C18, witness: a lease that holds event 4 for device 0 is asked for device 1,
with event 9 of device 1 free in the pool. -/
theorem EventLease_Get_rebinds_witness :
    (({ device_id_ := 0, event_ := some 4 } : EventLease).Get 1
        { free := [(1, 9)], created := 10 })
      = ({ device_id_ := 1, event_ := some 9 }, { free := [(0, 4)], created := 10 }) :=
  ((EventLease_Get_rebinds { device_id_ := 0, event_ := some 4 } 1
      { free := [(1, 9)], created := 10 }).2.2.1 4 rfl (by decide)).trans (by decide)

/-- C19: after `RecycleBuffer` the item is at the head of the recycle cache with
an empty completion-event lease whose device id is -1 and with its data as it
was; an event the item held has been returned to the event pool under the
device id of the lease, and the pool is untouched when it held none; the live
queue is as it was. -/
theorem RecycleBuffer_releases_event (op : InputOperator) (env : Env)
    (data : InputQueueItem) :
    (op.RecycleBuffer env data).1.tl_data_.empty_data
      = { data with copy_complete := { device_id_ := -1, event_ := none } }
          :: op.tl_data_.empty_data ∧
    (op.RecycleBuffer env data).1.tl_data_.full_data = op.tl_data_.full_data ∧
    (∀ e, data.copy_complete.event_ = some e →
      (op.RecycleBuffer env data).2.event_pool
        = env.event_pool.Put e data.copy_complete.device_id_) ∧
    (data.copy_complete.event_ = none →
      (op.RecycleBuffer env data).2.event_pool = env.event_pool) := by
  refine ⟨rfl, rfl, ?_, ?_⟩
  · intro e he
    simp [RecycleBuffer, EventLease.Put, he]
  · intro he
    simp [RecycleBuffer, EventLease.Put, he]

/-- C19, witness: an item that holds event 3 for device 0 is recycled, with a
pool that has created four events and has none free. -/
theorem RecycleBuffer_releases_event_witness :
    (Example.cpuOp.RecycleBuffer
      { Example.env0 with event_pool := { free := [], created := 4 } }
      { Example.recycledItem with
        copy_complete := { device_id_ := 0, event_ := some 3 } }).2.event_pool
      = { free := [(0, 3)], created := 4 } :=
  ((RecycleBuffer_releases_event Example.cpuOp
      { Example.env0 with event_pool := { free := [], created := 4 } }
      { Example.recycledItem with
        copy_complete := { device_id_ := 0, event_ := some 3 } }).2.2.1 3 rfl).trans rfl

/-! ## The benchmark run loop -/

namespace benchmark

theorem outstanding_append (a b : List PipeCall) :
    ∀ s : Int, outstanding s (a ++ b) = outstanding (outstanding s a) b := by
  induction a with
  | nil => intro s; rfl
  | cons c rest ih =>
    intro s
    cases c <;> simp [outstanding, ih]

theorem within_depth_append (a b : List PipeCall) :
    ∀ s : Int, within_depth s (a ++ b) = (within_depth s a && within_depth (outstanding s a) b) := by
  induction a with
  | nil =>
    intro s
    cases b with
    | nil => simp [within_depth, outstanding]
    | cons c rest => simp [within_depth, outstanding]
  | cons c rest ih =>
    intro s
    cases c <;> simp [within_depth, outstanding, ih, Bool.and_assoc]

theorem within_depth_prefix (l : List PipeCall) :
    ∀ (s : Int) (pre suf : List PipeCall), within_depth s l = true → l = pre ++ suf →
      0 ≤ outstanding s pre ∧ outstanding s pre ≤ prefetch_queue_depth := by
  intro s pre suf h hl
  subst hl
  rw [within_depth_append] at h
  have h2 : within_depth (outstanding s pre) suf = true := by
    simp only [Bool.and_eq_true] at h
    exact h.2
  cases suf with
  | nil => simpa [within_depth] using h2
  | cons c rest =>
    simp only [within_depth, Bool.and_eq_true, decide_eq_true_eq] at h2
    exact h2.1

theorem loop_not_pipelined (N : Nat) :
    ∀ first count : Nat,
      within_depth 0 (loop_from false N first count) = true ∧
      outstanding 0 (loop_from false N first count) = 0 := by
  intro first count
  induction count generalizing first with
  | zero => exact ⟨by simp [loop_from, within_depth, prefetch_queue_depth], rfl⟩
  | succ n ih =>
    obtain ⟨i1, i2⟩ := ih (first + 1)
    have hb : loop_body false first N = [PipeCall.Run, PipeCall.Outputs] := by
      simp [loop_body]
    simp only [loop_from, hb]
    rw [within_depth_append, outstanding_append]
    have : outstanding 0 [PipeCall.Run, PipeCall.Outputs] = 0 := by decide
    rw [this]
    exact ⟨by rw [i1]; decide, i2⟩

theorem loop_pipelined_tail (N : Nat) :
    ∀ count first : Nat, 2 ≤ first → first + count = N →
      within_depth 1 (loop_from true N first (count + 1)) = true ∧
      outstanding 1 (loop_from true N first (count + 1)) = 0 := by
  intro count
  induction count with
  | zero =>
    intro first h2 hN
    have hb : loop_body true first N
        = [PipeCall.Run, PipeCall.Outputs, PipeCall.Outputs] := by
      have hl : first = N := by omega
      subst hl
      have h1 : first ≠ 1 := by omega
      simp [loop_body, h1]
    simp only [loop_from, hb, List.append_nil]
    exact ⟨by decide, by decide⟩
  | succ n ih =>
    intro first h2 hN
    have hb : loop_body true first N = [PipeCall.Run, PipeCall.Outputs] := by
      have h1 : first ≠ 1 := by omega
      have hl : first ≠ N := by omega
      simp [loop_body, h1, hl]
    obtain ⟨i1, i2⟩ := ih (first + 1) (by omega) (by omega)
    rw [loop_from, hb, within_depth_append, outstanding_append]
    have : outstanding 1 [PipeCall.Run, PipeCall.Outputs] = 1 := by decide
    rw [this]
    exact ⟨by rw [i1]; decide, i2⟩

theorem nvjpegPipe_within (executor : Int) (N : Nat) (hN : 1 ≤ N) :
    within_depth 0 (nvjpegPipe executor N) = true ∧ outstanding 0 (nvjpegPipe executor N) = 0 := by
  unfold nvjpegPipe
  rw [within_depth_append, outstanding_append]
  have h0 : outstanding 0 [PipeCall.Run, PipeCall.Outputs] = 0 := by decide
  rw [h0]
  cases hp : pipelined executor with
  | false =>
    obtain ⟨i1, i2⟩ := loop_not_pipelined N 1 N
    exact ⟨by rw [i1]; decide, i2⟩
  | true =>
    obtain ⟨n, rfl⟩ : ∃ n, N = n + 1 := ⟨N - 1, by omega⟩
    cases n with
    | zero =>
      refine ⟨by decide, by decide⟩
    | succ m =>
      have hb : loop_body true 1 (m + 1 + 1)
          = [PipeCall.Run, PipeCall.Run, PipeCall.Outputs] := by
        simp [loop_body]
      obtain ⟨i1, i2⟩ := loop_pipelined_tail (m + 1 + 1) m 2 (by omega) (by omega)
      rw [loop_from, hb, within_depth_append, outstanding_append]
      have : outstanding 0 [PipeCall.Run, PipeCall.Run, PipeCall.Outputs] = 1 := by decide
      rw [this]
      exact ⟨by rw [i1]; decide, i2⟩

/-- C20: for every executor setting and every iteration count `N >= 1`, after
every prefix of the calls of `nvjpegPipe` on the pipeline the number of
outstanding iterations (calls of `Run()` minus calls of `Outputs()`) is between 0
and 2, the prefetch depth the pipeline is built with, and after the whole
sequence it is 0; the first pass of the timed loop begins with two calls of
`Run()` in a row exactly when the executor is pipelined. -/
theorem nvjpegPipe_outstanding_within_prefetch_depth (executor : Int) (N : Nat)
    (hN : 1 ≤ N) :
    (∀ pre suf, nvjpegPipe executor N = pre ++ suf →
      0 ≤ outstanding 0 pre ∧ outstanding 0 pre ≤ 2) ∧
    outstanding 0 (nvjpegPipe executor N) = 0 ∧
    prefetch_queue_depth = 2 ∧
    ((loop_body (pipelined executor) 1 N).take 2 = [PipeCall.Run, PipeCall.Run]
      ↔ pipelined executor = true) ∧
    (pipelined executor = true ↔ executor > 0) := by
  obtain ⟨h1, h2⟩ := nvjpegPipe_within executor N hN
  refine ⟨fun pre suf h => ?_, h2, rfl, ?_, by simp [pipelined]⟩
  · have := within_depth_prefix _ 0 pre suf h1 h
    simpa [prefetch_queue_depth] using this
  · cases hp : pipelined executor <;> simp [loop_body]

/-- C20, witness: a pipelined, asynchronous executor and three timed passes. -/
theorem nvjpegPipe_outstanding_within_prefetch_depth_witness :
    (1 : Nat) ≤ 3 ∧
    nvjpegPipe 2 3
      = [PipeCall.Run, PipeCall.Outputs, PipeCall.Run, PipeCall.Run, PipeCall.Outputs,
         PipeCall.Run, PipeCall.Outputs, PipeCall.Run, PipeCall.Outputs, PipeCall.Outputs] ∧
    outstanding 0 (nvjpegPipe 2 3) = 0 ∧
    0 ≤ outstanding 0 [PipeCall.Run, PipeCall.Outputs, PipeCall.Run, PipeCall.Run] ∧
    outstanding 0 [PipeCall.Run, PipeCall.Outputs, PipeCall.Run, PipeCall.Run] ≤ 2 :=
  ⟨by decide, by decide,
   (nvjpegPipe_outstanding_within_prefetch_depth 2 3 (by decide)).2.1,
   ((nvjpegPipe_outstanding_within_prefetch_depth 2 3 (by decide)).1
      [PipeCall.Run, PipeCall.Outputs, PipeCall.Run, PipeCall.Run]
      [PipeCall.Outputs, PipeCall.Run, PipeCall.Outputs, PipeCall.Run, PipeCall.Outputs,
       PipeCall.Outputs] (by decide)).1,
   ((nvjpegPipe_outstanding_within_prefetch_depth 2 3 (by decide)).1
      [PipeCall.Run, PipeCall.Outputs, PipeCall.Run, PipeCall.Run]
      [PipeCall.Outputs, PipeCall.Run, PipeCall.Outputs, PipeCall.Run, PipeCall.Outputs,
       PipeCall.Outputs] (by decide)).2⟩

end benchmark

/-! ## The dispatch of `SetDataSourceHelper` -/

theorem ShareUserData_host_requested (op : InputOperator) (env : Env) (batch : TensorList)
    (data_id : Option String) :
    ∃ item,
      (op.ShareUserData_host env batch data_id).op.tl_data_.full_data
        = op.tl_data_.full_data ++ [item] ∧ item.copy_requested = false := by
  obtain ⟨backend, dev, blocking, no_copy, running, ⟨full, cache, prophet⟩, zc, stream⟩ := op
  cases cache <;>
    simp [ShareUserData_host, GetEmptyOutputBatch, CachingList.GetEmpty, CachingList.PushBack]

theorem ShareUserData_device_requested (op : InputOperator) (env : Env) (batch : TensorList)
    (data_id : Option String) (order : AccessOrder) (k : Bool) :
    ∃ item,
      (op.ShareUserData_device env batch data_id order k).op.tl_data_.full_data
        = op.tl_data_.full_data ++ [item] ∧ item.copy_requested = false := by
  obtain ⟨backend, dev, blocking, no_copy, running, ⟨full, cache, prophet⟩, zc, stream⟩ := op
  by_cases hc : (batch.IsContiguousInMemory && batch.device_id == dev) = true
  · cases cache <;>
      simp [ShareUserData_device, GetEmptyOutputBatch, CachingList.GetEmpty,
        CachingList.PushBack, hc]
  · cases cache <;>
      simp only [ShareUserData_device, GetEmptyOutputBatch, CachingList.GetEmpty,
        CachingList.PushBack, InputQueueItem.GetCompletionEvent, hc] <;>
      simp

theorem CopyUserData_host_requested (op : InputOperator) (env : Env) (batch : TensorList)
    (data_id : Option String) (order : AccessOrder) :
    ∃ item,
      (op.CopyUserData_host env batch data_id order).op.tl_data_.full_data
        = op.tl_data_.full_data ++ [item] ∧ item.copy_requested = true := by
  obtain ⟨backend, dev, blocking, no_copy, running, ⟨full, cache, prophet⟩, zc, stream⟩ := op
  cases cache <;>
    simp [CopyUserData_host, GetEmptyOutputBatch, CachingList.GetEmpty, CachingList.PushBack]

theorem CopyUserData_device_requested (op : InputOperator) (env : Env) (batch : TensorList)
    (data_id : Option String) (order : AccessOrder) (sync k : Bool) :
    ∃ item,
      (op.CopyUserData_device env batch data_id order sync k).op.tl_data_.full_data
        = op.tl_data_.full_data ++ [item] ∧ item.copy_requested = true := by
  obtain ⟨backend, dev, blocking, no_copy, running, ⟨full, cache, prophet⟩, zc, stream⟩ := op
  cases cache <;>
    simp [CopyUserData_device, GetEmptyOutputBatch, CachingList.GetEmpty,
      CachingList.PushBack, InputQueueItem.GetCompletionEvent]

/-- C21: `SetDataSourceHelper` takes the copy path (`CopyUserData`) when
`WouldCopy(mode)` is true and the share path (`ShareUserData`) when it is false,
for both values of `no_copy_` and each of the three copy modes.  The path taken
shows in the result: a call that returns has queued one item whose
`copy_requested` flag, set by the copy path and cleared by the share path, equals
`WouldCopy(mode)`, and a call that fails was on the share path. -/
theorem SetDataSourceHelper_dispatch_agrees_with_WouldCopy (op : InputOperator) (env : Env)
    (batch : TensorList) (data_id : Option String) (order : AccessOrder)
    (mode : InputOperatorSettingMode) :
    op.SetDataSourceHelper env batch data_id order mode
      = (let r : Step Unit :=
          if op.WouldCopy mode.copy_mode then
            op.CopyUserData env batch data_id order mode.sync mode.use_copy_kernel
          else op.ShareUserData env batch data_id order mode.use_copy_kernel
         match r.outcome with
         | .returned _ => { r with env := r.env.log Call.notify_one }
         | _ => r) ∧
    (op.WouldCopy mode.copy_mode
      = match mode.copy_mode, op.no_copy_ with
        | .FORCE_COPY, _ => true
        | .FORCE_NO_COPY, _ => false
        | .DEFAULT, no_copy => !no_copy) ∧
    ((op.SetDataSourceHelper env batch data_id order mode).outcome = Outcome.returned () →
      ∃ item,
        (op.SetDataSourceHelper env batch data_id order mode).op.tl_data_.full_data
          = op.tl_data_.full_data ++ [item] ∧
        item.copy_requested = op.WouldCopy mode.copy_mode) ∧
    ((op.SetDataSourceHelper env batch data_id order mode).outcome ≠ Outcome.returned () →
      op.WouldCopy mode.copy_mode = false ∧ batch.backend ≠ InBackend op.backend) := by
  refine ⟨?_, ?_, ?_, ?_⟩
  · cases hw : op.WouldCopy mode.copy_mode with
    | true => simpa using SetDataSourceHelper_copy op env batch data_id order mode hw
    | false => simpa using SetDataSourceHelper_share op env batch data_id order mode hw
  · cases hm : mode.copy_mode <;> simp [WouldCopy, hm]
  · intro hret
    cases hw : op.WouldCopy mode.copy_mode with
    | true =>
      by_cases hin : InBackend op.backend = Backend.CPUBackend
      · rw [SetDataSourceHelper_copy_host op env batch data_id order mode hw hin]
        exact CopyUserData_host_requested op env batch data_id order
      · rw [SetDataSourceHelper_copy_device op env batch data_id order mode hw hin]
        exact CopyUserData_device_requested op env batch data_id order mode.sync
          mode.use_copy_kernel
    | false =>
      by_cases hb : batch.backend = InBackend op.backend
      · by_cases hc : batch.backend = Backend.CPUBackend
        · rw [SetDataSourceHelper_share_host op env batch data_id order mode hw hb hc]
          exact ShareUserData_host_requested op env batch data_id
        · rw [SetDataSourceHelper_share_device op env batch data_id order mode hw hb hc]
          exact ShareUserData_device_requested op env batch data_id order mode.use_copy_kernel
      · rw [SetDataSourceHelper_share_mismatch op env batch data_id order mode hw hb] at hret
        simp [ShareUserData_mismatch] at hret
  · intro hfail
    cases hw : op.WouldCopy mode.copy_mode with
    | true =>
      exfalso
      apply hfail
      by_cases hin : InBackend op.backend = Backend.CPUBackend
      · rw [SetDataSourceHelper_copy_host op env batch data_id order mode hw hin]
        exact (CopyUserData_host_push op env batch data_id order).1
      · rw [SetDataSourceHelper_copy_device op env batch data_id order mode hw hin]
        exact (CopyUserData_device_push op env batch data_id order mode.sync
          mode.use_copy_kernel).1
    | false =>
      refine ⟨rfl, fun hb => hfail ?_⟩
      by_cases hc : batch.backend = Backend.CPUBackend
      · rw [SetDataSourceHelper_share_host op env batch data_id order mode hw hb hc]
        exact (ShareUserData_host_push op env batch data_id).1
      · rw [SetDataSourceHelper_share_device op env batch data_id order mode hw hb hc]
        exact (ShareUserData_device_push op env batch data_id order mode.use_copy_kernel).1

/-- C21, witness: the CPU example operator (`no_copy_` false) is fed a host batch
in the default mode and takes the copy path, and in the mode FORCE_NO_COPY a
device batch, which fails on the share path. -/
theorem SetDataSourceHelper_dispatch_agrees_with_WouldCopy_witness :
    (Example.cpuOp.SetDataSourceHelper Example.env0 Example.hostBatch none AccessOrder.unset
      { }).outcome = Outcome.returned () ∧
    (∃ item,
      (Example.cpuOp.SetDataSourceHelper Example.env0 Example.hostBatch none AccessOrder.unset
        { }).op.tl_data_.full_data = Example.cpuOp.tl_data_.full_data ++ [item] ∧
      item.copy_requested = Example.cpuOp.WouldCopy InputOperatorCopyMode.DEFAULT) ∧
    (Example.cpuOp.SetDataSourceHelper Example.env0 Example.deviceBatch none AccessOrder.unset
      { copy_mode := InputOperatorCopyMode.FORCE_NO_COPY }).outcome ≠ Outcome.returned () ∧
    Example.cpuOp.WouldCopy InputOperatorCopyMode.FORCE_NO_COPY = false :=
  ⟨rfl,
   (SetDataSourceHelper_dispatch_agrees_with_WouldCopy Example.cpuOp Example.env0
      Example.hostBatch none AccessOrder.unset { }).2.2.1 rfl,
   by decide,
   ((SetDataSourceHelper_dispatch_agrees_with_WouldCopy Example.cpuOp Example.env0
      Example.deviceBatch none AccessOrder.unset
      { copy_mode := InputOperatorCopyMode.FORCE_NO_COPY }).2.2.2 (by decide)).1⟩

/-! ## The initialisation of the upstreams -/

namespace kernels

open DynamicScratchpad

theorem DynamicScratchpad.Alloc_upstream_of (sp : DynamicScratchpad) (env : MmEnv)
    (kq k : memory_kind) (bytes alignment : Nat) :
    (((sp.Alloc env kq bytes alignment).2.1).resource k).upstream
      = if kq = k ∧ bytes ≠ 0 ∧ (sp.resource k).upstream = none then
          some (match k with
                | .host => resource_ref.default_resource .host
                | k => resource_ref.adapter k)
        else (sp.resource k).upstream := by
  rw [Alloc_eq]
  by_cases hk : kq = k
  · subst hk
    rw [AllocImpl_upstream]
    by_cases hb : bytes = 0
    · simp [hb]
    · cases hu : (sp.resource kq).upstream with
      | none =>
        simp only [hb, if_false, Option.isNone_none, if_true, ne_eq, not_false_eq_true,
          and_self]
      | some u => simp [hb]
  · have hk' : k ≠ kq := fun h => hk h.symm
    rw [((AllocImpl_frame sp env kq bytes alignment).1 k hk').1]
    simp [hk]

theorem DynamicScratchpad.allocate_no_init (sp : DynamicScratchpad) (env : MmEnv)
    (k : memory_kind) (bytes alignment : Nat) :
    ∃ cs, (sp.allocate env k bytes alignment).2.2.calls = env.calls ++ cs ∧
      ∀ k', cs.count (MmCall.InitResource k') = 0 := by
  rcases allocate_calls sp env k bytes alignment with h | h
  · exact ⟨[], by simpa using h, fun k' => rfl⟩
  · obtain ⟨up, size, _, h⟩ := h
    exact ⟨_, h, fun k' => by simp [List.count_cons]⟩

theorem DynamicScratchpad.Alloc_init_count (sp : DynamicScratchpad) (env : MmEnv)
    (kq : memory_kind) (bytes alignment : Nat) :
    ∃ cs, (sp.Alloc env kq bytes alignment).2.2.calls = env.calls ++ cs ∧
      ∀ k, cs.count (MmCall.InitResource k)
        = if kq = k ∧ bytes ≠ 0 ∧ (sp.resource k).upstream = none then 1 else 0 := by
  rw [Alloc_eq]
  unfold AllocImpl
  by_cases hb : bytes = 0
  · exact ⟨[], by simp [hb], fun k => by simp [hb]⟩
  · simp only [hb, if_false]
    cases hu : (sp.resource kq).upstream with
    | none =>
      simp only [Option.isNone_none, if_true]
      obtain ⟨cs, h, hc⟩ := allocate_no_init (sp.InitResource kq)
          { env with calls := env.calls ++ [MmCall.InitResource kq] } kq bytes alignment
      refine ⟨MmCall.InitResource kq :: cs, ?_, fun k => ?_⟩
      · rw [h]; simp
      · rw [List.count_cons, hc k]
        by_cases hk : kq = k
        · subst hk; simp [hb, hu]
        · simp [hk]
    | some u =>
      simp only [Option.isNone_some, Bool.false_eq_true, if_false]
      obtain ⟨cs, h, hc⟩ := allocate_no_init sp env kq bytes alignment
      refine ⟨cs, h, fun k => ?_⟩
      rw [hc k]
      by_cases hk : kq = k
      · subst hk; simp [hu]
      · simp [hk]

theorem DynamicScratchpad.AllocAll_init_count (reqs : List (memory_kind × Nat × Nat)) :
    ∀ (sp : DynamicScratchpad) (env : MmEnv) (k : memory_kind),
      ∃ cs, (AllocAll reqs sp env).2.2.calls = env.calls ++ cs ∧
        cs.count (MmCall.InitResource k)
          = if (sp.resource k).upstream.isNone
                && reqs.any (fun q => decide (q.1 = k) && decide (q.2.1 ≠ 0)) then 1 else 0 := by
  induction reqs with
  | nil => intro sp env k; exact ⟨[], by simp [AllocAll], by simp⟩
  | cons q rest ih =>
    intro sp env k
    obtain ⟨kq, bytes, alignment⟩ := q
    obtain ⟨cs1, h1, c1⟩ := Alloc_init_count sp env kq bytes alignment
    obtain ⟨cs2, h2, c2⟩ := ih (sp.Alloc env kq bytes alignment).2.1
      (sp.Alloc env kq bytes alignment).2.2 k
    refine ⟨cs1 ++ cs2, ?_, ?_⟩
    · simp only [AllocAll]
      rw [h2, h1, List.append_assoc]
    · rw [List.count_append, c1 k, c2]
      have hup := Alloc_upstream_of sp env kq k bytes alignment
      by_cases hcond : kq = k ∧ bytes ≠ 0 ∧ (sp.resource k).upstream = none
      · rw [if_pos hcond] at hup
        rw [if_pos hcond, hup]
        obtain ⟨hk, hb, hu⟩ := hcond
        simp [hu, hk, hb]
      · rw [if_neg hcond] at hup
        rw [if_neg hcond, hup]
        cases hu : (sp.resource k).upstream with
        | some u => simp
        | none =>
          have hq : (decide (kq = k) && decide (bytes ≠ 0)) = false := by
            by_cases hk : kq = k
            · by_cases hb : bytes = 0
              · simp [hb]
              · exact absurd ⟨hk, hb, hu⟩ hcond
            · simp [hk]
          simp only [List.any_cons, hq, Bool.false_or, Nat.zero_add]

theorem DynamicScratchpad.allocate_blocks (sp : DynamicScratchpad) (env : MmEnv)
    (k : memory_kind) (bytes alignment : Nat) :
    (sp.resource k).blocks <:+ (((sp.allocate env k bytes alignment).2.1).resource k).blocks := by
  unfold allocate
  cases hu : (sp.resource k).upstream with
  | none => simp [hu]
  | some up =>
    simp only [hu]
    split_ifs
    · simp [resource, PerKind.get_set_same]
    · simp only [resource, PerKind.get_set_same]
      exact List.suffix_cons _ _

theorem DynamicScratchpad.Alloc_materialised (sp : DynamicScratchpad) (env : MmEnv)
    (kq k : memory_kind) (bytes alignment : Nat) (u : resource_ref)
    (hu : (sp.resource k).upstream = some u) :
    (((sp.Alloc env kq bytes alignment).2.1).resource k).upstream = some u ∧
    (sp.resource k).blocks <:+ (((sp.Alloc env kq bytes alignment).2.1).resource k).blocks := by
  refine ⟨by rw [Alloc_upstream_of]; simp [hu], ?_⟩
  rw [Alloc_eq]
  by_cases hk : kq = k
  · subst hk
    unfold AllocImpl
    by_cases hb : bytes = 0
    · simp [hb]
    · simp only [hb, if_false, hu, Option.isNone_some, Bool.false_eq_true]
      exact allocate_blocks sp env kq bytes alignment
  · have hk' : k ≠ kq := fun h => hk h.symm
    rw [((AllocImpl_frame sp env kq bytes alignment).1 k hk').1]

theorem DynamicScratchpad.AllocAll_materialised (reqs : List (memory_kind × Nat × Nat)) :
    ∀ (sp : DynamicScratchpad) (env : MmEnv) (k : memory_kind) (u : resource_ref),
      (sp.resource k).upstream = some u →
      (((AllocAll reqs sp env).2.1).resource k).upstream = some u ∧
      (sp.resource k).blocks <:+ (((AllocAll reqs sp env).2.1).resource k).blocks := by
  induction reqs with
  | nil => intro sp env k u hu; exact ⟨hu, List.suffix_refl _⟩
  | cons q rest ih =>
    intro sp env k u hu
    obtain ⟨kq, bytes, alignment⟩ := q
    obtain ⟨s1, s2⟩ := Alloc_materialised sp env kq k bytes alignment u hu
    obtain ⟨i1, i2⟩ := ih (sp.Alloc env kq bytes alignment).2.1
      (sp.Alloc env kq bytes alignment).2.2 k u s1
    simp only [AllocAll]
    exact ⟨i1, s2.trans i2⟩

theorem DynamicScratchpad.AllocAll_append (a b : List (memory_kind × Nat × Nat)) :
    ∀ (sp : DynamicScratchpad) (env : MmEnv),
      (AllocAll (a ++ b) sp env).2
        = (AllocAll b (AllocAll a sp env).2.1 (AllocAll a sp env).2.2).2 := by
  induction a with
  | nil => intro sp env; rfl
  | cons q rest ih =>
    intro sp env
    obtain ⟨kq, bytes, alignment⟩ := q
    simp only [List.cons_append, AllocAll]
    exact ih _ _

theorem DynamicScratchpad.Alloc_first_request (sp : DynamicScratchpad) (env : MmEnv)
    (k : memory_kind) (bytes alignment : Nat) (hb : bytes ≠ 0)
    (hu : (sp.resource k).upstream = none) :
    ∃ cs, (sp.Alloc env k bytes alignment).2.2.calls
        = env.calls ++ MmCall.InitResource k :: cs ∧
      cs.count (MmCall.InitResource k) = 0 := by
  rw [Alloc_eq]
  unfold AllocImpl
  simp only [hb, if_false, hu, Option.isNone_none, if_true]
  obtain ⟨cs, h, hc⟩ := allocate_no_init (sp.InitResource k)
      { env with calls := env.calls ++ [MmCall.InitResource k] } k bytes alignment
  exact ⟨cs, by rw [h]; simp, hc k⟩

/-- C22: over any sequence of `Alloc` calls on one scratchpad, the upstream of a
kind is initialised at most once: exactly once when the kind has no upstream at
the start and the sequence has a request of that kind with `bytes > 0`, never
otherwise.  The initialisation is the first thing that first such request does;
the requests before it leave the kind without upstream.  Once a kind has its
upstream, a request of that kind with `bytes > 0` is the `allocate` call on the
resource that is there, the upstream stays the same and the blocks the resource
has taken are kept. -/
theorem upstream_initialised_at_most_once (sp : DynamicScratchpad) (env : MmEnv)
    (reqs : List (memory_kind × Nat × Nat)) (k : memory_kind) :
    (∃ cs, (AllocAll reqs sp env).2.2.calls = env.calls ++ cs ∧
      cs.count (MmCall.InitResource k)
        = if (sp.resource k).upstream.isNone
              && reqs.any (fun q => decide (q.1 = k) && decide (q.2.1 ≠ 0)) then 1 else 0) ∧
    (∀ pre bytes alignment suf, reqs = pre ++ (k, bytes, alignment) :: suf →
      (∀ q ∈ pre, q.1 = k → q.2.1 = 0) → bytes ≠ 0 → (sp.resource k).upstream = none →
      (((AllocAll pre sp env).2.1).resource k).upstream = none ∧
      ∃ cs1 cs2,
        (AllocAll pre sp env).2.2.calls = env.calls ++ cs1 ∧
        (AllocAll reqs sp env).2.2.calls
          = env.calls ++ cs1 ++ MmCall.InitResource k :: cs2 ∧
        MmCall.InitResource k ∉ cs1 ∧ MmCall.InitResource k ∉ cs2) ∧
    (∀ u, (sp.resource k).upstream = some u →
      (∀ bytes alignment, bytes ≠ 0 →
        sp.Alloc env k bytes alignment = sp.allocate env k bytes alignment) ∧
      (((AllocAll reqs sp env).2.1).resource k).upstream = some u ∧
      (sp.resource k).blocks <:+ (((AllocAll reqs sp env).2.1).resource k).blocks) := by
  refine ⟨AllocAll_init_count reqs sp env k, ?_, ?_⟩
  · intro pre bytes alignment suf hreqs hpre hb hu
    have hkeep := (AllocAll_untouched pre sp env k hpre).1
    have hu1 : (((AllocAll pre sp env).2.1).resource k).upstream = none := by
      rw [hkeep]; exact hu
    refine ⟨hu1, ?_⟩
    obtain ⟨cs1, h1, c1⟩ := AllocAll_init_count pre sp env k
    have hany : pre.any (fun q => decide (q.1 = k) && decide (q.2.1 ≠ 0)) = false := by
      rw [List.any_eq_false]
      intro q hq
      by_cases hk : q.1 = k
      · simp [hk, hpre q hq hk]
      · simp [hk]
    rw [hany, Bool.and_false] at c1
    obtain ⟨cs, h2, c2⟩ := Alloc_first_request (AllocAll pre sp env).2.1
      (AllocAll pre sp env).2.2 k bytes alignment hb hu1
    have hu2 : ((((AllocAll pre sp env).2.1.Alloc (AllocAll pre sp env).2.2 k bytes
        alignment).2.1).resource k).upstream.isNone = false := by
      rw [Alloc_upstream_of]
      simp [hb, hu1]
    obtain ⟨cs3, h3, c3⟩ := AllocAll_init_count suf
      ((AllocAll pre sp env).2.1.Alloc (AllocAll pre sp env).2.2 k bytes alignment).2.1
      ((AllocAll pre sp env).2.1.Alloc (AllocAll pre sp env).2.2 k bytes alignment).2.2 k
    rw [hu2, Bool.false_and] at c3
    refine ⟨cs1, cs ++ cs3, h1, ?_, ?_, ?_⟩
    · rw [hreqs, AllocAll_append]
      simp only [AllocAll]
      rw [h3, h2, h1]
      simp
    · exact List.count_eq_zero.mp (by simpa using c1)
    · apply List.count_eq_zero.mp
      rw [List.count_append, c2]
      simpa using c3
  · intro u hu
    refine ⟨fun bytes alignment hb => ?_, AllocAll_materialised reqs sp env k u hu⟩
    rw [Alloc_eq]
    unfold AllocImpl
    simp [hb, hu]

/-- C22, witness: on a new scratchpad, a zero-byte device request, then three
device requests with a pinned one between them: one initialisation of the device
upstream, made by the second request. -/
theorem upstream_initialised_at_most_once_witness :
    (∃ cs,
      (AllocAll [(memory_kind.device, 0, 8), (memory_kind.device, 10, 8),
          (memory_kind.pinned, 4, 4), (memory_kind.device, 100000, 8),
          (memory_kind.device, 5, 1)]
        (create (AccessOrder.stream 1 0) AccessOrder.unset AccessOrder.unset
          default_initial_sizes)
        { top := 4096, calls := [] }).2.2.calls = [] ++ cs ∧
      cs.count (MmCall.InitResource memory_kind.device) = 1) ∧
    (AllocAll [(memory_kind.device, 0, 8), (memory_kind.device, 10, 8),
        (memory_kind.pinned, 4, 4), (memory_kind.device, 100000, 8),
        (memory_kind.device, 5, 1)]
      (create (AccessOrder.stream 1 0) AccessOrder.unset AccessOrder.unset
        default_initial_sizes)
      { top := 4096, calls := [] }).2.2.calls.map
        (fun c => match c with
          | MmCall.InitResource k => some k
          | _ => none)
      = [some memory_kind.device, none, some memory_kind.pinned, none, none] := by
  refine ⟨?_, by decide⟩
  obtain ⟨cs, h1, h2⟩ :=
    (upstream_initialised_at_most_once
      (create (AccessOrder.stream 1 0) AccessOrder.unset AccessOrder.unset
        default_initial_sizes)
      { top := 4096, calls := [] }
      [(memory_kind.device, 0, 8), (memory_kind.device, 10, 8),
        (memory_kind.pinned, 4, 4), (memory_kind.device, 100000, 8),
        (memory_kind.device, 5, 1)] memory_kind.device).1
  exact ⟨cs, h1, h2.trans (by decide)⟩

end kernels

end dali

/-! ## The move assignment of the cuFile handle -/

namespace cufile

open CUFileHandle

/-- C23: after the move assignment `a = std::move(b)` of two distinct handles,
`a` holds the `cufh`, `fd` and `fdd` that `b` held, `b` is closed (`cufh` null,
`fd` and `fdd` -1), and the calls made are the release of what `a` held, each
member once and nothing else: the deregistration of `cufh` when it was not null,
then the close of `fd` and of `fdd` when they were not -1.  `Close()` on a
closed handle makes no call and leaves it closed, and `Close()` always leaves a
closed handle. -/
theorem operator_assign_moves_and_releases (a b : CUFileHandle) (calls : List FileCall) :
    (operator_assign a b calls).1 = b ∧
    (operator_assign a b calls).2.1 = { cufh := 0, fd := -1, fdd := -1 } ∧
    (operator_assign a b calls).2.2
      = calls ++ (if a.cufh ≠ 0 then [FileCall.cuFileHandleDeregister a.cufh] else [])
          ++ (if a.fd ≠ -1 then [FileCall.close a.fd] else [])
          ++ (if a.fdd ≠ -1 then [FileCall.close a.fdd] else []) ∧
    (∀ h : CUFileHandle, h.closed = true → h.Close calls = (h, calls)) ∧
    (∀ h : CUFileHandle, (h.Close calls).1 = { cufh := 0, fd := -1, fdd := -1 } ∧
      (h.Close calls).1.closed = true) := by
  obtain ⟨ac, af, ad⟩ := a
  obtain ⟨bc, bf, bd⟩ := b
  refine ⟨rfl, ?_, ?_, ?_, ?_⟩
  · simp only [operator_assign, Close]
    by_cases h : ac = 0 <;> simp [h]
  · simp only [operator_assign, Close]
    by_cases h1 : ac = 0 <;> by_cases h2 : af = -1 <;> by_cases h3 : ad = -1 <;>
      simp [h1, h2, h3]
  · rintro ⟨hc, hf, hd⟩ h
    simp only [closed, Bool.and_eq_true, beq_iff_eq] at h
    obtain ⟨⟨h1, h2⟩, h3⟩ := h
    subst h1 h2 h3
    rfl
  · rintro ⟨hc, hf, hd⟩
    by_cases h : hc = 0 <;> simp [Close, closed, h]

/-- C23, witness: a handle with a registered `cufh` and two open descriptors is
move-assigned from another open handle; a closed handle is closed again. -/
theorem operator_assign_moves_and_releases_witness :
    (operator_assign { cufh := 100, fd := 3, fdd := 4 } { cufh := 200, fd := 5, fdd := 6 }
      []).1 = { cufh := 200, fd := 5, fdd := 6 } ∧
    (operator_assign { cufh := 100, fd := 3, fdd := 4 } { cufh := 200, fd := 5, fdd := 6 }
      []).2.1 = { cufh := 0, fd := -1, fdd := -1 } ∧
    (operator_assign { cufh := 100, fd := 3, fdd := 4 } { cufh := 200, fd := 5, fdd := 6 }
      []).2.2 = [FileCall.cuFileHandleDeregister 100, FileCall.close 3, FileCall.close 4] ∧
    ({ cufh := 0, fd := -1, fdd := -1 } : CUFileHandle).closed = true ∧
    ({ cufh := 0, fd := -1, fdd := -1 } : CUFileHandle).Close []
      = ({ cufh := 0, fd := -1, fdd := -1 }, []) :=
  ⟨(operator_assign_moves_and_releases { cufh := 100, fd := 3, fdd := 4 }
      { cufh := 200, fd := 5, fdd := 6 } []).1,
   (operator_assign_moves_and_releases { cufh := 100, fd := 3, fdd := 4 }
      { cufh := 200, fd := 5, fdd := 6 } []).2.1,
   (operator_assign_moves_and_releases { cufh := 100, fd := 3, fdd := 4 }
      { cufh := 200, fd := 5, fdd := 6 } []).2.2.1.trans (by decide),
   by decide,
   (operator_assign_moves_and_releases { cufh := 100, fd := 3, fdd := 4 }
      { cufh := 200, fd := 5, fdd := 6 } []).2.2.2.1 { cufh := 0, fd := -1, fdd := -1 }
     (by decide)⟩


end cufile
